import Mathlib

/-!
# UART HAL header (`stm32mp1xx_hal_uart.h`): interrupt token macros, flag macros, state
values and baud-rate helpers

Shallow embedding of the macros and inline functions of the header.

* `uint32_t`, `uint16_t` and `uint8_t` values are natural numbers; every cast and every
  operation that can leave the width is written with an explicit `% 2 ^ w`.
* The memory-mapped register block is a record of register values, and a macro that writes a
  register is a function from the handle before to the handle after.
* An expression whose evaluation is undefined in C (division by zero, indexing past the end of
  `presc_table`) yields `none`.
* Register masks that `stm32_uart_regs.h` defines are parameters (`USART_CR3_Masks`).
* The blocking transfer primitives are only declared in the header; their definitions here
  follow the design description and run on a recorded list of status register polls.
-/

namespace Stm32Uart

/-! ## Data model -/

/-- Modelled from the spec: the register block `USART_TypeDef` is declared in
`stm32_uart_regs.h`, which is outside the sources. The header's macros use three control
registers `CR1`, `CR2`, `CR3`, the status register `ISReg`, the interrupt clear register `ICR`
and the request register `RQR`; each is a 32-bit register. -/
structure USART_TypeDef where
  CR1 : Nat
  CR2 : Nat
  CR3 : Nat
  ISReg : Nat
  ICR : Nat
  RQR : Nat
deriving DecidableEq, Repr

/-- Every register of the block holds a 32-bit value. -/
def USART_TypeDef.wf (u : USART_TypeDef) : Prop :=
  u.CR1 < 2 ^ 32 ∧ u.CR2 < 2 ^ 32 ∧ u.CR3 < 2 ^ 32 ∧
  u.ISReg < 2 ^ 32 ∧ u.ICR < 2 ^ 32 ∧ u.RQR < 2 ^ 32

instance (u : USART_TypeDef) : Decidable u.wf :=
  inferInstanceAs (Decidable (u.CR1 < 2 ^ 32 ∧ u.CR2 < 2 ^ 32 ∧ u.CR3 < 2 ^ 32 ∧
    u.ISReg < 2 ^ 32 ∧ u.ICR < 2 ^ 32 ∧ u.RQR < 2 ^ 32))

/-- Structure `UART_InitTypeDef`: the communication parameters, each a `uint32_t`. -/
structure UART_InitTypeDef where
  BaudRate : Nat
  WordLength : Nat
  StopBits : Nat
  Parity : Nat
  Mode : Nat
  HwFlowCtl : Nat
  OverSampling : Nat
  OneBitSampling : Nat
  Prescaler : Nat
  FIFOMode : Nat
  TXFIFOThreshold : Nat
  RXFIFOThreshold : Nat
deriving DecidableEq, Repr

/-- Structure `UART_AdvFeatureInitTypeDef`: the advanced feature parameters, each a
`uint32_t`. -/
structure UART_AdvFeatureInitTypeDef where
  AdvFeatureInit : Nat
  TxPinLevelInvert : Nat
  RxPinLevelInvert : Nat
  DataInvert : Nat
  Swap : Nat
  OverrunDisable : Nat
  DMADisableonRxError : Nat
  AutoBaudRateEnable : Nat
  AutoBaudRateMode : Nat
  MSBFirst : Nat
deriving DecidableEq, Repr

/-- Structure `UART_HandleTypeDef` without the conditionally compiled DMA handles: the register
block behind `Instance`, the two parameter records, the transfer buffers (as addresses), sizes
and counters, the receive mask, the lock, the two state fields and the error code. -/
structure UART_HandleTypeDef where
  Instance : USART_TypeDef
  Init : UART_InitTypeDef
  AdvancedInit : UART_AdvFeatureInitTypeDef
  pTxBuffPtr : Nat
  TxXferSize : Nat
  TxXferCount : Nat
  pRxBuffPtr : Nat
  RxXferSize : Nat
  RxXferCount : Nat
  Mask : Nat
  Lock : Nat
  gState : Nat
  RxState : Nat
  ErrorCode : Nat
deriving DecidableEq, Repr

/-- The three control registers. -/
inductive CtrlReg where
  | CR1
  | CR2
  | CR3
deriving DecidableEq, Repr

/-- Value of a control register of the block. -/
def USART_TypeDef.ctrl (u : USART_TypeDef) : CtrlReg → Nat
  | .CR1 => u.CR1
  | .CR2 => u.CR2
  | .CR3 => u.CR3

/-- The 32-bit complement `~x` of a `uint32_t`. -/
def not32 (x : Nat) : Nat := 0xFFFFFFFF ^^^ (x % 2 ^ 32)

/-! ## Interrupt definitions -/

/-- Constant `UART_IT_MASK`: `((uint32_t)0x001FU)`. -/
def UART_IT_MASK : Nat := 0x001F

def UART_IT_PE : Nat := 0x0028
def UART_IT_TXE : Nat := 0x0727
def UART_IT_TC : Nat := 0x0626
def UART_IT_RXNE : Nat := 0x0525
def UART_IT_LBD : Nat := 0x0846
def UART_IT_CTS : Nat := 0x096A
def UART_IT_CM : Nat := 0x112E
def UART_IT_WUF : Nat := 0x1476
def UART_IT_RXFF : Nat := 0x183F
def UART_IT_TXFE : Nat := 0x173E
def UART_IT_RXFT : Nat := 0x1A7C
def UART_IT_TXFT : Nat := 0x1B77
def UART_IT_ERR : Nat := 0x0060
def UART_IT_ORE : Nat := 0x0300
def UART_IT_NE : Nat := 0x0200
def UART_IT_FE : Nat := 0x0100

/-- The interrupt tokens the header defines, in the order of their definition. -/
def UART_Interrupt_definition : List Nat :=
  [UART_IT_PE, UART_IT_TXE, UART_IT_TC, UART_IT_RXNE, UART_IT_LBD, UART_IT_CTS, UART_IT_CM,
   UART_IT_WUF, UART_IT_RXFF, UART_IT_TXFE, UART_IT_RXFT, UART_IT_TXFT, UART_IT_ERR,
   UART_IT_ORE, UART_IT_NE, UART_IT_FE]

/-- Token layout of the header's convention `000ZZZZZ0XXYYYYYb`:
`(z << 8) | (s << 5) | y` for register selector `s`, enable-bit position `y` and status
flag position `z`. -/
def encodeToken (s y z : Nat) : Nat := (z <<< 8) ||| (s <<< 5) ||| y

/-! ## Interrupt macros -/

/-- The selector expression of `__HAL_UART_ENABLE_IT` and `__HAL_UART_DISABLE_IT`:
`((uint8_t)((__INTERRUPT__) & 0xFF)) >> 5U`. -/
def IT_selector (it : Nat) : Nat := ((it &&& 0xFF) % 2 ^ 8) >>> 5

/-- The mask expression of `__HAL_UART_ENABLE_IT` and `__HAL_UART_DISABLE_IT`:
`1U << ((__INTERRUPT__) & UART_IT_MASK)`. -/
def IT_bit (it : Nat) : Nat := (1 <<< (it &&& UART_IT_MASK)) % 2 ^ 32

/-- The selector expression of `__HAL_UART_GET_IT_SOURCE`: `((uint8_t)(__IT__)) >> 5U`. -/
def IT_SOURCE_selector (it : Nat) : Nat := (it % 2 ^ 8) >>> 5

/-- The mask expression of `__HAL_UART_GET_IT_SOURCE`:
`(uint32_t)1 << (((uint16_t)(__IT__)) & UART_IT_MASK)`. -/
def IT_SOURCE_bit (it : Nat) : Nat := (1 <<< ((it % 2 ^ 16) &&& UART_IT_MASK)) % 2 ^ 32

/-- Macro `__HAL_UART_ENABLE_IT(__HANDLE__, __INTERRUPT__)`: a chain of two conditionals on the
selector, each branch an `|=` on one control register. -/
def __HAL_UART_ENABLE_IT (h : UART_HandleTypeDef) (it : Nat) : UART_HandleTypeDef :=
  if IT_selector it = 1 then
    { h with Instance := { h.Instance with CR1 := (h.Instance.CR1 ||| IT_bit it) % 2 ^ 32 } }
  else if IT_selector it = 2 then
    { h with Instance := { h.Instance with CR2 := (h.Instance.CR2 ||| IT_bit it) % 2 ^ 32 } }
  else
    { h with Instance := { h.Instance with CR3 := (h.Instance.CR3 ||| IT_bit it) % 2 ^ 32 } }

/-- Macro `__HAL_UART_DISABLE_IT(__HANDLE__, __INTERRUPT__)`: the same chain, each branch an
`&= ~` on one control register. -/
def __HAL_UART_DISABLE_IT (h : UART_HandleTypeDef) (it : Nat) : UART_HandleTypeDef :=
  if IT_selector it = 1 then
    { h with Instance := { h.Instance with CR1 := h.Instance.CR1 &&& not32 (IT_bit it) } }
  else if IT_selector it = 2 then
    { h with Instance := { h.Instance with CR2 := h.Instance.CR2 &&& not32 (IT_bit it) } }
  else
    { h with Instance := { h.Instance with CR3 := h.Instance.CR3 &&& not32 (IT_bit it) } }

/-- Macro `__HAL_UART_GET_IT(__HANDLE__, __IT__)`:
`ISReg & ((uint32_t)1 << ((__IT__) >> 0x08))`. The shift is defined in C only for a count
below 32. -/
def __HAL_UART_GET_IT (h : UART_HandleTypeDef) (it : Nat) : Nat :=
  h.Instance.ISReg &&& ((1 <<< (it >>> 0x08)) % 2 ^ 32)

/-- Macro `__HAL_UART_GET_IT_SOURCE(__HANDLE__, __IT__)`: the control register chosen by the
chain of conditionals, masked with the enable bit. -/
def __HAL_UART_GET_IT_SOURCE (h : UART_HandleTypeDef) (it : Nat) : Nat :=
  (if IT_SOURCE_selector it = 1 then h.Instance.CR1
   else if IT_SOURCE_selector it = 2 then h.Instance.CR2
   else h.Instance.CR3) &&& IT_SOURCE_bit it

/-! ## Baud-rate helpers -/

/-- The table `static const uint16_t presc_table[12]`. -/
def presc_table : List Nat := [1, 2, 4, 6, 8, 10, 12, 16, 32, 64, 128, 256]

/-- Function `uart_div_sampling8(clockfreq, baud_rate, prescaler)`:
`scaled_freq = clockfreq / presc_table[prescaler]` stored in a `uint32_t`, then
`((scaled_freq * 2) + (baud_rate / 2)) / baud_rate` in `uint32_t` arithmetic. An index past the
end of the table and a zero divisor in either division are undefined in C and give `none`. -/
def uart_div_sampling8 (clockfreq baud_rate prescaler : Nat) : Option Nat :=
  match presc_table[prescaler]? with
  | none => none
  | some d =>
    if d = 0 then none
    else
      let scaled_freq := (clockfreq / d) % 2 ^ 32
      if baud_rate = 0 then none
      else some ((((scaled_freq * 2) % 2 ^ 32 + baud_rate / 2) % 2 ^ 32) / baud_rate)

/-- Function `uart_div_sampling16(clockfreq, baud_rate, prescaler)`:
`scaled_freq = clockfreq / presc_table[prescaler]` stored in a `uint32_t`, then
`(scaled_freq + (baud_rate / 2)) / baud_rate` in `uint32_t` arithmetic. An index past the end of
the table and a zero divisor in either division are undefined in C and give `none`. -/
def uart_div_sampling16 (clockfreq baud_rate prescaler : Nat) : Option Nat :=
  match presc_table[prescaler]? with
  | none => none
  | some d =>
    if d = 0 then none
    else
      let scaled_freq := (clockfreq / d) % 2 ^ 32
      if baud_rate = 0 then none
      else some (((scaled_freq + baud_rate / 2) % 2 ^ 32) / baud_rate)

/-- Macro `IS_UART_BAUDRATE(__BAUDRATE__)`: `((__BAUDRATE__) < 12500001U)`. -/
def IS_UART_BAUDRATE (baudrate : Nat) : Bool := decide (baudrate < 12500001)

/-- Constant `UART_PRESCALER_DIV1`: `((uint32_t)0x00000000U)`, UART clock /1. -/
def UART_PRESCALER_DIV1 : Nat := 0x00000000
/-- Constant `UART_PRESCALER_DIV2`: UART clock /2. -/
def UART_PRESCALER_DIV2 : Nat := 0x00000001
/-- Constant `UART_PRESCALER_DIV4`: UART clock /4. -/
def UART_PRESCALER_DIV4 : Nat := 0x00000002
/-- Constant `UART_PRESCALER_DIV6`: UART clock /6. -/
def UART_PRESCALER_DIV6 : Nat := 0x00000003
/-- Constant `UART_PRESCALER_DIV8`: UART clock /8. -/
def UART_PRESCALER_DIV8 : Nat := 0x00000004
/-- Constant `UART_PRESCALER_DIV10`: UART clock /10. -/
def UART_PRESCALER_DIV10 : Nat := 0x00000005
/-- Constant `UART_PRESCALER_DIV12`: UART clock /12. -/
def UART_PRESCALER_DIV12 : Nat := 0x00000006
/-- Constant `UART_PRESCALER_DIV16`: UART clock /16. -/
def UART_PRESCALER_DIV16 : Nat := 0x00000007
/-- Constant `UART_PRESCALER_DIV32`: UART clock /32. -/
def UART_PRESCALER_DIV32 : Nat := 0x00000008
/-- Constant `UART_PRESCALER_DIV64`: UART clock /64. -/
def UART_PRESCALER_DIV64 : Nat := 0x00000009
/-- Constant `UART_PRESCALER_DIV128`: UART clock /128. -/
def UART_PRESCALER_DIV128 : Nat := 0x0000000A
/-- Constant `UART_PRESCALER_DIV256`: UART clock /256. -/
def UART_PRESCALER_DIV256 : Nat := 0x0000000B

/-- Macro `IS_UART_PRESCALER(__PRESCALER__)`: the disjunction of the twelve comparisons with the
`UART_PRESCALER_DIVn` values. -/
def IS_UART_PRESCALER (prescaler : Nat) : Bool :=
  (prescaler == UART_PRESCALER_DIV1) ||
  (prescaler == UART_PRESCALER_DIV2) ||
  (prescaler == UART_PRESCALER_DIV4) ||
  (prescaler == UART_PRESCALER_DIV6) ||
  (prescaler == UART_PRESCALER_DIV8) ||
  (prescaler == UART_PRESCALER_DIV10) ||
  (prescaler == UART_PRESCALER_DIV12) ||
  (prescaler == UART_PRESCALER_DIV16) ||
  (prescaler == UART_PRESCALER_DIV32) ||
  (prescaler == UART_PRESCALER_DIV64) ||
  (prescaler == UART_PRESCALER_DIV128) ||
  (prescaler == UART_PRESCALER_DIV256)

/-- Modelled from the spec: the step of `UART_SetConfig` that writes the baud rate register in
8x oversampling. `UART_SetConfig` is only declared in the header; the value is the one the
comment on `UART_InitTypeDef.BaudRate` documents for the intermediate divisor `d`:
`(d & 0xFFF0) | ((d & 0x000F) >> 1)`. -/
def BRR_sampling8 (d : Nat) : Nat := (d &&& 0xFFF0) ||| ((d &&& 0x000F) >>> 1)

/-! ## Flag macros -/

/-- Macro `__HAL_UART_GET_FLAG(__HANDLE__, __FLAG__)`: `((ISReg & (__FLAG__)) == (__FLAG__))`. -/
def __HAL_UART_GET_FLAG (h : UART_HandleTypeDef) (flag : Nat) : Bool :=
  (h.Instance.ISReg &&& flag) == flag

/-- Macro `__HAL_UART_CLEAR_FLAG(__HANDLE__, __FLAG__)`: `ICR = (__FLAG__)`, a store to a 32-bit
register. -/
def __HAL_UART_CLEAR_FLAG (h : UART_HandleTypeDef) (flag : Nat) : UART_HandleTypeDef :=
  { h with Instance := { h.Instance with ICR := flag % 2 ^ 32 } }

/-- Macro `__HAL_UART_CLEAR_IT(__HANDLE__, __IT_CLEAR__)`: `ICR = (uint32_t)(__IT_CLEAR__)`. -/
def __HAL_UART_CLEAR_IT (h : UART_HandleTypeDef) (it_clear : Nat) : UART_HandleTypeDef :=
  { h with Instance := { h.Instance with ICR := (it_clear % 2 ^ 32) % 2 ^ 32 } }

/-! ## State values -/

/-- Constant `HAL_UART_STATE_RESET`: allowed for `gState` and `RxState`. -/
def HAL_UART_STATE_RESET : Nat := 0x00
/-- Constant `HAL_UART_STATE_READY`: allowed for `gState` and `RxState`. -/
def HAL_UART_STATE_READY : Nat := 0x20
/-- Constant `HAL_UART_STATE_BUSY`: allowed for `gState` only. -/
def HAL_UART_STATE_BUSY : Nat := 0x24
/-- Constant `HAL_UART_STATE_BUSY_TX`: allowed for `gState` only. -/
def HAL_UART_STATE_BUSY_TX : Nat := 0x21
/-- Constant `HAL_UART_STATE_BUSY_RX`: allowed for `RxState` only. -/
def HAL_UART_STATE_BUSY_RX : Nat := 0x22
/-- Constant `HAL_UART_STATE_BUSY_TX_RX`: not to be used for `gState` nor `RxState`. -/
def HAL_UART_STATE_BUSY_TX_RX : Nat := 0x23
/-- Constant `HAL_UART_STATE_TIMEOUT`: allowed for `gState` only. -/
def HAL_UART_STATE_TIMEOUT : Nat := 0xA0
/-- Constant `HAL_UART_STATE_ERROR`: allowed for `gState` only. -/
def HAL_UART_STATE_ERROR : Nat := 0xE0

/-- The values the enumeration's comments allow for `gState`. -/
def gStateValues : List Nat :=
  [HAL_UART_STATE_RESET, HAL_UART_STATE_READY, HAL_UART_STATE_BUSY, HAL_UART_STATE_BUSY_TX,
   HAL_UART_STATE_TIMEOUT, HAL_UART_STATE_ERROR]

/-- The values the enumeration's comments allow for `RxState`. -/
def RxStateValues : List Nat :=
  [HAL_UART_STATE_RESET, HAL_UART_STATE_READY, HAL_UART_STATE_BUSY_RX]

/-- The control register picked by the chain of conditionals of `__HAL_UART_ENABLE_IT` and
`__HAL_UART_DISABLE_IT`: `CR1` for selector 1, `CR2` for selector 2, `CR3` in the final
branch. -/
def IT_register (it : Nat) : CtrlReg :=
  if IT_selector it = 1 then .CR1 else if IT_selector it = 2 then .CR2 else .CR3

/-- The register block with one control register replaced. -/
def USART_TypeDef.setCtrl (u : USART_TypeDef) (r : CtrlReg) (v : Nat) : USART_TypeDef :=
  match r with
  | .CR1 => { u with CR1 := v }
  | .CR2 => { u with CR2 := v }
  | .CR3 => { u with CR3 := v }

/-! ## Error codes and handle reset -/

/-- Constant `HAL_UART_ERROR_NONE`: no error. -/
def HAL_UART_ERROR_NONE : Nat := 0x00
/-- Constant `HAL_UART_ERROR_PE`: parity error. -/
def HAL_UART_ERROR_PE : Nat := 0x01
/-- Constant `HAL_UART_ERROR_NE`: noise error. -/
def HAL_UART_ERROR_NE : Nat := 0x02
/-- Constant `HAL_UART_ERROR_FE`: frame error. -/
def HAL_UART_ERROR_FE : Nat := 0x04
/-- Constant `HAL_UART_ERROR_ORE`: overrun error. -/
def HAL_UART_ERROR_ORE : Nat := 0x08
/-- Constant `HAL_UART_ERROR_DMA`: DMA transfer error. -/
def HAL_UART_ERROR_DMA : Nat := 0x10

/-- The error code accumulated by OR from the subset of the five errors that the five flags
select, starting from `HAL_UART_ERROR_NONE`. -/
def accumulatedErrorCode (pe ne fe ore dma : Bool) : Nat :=
  HAL_UART_ERROR_NONE |||
  (if pe then HAL_UART_ERROR_PE else 0) |||
  (if ne then HAL_UART_ERROR_NE else 0) |||
  (if fe then HAL_UART_ERROR_FE else 0) |||
  (if ore then HAL_UART_ERROR_ORE else 0) |||
  (if dma then HAL_UART_ERROR_DMA else 0)

/-- Macro `__HAL_UART_RESET_HANDLE_STATE(__HANDLE__)`: the two assignments
`gState = HAL_UART_STATE_RESET; RxState = HAL_UART_STATE_RESET;`. -/
def __HAL_UART_RESET_HANDLE_STATE (h : UART_HandleTypeDef) : UART_HandleTypeDef :=
  let h1 := { h with gState := HAL_UART_STATE_RESET }
  { h1 with RxState := HAL_UART_STATE_RESET }

/-! ## Advanced feature initialization -/

/-- Constant `UART_ADVFEATURE_NO_INIT`: no advanced feature initialization. -/
def UART_ADVFEATURE_NO_INIT : Nat := 0x00000000
/-- Constant `UART_ADVFEATURE_TXINVERT_INIT`: TX pin active level inversion. -/
def UART_ADVFEATURE_TXINVERT_INIT : Nat := 0x00000001
/-- Constant `UART_ADVFEATURE_RXINVERT_INIT`: RX pin active level inversion. -/
def UART_ADVFEATURE_RXINVERT_INIT : Nat := 0x00000002
/-- Constant `UART_ADVFEATURE_DATAINVERT_INIT`: binary data inversion. -/
def UART_ADVFEATURE_DATAINVERT_INIT : Nat := 0x00000004
/-- Constant `UART_ADVFEATURE_SWAP_INIT`: TX/RX pins swap. -/
def UART_ADVFEATURE_SWAP_INIT : Nat := 0x00000008
/-- Constant `UART_ADVFEATURE_RXOVERRUNDISABLE_INIT`: RX overrun disable. -/
def UART_ADVFEATURE_RXOVERRUNDISABLE_INIT : Nat := 0x00000010
/-- Constant `UART_ADVFEATURE_DMADISABLEONERROR_INIT`: DMA disable on reception error. -/
def UART_ADVFEATURE_DMADISABLEONERROR_INIT : Nat := 0x00000020
/-- Constant `UART_ADVFEATURE_AUTOBAUDRATE_INIT`: auto baud rate detection initialization. -/
def UART_ADVFEATURE_AUTOBAUDRATE_INIT : Nat := 0x00000040
/-- Constant `UART_ADVFEATURE_MSBFIRST_INIT`: most significant bit sent/received first. -/
def UART_ADVFEATURE_MSBFIRST_INIT : Nat := 0x00000080

/-- The eight `UART_ADVFEATURE_*_INIT` flags. -/
def UART_Advanced_Features_Initialization_Type : List Nat :=
  [UART_ADVFEATURE_TXINVERT_INIT, UART_ADVFEATURE_RXINVERT_INIT,
   UART_ADVFEATURE_DATAINVERT_INIT, UART_ADVFEATURE_SWAP_INIT,
   UART_ADVFEATURE_RXOVERRUNDISABLE_INIT, UART_ADVFEATURE_DMADISABLEONERROR_INIT,
   UART_ADVFEATURE_AUTOBAUDRATE_INIT, UART_ADVFEATURE_MSBFIRST_INIT]

/-- Macro `IS_UART_ADVFEATURE_INIT(__INIT__)`: `(__INIT__) <=` the OR of `UART_ADVFEATURE_NO_INIT`
and the eight flags. -/
def IS_UART_ADVFEATURE_INIT (init : Nat) : Bool :=
  decide (init ≤ (UART_ADVFEATURE_NO_INIT |||
    UART_ADVFEATURE_TXINVERT_INIT |||
    UART_ADVFEATURE_RXINVERT_INIT |||
    UART_ADVFEATURE_DATAINVERT_INIT |||
    UART_ADVFEATURE_SWAP_INIT |||
    UART_ADVFEATURE_RXOVERRUNDISABLE_INIT |||
    UART_ADVFEATURE_DMADISABLEONERROR_INIT |||
    UART_ADVFEATURE_AUTOBAUDRATE_INIT |||
    UART_ADVFEATURE_MSBFIRST_INIT))

/-- The bitwise OR of the members of a list of flags. -/
def orAll (flags : List Nat) : Nat := flags.foldr (fun f acc => f ||| acc) 0

/-! ## Control register 3 masks, FIFO thresholds and hardware flow control -/

/-- The bit masks of control register 3 that the header uses; their values are defined in
`stm32_uart_regs.h`, outside the sources, and are taken as parameters. -/
structure USART_CR3_Masks where
  USART_CR3_RTSE : Nat
  USART_CR3_CTSE : Nat
  USART_CR3_TXFTCFG_0 : Nat
  USART_CR3_TXFTCFG_1 : Nat
  USART_CR3_TXFTCFG_2 : Nat
  USART_CR3_RXFTCFG_0 : Nat
  USART_CR3_RXFTCFG_1 : Nat
  USART_CR3_RXFTCFG_2 : Nat
deriving DecidableEq, Repr

/-- A single-bit mask of a 32-bit register. -/
def singleBit32 (m : Nat) : Prop := ∃ i, i < 32 ∧ m = 2 ^ i

/-- Constant `UART_TXFIFO_THRESHOLD_1EIGHTHFULL`: `((uint32_t)0x00000000U)`. -/
def UART_TXFIFO_THRESHOLD_1EIGHTHFULL : Nat := 0x00000000
/-- Constant `UART_TXFIFO_THRESHOLD_1QUARTERFULL`: `((uint32_t)USART_CR3_TXFTCFG_0)`. -/
def UART_TXFIFO_THRESHOLD_1QUARTERFULL (k : USART_CR3_Masks) : Nat :=
  k.USART_CR3_TXFTCFG_0 % 2 ^ 32
/-- Constant `UART_TXFIFO_THRESHOLD_HALFFULL`: `((uint32_t)USART_CR3_TXFTCFG_1)`. -/
def UART_TXFIFO_THRESHOLD_HALFFULL (k : USART_CR3_Masks) : Nat :=
  k.USART_CR3_TXFTCFG_1 % 2 ^ 32
/-- Constant `UART_TXFIFO_THRESHOLD_3QUARTERSFULL`:
`((uint32_t)(USART_CR3_TXFTCFG_0 | USART_CR3_TXFTCFG_1))`. -/
def UART_TXFIFO_THRESHOLD_3QUARTERSFULL (k : USART_CR3_Masks) : Nat :=
  (k.USART_CR3_TXFTCFG_0 ||| k.USART_CR3_TXFTCFG_1) % 2 ^ 32
/-- Constant `UART_TXFIFO_THRESHOLD_7EIGHTHFULL`: `((uint32_t)USART_CR3_TXFTCFG_2)`. -/
def UART_TXFIFO_THRESHOLD_7EIGHTHFULL (k : USART_CR3_Masks) : Nat :=
  k.USART_CR3_TXFTCFG_2 % 2 ^ 32
/-- Constant `UART_TXFIFO_THRESHOLD_EMPTY`:
`((uint32_t)(USART_CR3_TXFTCFG_2 | USART_CR3_TXFTCFG_0))`. -/
def UART_TXFIFO_THRESHOLD_EMPTY (k : USART_CR3_Masks) : Nat :=
  (k.USART_CR3_TXFTCFG_2 ||| k.USART_CR3_TXFTCFG_0) % 2 ^ 32

/-- Constant `UART_RXFIFO_THRESHOLD_1EIGHTHFULL`: `((uint32_t)0x00000000U)`. -/
def UART_RXFIFO_THRESHOLD_1EIGHTHFULL : Nat := 0x00000000
/-- Constant `UART_RXFIFO_THRESHOLD_1QUARTERFULL`: `((uint32_t)USART_CR3_RXFTCFG_0)`. -/
def UART_RXFIFO_THRESHOLD_1QUARTERFULL (k : USART_CR3_Masks) : Nat :=
  k.USART_CR3_RXFTCFG_0 % 2 ^ 32
/-- Constant `UART_RXFIFO_THRESHOLD_HALFFULL`: `((uint32_t)USART_CR3_RXFTCFG_1)`. -/
def UART_RXFIFO_THRESHOLD_HALFFULL (k : USART_CR3_Masks) : Nat :=
  k.USART_CR3_RXFTCFG_1 % 2 ^ 32
/-- Constant `UART_RXFIFO_THRESHOLD_3QUARTERSFULL`:
`((uint32_t)(USART_CR3_RXFTCFG_0 | USART_CR3_RXFTCFG_1))`. -/
def UART_RXFIFO_THRESHOLD_3QUARTERSFULL (k : USART_CR3_Masks) : Nat :=
  (k.USART_CR3_RXFTCFG_0 ||| k.USART_CR3_RXFTCFG_1) % 2 ^ 32
/-- Constant `UART_RXFIFO_THRESHOLD_7EIGHTHFULL`: `((uint32_t)USART_CR3_RXFTCFG_2)`. -/
def UART_RXFIFO_THRESHOLD_7EIGHTHFULL (k : USART_CR3_Masks) : Nat :=
  k.USART_CR3_RXFTCFG_2 % 2 ^ 32
/-- Constant `UART_RXFIFO_THRESHOLD_FULL`:
`((uint32_t)(USART_CR3_RXFTCFG_2 | USART_CR3_RXFTCFG_0))`. -/
def UART_RXFIFO_THRESHOLD_FULL (k : USART_CR3_Masks) : Nat :=
  (k.USART_CR3_RXFTCFG_2 ||| k.USART_CR3_RXFTCFG_0) % 2 ^ 32

/-- The six `UART_TXFIFO_THRESHOLD_*` constants, in the order of their definition. -/
def UART_TXFIFO_threshold_level (k : USART_CR3_Masks) : List Nat :=
  [UART_TXFIFO_THRESHOLD_1EIGHTHFULL, UART_TXFIFO_THRESHOLD_1QUARTERFULL k,
   UART_TXFIFO_THRESHOLD_HALFFULL k, UART_TXFIFO_THRESHOLD_3QUARTERSFULL k,
   UART_TXFIFO_THRESHOLD_7EIGHTHFULL k, UART_TXFIFO_THRESHOLD_EMPTY k]

/-- The six `UART_RXFIFO_THRESHOLD_*` constants, in the order of their definition. -/
def UART_RXFIFO_threshold_level (k : USART_CR3_Masks) : List Nat :=
  [UART_RXFIFO_THRESHOLD_1EIGHTHFULL, UART_RXFIFO_THRESHOLD_1QUARTERFULL k,
   UART_RXFIFO_THRESHOLD_HALFFULL k, UART_RXFIFO_THRESHOLD_3QUARTERSFULL k,
   UART_RXFIFO_THRESHOLD_7EIGHTHFULL k, UART_RXFIFO_THRESHOLD_FULL k]

/-- Macro `IS_UART_TXFIFO_THRESHOLD(__THRESHOLD__)`: the disjunction of the six comparisons. -/
def IS_UART_TXFIFO_THRESHOLD (k : USART_CR3_Masks) (threshold : Nat) : Bool :=
  ((threshold == UART_TXFIFO_THRESHOLD_1EIGHTHFULL) ||
   (threshold == UART_TXFIFO_THRESHOLD_1QUARTERFULL k) ||
   (threshold == UART_TXFIFO_THRESHOLD_HALFFULL k) ||
   (threshold == UART_TXFIFO_THRESHOLD_3QUARTERSFULL k) ||
   (threshold == UART_TXFIFO_THRESHOLD_7EIGHTHFULL k)) ||
  (threshold == UART_TXFIFO_THRESHOLD_EMPTY k)

/-- Macro `IS_UART_RXFIFO_THRESHOLD(__THRESHOLD__)`: the disjunction of the six comparisons. -/
def IS_UART_RXFIFO_THRESHOLD (k : USART_CR3_Masks) (threshold : Nat) : Bool :=
  ((threshold == UART_RXFIFO_THRESHOLD_1EIGHTHFULL) ||
   (threshold == UART_RXFIFO_THRESHOLD_1QUARTERFULL k) ||
   (threshold == UART_RXFIFO_THRESHOLD_HALFFULL k) ||
   (threshold == UART_RXFIFO_THRESHOLD_3QUARTERSFULL k) ||
   (threshold == UART_RXFIFO_THRESHOLD_7EIGHTHFULL k)) ||
  (threshold == UART_RXFIFO_THRESHOLD_FULL k)

/-- The six values of a three-bit threshold field with the single-bit masks `c0`, `c1`, `c2`
that the header names: 0, `c0`, `c1`, `c0 | c1`, `c2`, `c2 | c0`, each cast to `uint32_t`. -/
def thresholdLevels (c0 c1 c2 : Nat) : List Nat :=
  [0, c0 % 2 ^ 32, c1 % 2 ^ 32, (c0 ||| c1) % 2 ^ 32, c2 % 2 ^ 32, (c2 ||| c0) % 2 ^ 32]

/-- The masks of the STM32MP1 register reference, used as sample parameters: `RTSE` bit 8,
`CTSE` bit 9, `TXFTCFG` bits 29 to 31, `RXFTCFG` bits 25 to 27. -/
def sampleMasks : USART_CR3_Masks :=
  { USART_CR3_RTSE := 0x00000100, USART_CR3_CTSE := 0x00000200,
    USART_CR3_TXFTCFG_0 := 0x20000000, USART_CR3_TXFTCFG_1 := 0x40000000,
    USART_CR3_TXFTCFG_2 := 0x80000000,
    USART_CR3_RXFTCFG_0 := 0x02000000, USART_CR3_RXFTCFG_1 := 0x04000000,
    USART_CR3_RXFTCFG_2 := 0x08000000 }

/-- The three bits at positions `a`, `b`, `c` of a value. -/
def bits3 (a b c v : Nat) : Bool × Bool × Bool := (v.testBit a, v.testBit b, v.testBit c)

/-- Modelled from the spec: macro `SET_BIT(REG, BIT)` is defined outside the sources. The
register contract has an enable bit set by OR-ing its mask into the 32-bit register, as the
header's own `|=` macros do: `((REG) |= (BIT))`. -/
def SET_BIT (reg bit : Nat) : Nat := (reg ||| bit) % 2 ^ 32

/-- Modelled from the spec: macro `CLEAR_BIT(REG, BIT)` is defined outside the sources. The
register contract has an enable bit cleared by AND-ing the complement of its mask into the
32-bit register, as the header's own `&= ~` macros do: `((REG) &= ~(BIT))`. -/
def CLEAR_BIT (reg bit : Nat) : Nat := reg &&& not32 bit

/-- Constant `UART_HWCONTROL_NONE`: `((uint32_t)0x00000000U)`. -/
def UART_HWCONTROL_NONE : Nat := 0x00000000
/-- Constant `UART_HWCONTROL_RTS`: `((uint32_t)USART_CR3_RTSE)`. -/
def UART_HWCONTROL_RTS (k : USART_CR3_Masks) : Nat := k.USART_CR3_RTSE % 2 ^ 32
/-- Constant `UART_HWCONTROL_CTS`: `((uint32_t)USART_CR3_CTSE)`. -/
def UART_HWCONTROL_CTS (k : USART_CR3_Masks) : Nat := k.USART_CR3_CTSE % 2 ^ 32
/-- Constant `UART_HWCONTROL_RTS_CTS`: `((uint32_t)(USART_CR3_RTSE | USART_CR3_CTSE))`. -/
def UART_HWCONTROL_RTS_CTS (k : USART_CR3_Masks) : Nat :=
  (k.USART_CR3_RTSE ||| k.USART_CR3_CTSE) % 2 ^ 32

/-- Macro `IS_UART_HARDWARE_FLOW_CONTROL(__CONTROL__)`: the disjunction of the four
comparisons. -/
def IS_UART_HARDWARE_FLOW_CONTROL (k : USART_CR3_Masks) (control : Nat) : Bool :=
  (control == UART_HWCONTROL_NONE) ||
  (control == UART_HWCONTROL_RTS k) ||
  (control == UART_HWCONTROL_CTS k) ||
  (control == UART_HWCONTROL_RTS_CTS k)

/-- Macro `__HAL_UART_HWCONTROL_CTS_ENABLE(__HANDLE__)`:
`SET_BIT(CR3, USART_CR3_CTSE); Init.HwFlowCtl |= USART_CR3_CTSE;`. -/
def __HAL_UART_HWCONTROL_CTS_ENABLE (k : USART_CR3_Masks) (h : UART_HandleTypeDef) :
    UART_HandleTypeDef :=
  let h1 := { h with Instance :=
    { h.Instance with CR3 := SET_BIT h.Instance.CR3 k.USART_CR3_CTSE } }
  { h1 with Init :=
    { h1.Init with HwFlowCtl := (h1.Init.HwFlowCtl ||| k.USART_CR3_CTSE) % 2 ^ 32 } }

/-- Macro `__HAL_UART_HWCONTROL_CTS_DISABLE(__HANDLE__)`:
`CLEAR_BIT(CR3, USART_CR3_CTSE); Init.HwFlowCtl &= ~(USART_CR3_CTSE);`. -/
def __HAL_UART_HWCONTROL_CTS_DISABLE (k : USART_CR3_Masks) (h : UART_HandleTypeDef) :
    UART_HandleTypeDef :=
  let h1 := { h with Instance :=
    { h.Instance with CR3 := CLEAR_BIT h.Instance.CR3 k.USART_CR3_CTSE } }
  { h1 with Init :=
    { h1.Init with HwFlowCtl := h1.Init.HwFlowCtl &&& not32 k.USART_CR3_CTSE } }

/-- Macro `__HAL_UART_HWCONTROL_RTS_ENABLE(__HANDLE__)`:
`SET_BIT(CR3, USART_CR3_RTSE); Init.HwFlowCtl |= USART_CR3_RTSE;`. -/
def __HAL_UART_HWCONTROL_RTS_ENABLE (k : USART_CR3_Masks) (h : UART_HandleTypeDef) :
    UART_HandleTypeDef :=
  let h1 := { h with Instance :=
    { h.Instance with CR3 := SET_BIT h.Instance.CR3 k.USART_CR3_RTSE } }
  { h1 with Init :=
    { h1.Init with HwFlowCtl := (h1.Init.HwFlowCtl ||| k.USART_CR3_RTSE) % 2 ^ 32 } }

/-- Macro `__HAL_UART_HWCONTROL_RTS_DISABLE(__HANDLE__)`:
`CLEAR_BIT(CR3, USART_CR3_RTSE); Init.HwFlowCtl &= ~(USART_CR3_RTSE);`. -/
def __HAL_UART_HWCONTROL_RTS_DISABLE (k : USART_CR3_Masks) (h : UART_HandleTypeDef) :
    UART_HandleTypeDef :=
  let h1 := { h with Instance :=
    { h.Instance with CR3 := CLEAR_BIT h.Instance.CR3 k.USART_CR3_RTSE } }
  { h1 with Init :=
    { h1.Init with HwFlowCtl := h1.Init.HwFlowCtl &&& not32 k.USART_CR3_RTSE } }

/-! ## Blocking transfer -/

/-- Modelled from the spec: the outcomes of a blocking transfer. `HAL_UART_Transmit` and
`HAL_UART_Receive` are only declared in the header and their status type is defined outside the
sources; the spec distinguishes success, `PeripheralBusy`, `HardwareError` and `Timeout`. -/
inductive TransferOutcome where
  | Success
  | PeripheralBusy
  | HardwareError
  | Timeout
deriving DecidableEq, Repr

/-- Modelled from the spec: one iteration's poll of the status register by the transfer loop,
which is not in the sources: the tick of the monotonic tick source at the poll, whether the
awaited data-ready/empty flag is set, and the latched error flags as an `ErrorCode` mask (0 when
none is latched). -/
structure Poll where
  now : Nat
  flag : Bool
  errors : Nat
deriving DecidableEq, Repr

/-- Modelled from the spec: how the transfer loop, which is not in the sources, ends: the
outcome, the units moved, the status register reads made, and the error flags observed. -/
structure LoopEnd where
  outcome : TransferOutcome
  units_completed : Nat
  status_reads : Nat
  errors : Nat
deriving DecidableEq, Repr

/-- Modelled from the spec: what a blocking transfer, whose body is not in the sources, reports:
the outcome, the units completed, the status register reads recorded, and the handle after. -/
structure TransferResult where
  outcome : TransferOutcome
  units_completed : Nat
  status_reads : Nat
  handle : UART_HandleTypeDef
deriving DecidableEq, Repr

/-- Modelled from the spec: the loop of the blocking transfer primitives, whose bodies are not
in the sources. With no unit left it ends in success. Otherwise each iteration polls the status
register: latched error flags abort with `HardwareError`; a set flag moves one unit; an unset
flag with the deadline elapsed aborts with `Timeout`; otherwise the loop polls again. The result
is `none` when the recorded polls end before the transfer does. -/
def transferLoop (deadline : Nat) : List Poll → Nat → Nat → Nat → Option LoopEnd
  | _, 0, done, reads =>
    some { outcome := .Success, units_completed := done, status_reads := reads, errors := 0 }
  | [], _ + 1, _, _ => none
  | p :: ps, remaining + 1, done, reads =>
    if p.errors ≠ 0 then
      some { outcome := .HardwareError, units_completed := done, status_reads := reads + 1,
             errors := p.errors }
    else if p.flag then transferLoop deadline ps remaining (done + 1) (reads + 1)
    else if deadline ≤ p.now then
      some { outcome := .Timeout, units_completed := done, status_reads := reads + 1,
             errors := 0 }
    else transferLoop deadline ps (remaining + 1) done (reads + 1)

/-- Modelled from the spec: whether the global axis reads Ready for a transfer start, a check
made by `HAL_UART_Transmit`, whose body is not in the sources. The error/timeout marker is
orthogonal to the busy-vs-idle axis and is cleared by the next operation start, so `TIMEOUT`
and `ERROR` read Ready like `READY`; `RESET`, `BUSY` and `BUSY_TX` do not. -/
def globalAxisReady (g : Nat) : Bool :=
  (g == HAL_UART_STATE_READY) || (g == HAL_UART_STATE_TIMEOUT) || (g == HAL_UART_STATE_ERROR)

/-- Modelled from the spec: the entry step of `HAL_UART_Transmit`, whose body is not in the
sources: on a Ready global axis, `gState` moves to `HAL_UART_STATE_BUSY_TX`; otherwise the
transfer does not start. -/
def transmitStart (h : UART_HandleTypeDef) : Option UART_HandleTypeDef :=
  if globalAxisReady h.gState then some { h with gState := HAL_UART_STATE_BUSY_TX } else none

/-- Modelled from the spec: the global state with the error/timeout marker cleared, as the
next operation start does in the transfer primitives, whose bodies are not in the sources:
`TIMEOUT` and `ERROR` become `READY`, any other value is kept. -/
def clearedMarker (g : Nat) : Nat :=
  if (g == HAL_UART_STATE_TIMEOUT) || (g == HAL_UART_STATE_ERROR) then HAL_UART_STATE_READY
  else g

/-- Modelled from the spec: the entry step of `HAL_UART_Receive`, whose body is not in the
sources: with `RxState` Ready, `RxState` moves to `HAL_UART_STATE_BUSY_RX` and an error/timeout
marker left in `gState` is cleared; otherwise the transfer does not start. -/
def receiveStart (h : UART_HandleTypeDef) : Option UART_HandleTypeDef :=
  if h.RxState == HAL_UART_STATE_READY then
    some { h with RxState := HAL_UART_STATE_BUSY_RX, gState := clearedMarker h.gState }
  else none

/-- Modelled from the spec: the exit step of `HAL_UART_Transmit`, whose body is not in the
sources: success returns `gState` to Ready, latched error flags move it to `ERROR` and are
accumulated into `ErrorCode`, an elapsed deadline moves it to `TIMEOUT`. -/
def transmitEnd (busy : UART_HandleTypeDef) (e : LoopEnd) : UART_HandleTypeDef :=
  match e.outcome with
  | .Success => { busy with gState := HAL_UART_STATE_READY }
  | .HardwareError =>
    { busy with gState := HAL_UART_STATE_ERROR, ErrorCode := busy.ErrorCode ||| e.errors }
  | .Timeout => { busy with gState := HAL_UART_STATE_TIMEOUT }
  | .PeripheralBusy => busy

/-- Modelled from the spec: the exit step of `HAL_UART_Receive`, whose body is not in the
sources: `RxState` leaves `BUSY_RX` for Ready in every case; latched error flags move `gState`
to `ERROR` and are accumulated into `ErrorCode`, an elapsed deadline moves `gState` to
`TIMEOUT`. -/
def receiveEnd (busy : UART_HandleTypeDef) (e : LoopEnd) : UART_HandleTypeDef :=
  match e.outcome with
  | .Success => { busy with RxState := HAL_UART_STATE_READY }
  | .HardwareError =>
    { busy with RxState := HAL_UART_STATE_READY, gState := HAL_UART_STATE_ERROR,
                ErrorCode := busy.ErrorCode ||| e.errors }
  | .Timeout => { busy with RxState := HAL_UART_STATE_READY, gState := HAL_UART_STATE_TIMEOUT }
  | .PeripheralBusy => busy

/-- Modelled from the spec: `HAL_UART_Transmit(huart, pData, Size, Timeout)`, only declared in
the header. A handle whose global axis is not Ready gives `PeripheralBusy` with no register
access and no change. Otherwise the axis moves to busy, the deadline is `now + Timeout` for the
tick `now` read on entry, the loop runs on the polls of the status register, and the exit step
sets the final state. -/
def HAL_UART_Transmit (h : UART_HandleTypeDef) (Size Timeout now : Nat) (polls : List Poll) :
    Option TransferResult :=
  match transmitStart h with
  | none =>
    some { outcome := .PeripheralBusy, units_completed := 0, status_reads := 0, handle := h }
  | some busy =>
    match transferLoop (now + Timeout) polls Size 0 0 with
    | none => none
    | some e =>
      some { outcome := e.outcome, units_completed := e.units_completed,
             status_reads := e.status_reads, handle := transmitEnd busy e }

/-- Modelled from the spec: `HAL_UART_Receive(huart, pData, Size, Timeout)`, only declared in
the header. A handle whose `RxState` is not Ready gives `PeripheralBusy` with no register access
and no change. Otherwise the axis moves to busy, the deadline is `now + Timeout` for the tick
`now` read on entry, the loop runs on the polls of the status register, and the exit step sets
the final state. -/
def HAL_UART_Receive (h : UART_HandleTypeDef) (Size Timeout now : Nat) (polls : List Poll) :
    Option TransferResult :=
  match receiveStart h with
  | none =>
    some { outcome := .PeripheralBusy, units_completed := 0, status_reads := 0, handle := h }
  | some busy =>
    match transferLoop (now + Timeout) polls Size 0 0 with
    | none => none
    | some e =>
      some { outcome := e.outcome, units_completed := e.units_completed,
             status_reads := e.status_reads, handle := receiveEnd busy e }

/-- A poll with the awaited flag set and no error, at tick `t`. -/
def pollReady (t : Nat) : Poll := { now := t, flag := true, errors := 0 }

/-- A poll with the awaited flag unset and no error, at tick `t`. -/
def pollIdle (t : Nat) : Poll := { now := t, flag := false, errors := 0 }

/-- The thirteen interrupt tokens of the header that carry an enable bit, in the order of their
definition. -/
def UART_IT_enable_tokens : List Nat :=
  [UART_IT_PE, UART_IT_TXE, UART_IT_TC, UART_IT_RXNE, UART_IT_LBD, UART_IT_CTS, UART_IT_CM,
   UART_IT_WUF, UART_IT_RXFF, UART_IT_TXFE, UART_IT_RXFT, UART_IT_TXFT, UART_IT_ERR]

/-- The fifteen interrupt tokens of the header that carry a status flag position: every defined
token except `UART_IT_ERR`. -/
def UART_IT_flag_tokens : List Nat :=
  [UART_IT_PE, UART_IT_TXE, UART_IT_TC, UART_IT_RXNE, UART_IT_LBD, UART_IT_CTS, UART_IT_CM,
   UART_IT_WUF, UART_IT_RXFF, UART_IT_TXFE, UART_IT_RXFT, UART_IT_TXFT,
   UART_IT_ORE, UART_IT_NE, UART_IT_FE]

/-! ## Sample state -/

/-- The sample register block of the witnesses: distinct non-zero 32-bit values. -/
def sampleRegs : USART_TypeDef :=
  { CR1 := 0x0000000D, CR2 := 0x00004000, CR3 := 0x00000500,
    ISReg := 0x006000D0, ICR := 0x00000008, RQR := 0x00000010 }

/-- The sample communication parameters of the witnesses: 115200 baud, prescaler index 0, no
hardware flow control. -/
def sampleInit : UART_InitTypeDef :=
  { BaudRate := 115200, WordLength := 0, StopBits := 0, Parity := 0, Mode := 0x0C,
    HwFlowCtl := 0, OverSampling := 0, OneBitSampling := 0, Prescaler := 0, FIFOMode := 0,
    TXFIFOThreshold := 0, RXFIFOThreshold := 0 }

/-- The sample advanced feature parameters of the witnesses: no advanced feature. -/
def sampleAdvInit : UART_AdvFeatureInitTypeDef :=
  { AdvFeatureInit := 0, TxPinLevelInvert := 0, RxPinLevelInvert := 0, DataInvert := 0,
    Swap := 0, OverrunDisable := 0, DMADisableonRxError := 0, AutoBaudRateEnable := 0,
    AutoBaudRateMode := 0, MSBFirst := 0 }

/-- The sample handle of the witnesses: ready on both axes, no error recorded. -/
def sampleHandle : UART_HandleTypeDef :=
  { Instance := sampleRegs, Init := sampleInit, AdvancedInit := sampleAdvInit,
    pTxBuffPtr := 0x2FFC0000, TxXferSize := 4, TxXferCount := 0,
    pRxBuffPtr := 0x2FFC0100, RxXferSize := 8, RxXferCount := 0,
    Mask := 0x00FF, Lock := 0, gState := 0x20, RxState := 0x20, ErrorCode := 0 }

/-- The sample handle with RTS flow control on: bit 8 set in `CR3` and in
`Init.HwFlowCtl`. -/
def sampleFlowHandle : UART_HandleTypeDef :=
  { sampleHandle with Init := { sampleInit with HwFlowCtl := 0x00000100 } }

/-- The result of a transmit of two units on the sample handle that moves one unit and then
polls a latched overrun error. -/
def sampleErrorResult : TransferResult :=
  { outcome := .HardwareError, units_completed := 1, status_reads := 2,
    handle := { sampleHandle with gState := HAL_UART_STATE_ERROR,
                                  ErrorCode := HAL_UART_ERROR_ORE } }

/-! ## Bit-level lemmas -/

theorem and_mask_eq_mod (t : Nat) : t &&& 0x1F = t % 32 :=
  Nat.and_pow_two_sub_one_eq_mod t 5

theorem and_mask_lt (t : Nat) : t &&& 0x1F < 32 := by
  rw [and_mask_eq_mod]; exact Nat.mod_lt _ (by decide)

theorem and_FF_eq_mod (t : Nat) : t &&& 0xFF = t % 256 :=
  Nat.and_pow_two_sub_one_eq_mod t 8

theorem two_pow_lt_of_lt_32 {n : Nat} (h : n < 32) : 2 ^ n < 2 ^ 32 :=
  Nat.pow_lt_pow_right (by decide) h

/-- The enable mask is the single bit `t & 0x1F`; the 32-bit truncation does not bite. -/
theorem IT_bit_eq (t : Nat) : IT_bit t = 1 <<< (t &&& 0x1F) := by
  unfold IT_bit UART_IT_MASK
  rw [Nat.one_shiftLeft]
  exact Nat.mod_eq_of_lt (two_pow_lt_of_lt_32 (and_mask_lt t))

theorem IT_bit_eq_two_pow (t : Nat) : IT_bit t = 2 ^ (t &&& 0x1F) := by
  rw [IT_bit_eq, Nat.one_shiftLeft]

theorem IT_bit_lt (t : Nat) : IT_bit t < 2 ^ 32 := by
  rw [IT_bit_eq_two_pow]; exact two_pow_lt_of_lt_32 (and_mask_lt t)

theorem IT_bit_testBit (t i : Nat) : (IT_bit t).testBit i = decide (t &&& 0x1F = i) := by
  rw [IT_bit_eq_two_pow, Nat.testBit_two_pow]

/-- The two selector expressions (with and without the `& 0xFF`) agree. -/
theorem IT_SOURCE_selector_eq (t : Nat) : IT_SOURCE_selector t = IT_selector t := by
  unfold IT_SOURCE_selector IT_selector
  rw [and_FF_eq_mod]
  norm_num

/-- The two mask expressions (with and without the `uint16_t` cast) agree. -/
theorem IT_SOURCE_bit_eq (t : Nat) : IT_SOURCE_bit t = IT_bit t := by
  unfold IT_SOURCE_bit IT_bit UART_IT_MASK
  have h : (t % 2 ^ 16) &&& 0x1F = t &&& 0x1F := by
    rw [and_mask_eq_mod, and_mask_eq_mod]
    exact Nat.mod_mod_of_dvd t (by decide)
  rw [h]

theorem not32_testBit (x i : Nat) (hi : i < 32) :
    (not32 x).testBit i = !(x.testBit i) := by
  unfold not32
  have h : (0xFFFFFFFF : Nat) = 2 ^ 32 - 1 := by norm_num
  rw [Nat.testBit_xor, h, Nat.testBit_two_pow_sub_one, Nat.testBit_mod_two_pow]
  simp [hi]

theorem not32_lt (x : Nat) : not32 x < 2 ^ 32 := by
  unfold not32
  exact Nat.xor_lt_two_pow (by norm_num) (Nat.mod_lt _ (by norm_num))

/-! ## The macros in terms of the selected register -/

theorem ctrl_setCtrl_same (u : USART_TypeDef) (r : CtrlReg) (v : Nat) :
    (u.setCtrl r v).ctrl r = v := by
  cases r <;> rfl

theorem ctrl_setCtrl_other (u : USART_TypeDef) (r r' : CtrlReg) (v : Nat) (hne : r' ≠ r) :
    (u.setCtrl r v).ctrl r' = u.ctrl r' := by
  cases r <;> cases r' <;> first | rfl | exact absurd rfl hne

theorem enable_it_eq (h : UART_HandleTypeDef) (t : Nat) :
    __HAL_UART_ENABLE_IT h t =
      { h with Instance := (h.Instance.setCtrl (IT_register t)
          ((h.Instance.ctrl (IT_register t) ||| IT_bit t) % 2 ^ 32)) } := by
  unfold __HAL_UART_ENABLE_IT IT_register
  split_ifs <;> rfl

theorem disable_it_eq (h : UART_HandleTypeDef) (t : Nat) :
    __HAL_UART_DISABLE_IT h t =
      { h with Instance := (h.Instance.setCtrl (IT_register t)
          (h.Instance.ctrl (IT_register t) &&& not32 (IT_bit t))) } := by
  unfold __HAL_UART_DISABLE_IT IT_register
  split_ifs <;> rfl

theorem get_it_source_eq (h : UART_HandleTypeDef) (t : Nat) :
    __HAL_UART_GET_IT_SOURCE h t = h.Instance.ctrl (IT_register t) &&& IT_bit t := by
  unfold __HAL_UART_GET_IT_SOURCE IT_register
  rw [IT_SOURCE_selector_eq, IT_SOURCE_bit_eq]
  split_ifs <;> rfl

theorem ne_zero_of_testBit {x i : Nat} (hx : x.testBit i = true) : x ≠ 0 := by
  intro h0
  rw [h0, Nat.zero_testBit] at hx
  exact Bool.false_ne_true hx

theorem get_it_source_after_enable (h : UART_HandleTypeDef) (t : Nat) :
    __HAL_UART_GET_IT_SOURCE (__HAL_UART_ENABLE_IT h t) t ≠ 0 := by
  rw [get_it_source_eq, enable_it_eq]
  simp only [ctrl_setCtrl_same]
  apply ne_zero_of_testBit (i := t &&& 0x1F)
  rw [Nat.testBit_and, Nat.testBit_mod_two_pow, Nat.testBit_or, IT_bit_testBit]
  simp [and_mask_lt t]

theorem get_it_source_after_disable (h : UART_HandleTypeDef) (t : Nat) :
    __HAL_UART_GET_IT_SOURCE (__HAL_UART_DISABLE_IT h t) t = 0 := by
  rw [get_it_source_eq, disable_it_eq]
  simp only [ctrl_setCtrl_same]
  apply Nat.eq_of_testBit_eq
  intro i
  rw [Nat.zero_testBit, Nat.testBit_and, Nat.testBit_and, IT_bit_testBit]
  by_cases hi : t &&& 0x1F = i
  · have hlt : i < 32 := hi ▸ and_mask_lt t
    rw [not32_testBit _ _ hlt, IT_bit_testBit]
    simp [hi]
  · simp [hi]

theorem and_two_pow_ne_zero_iff (x n : Nat) : x &&& 2 ^ n ≠ 0 ↔ x.testBit n = true := by
  constructor
  · intro hne
    obtain ⟨i, hi⟩ := Nat.ne_zero_implies_bit_true hne
    rw [Nat.testBit_and, Nat.testBit_two_pow] at hi
    simp only [Bool.and_eq_true, decide_eq_true_eq] at hi
    rw [hi.2]; exact hi.1
  · intro hx
    apply ne_zero_of_testBit (i := n)
    rw [Nat.testBit_and, Nat.testBit_two_pow, hx]
    simp

theorem ctrl_lt_of_wf (u : USART_TypeDef) (hwf : u.wf) (r : CtrlReg) : u.ctrl r < 2 ^ 32 := by
  obtain ⟨h1, h2, h3, _⟩ := hwf
  cases r
  · exact h1
  · exact h2
  · exact h3

theorem or_bit_mod (x t : Nat) (hx : x < 2 ^ 32) :
    (x ||| IT_bit t) % 2 ^ 32 = x ||| (1 <<< (t &&& 0x1F)) := by
  rw [Nat.mod_eq_of_lt (Nat.or_lt_two_pow hx (IT_bit_lt t)), IT_bit_eq]

theorem testBit_of_lt_32 {x i : Nat} (hx : x < 2 ^ 32) (hi : 32 ≤ i) : x.testBit i = false :=
  Nat.testBit_eq_false_of_lt (Nat.lt_of_lt_of_le hx (Nat.pow_le_pow_right (by decide) hi))

theorem setCtrl_frame (u : USART_TypeDef) (r : CtrlReg) (v : Nat) :
    (u.setCtrl r v).ISReg = u.ISReg ∧ (u.setCtrl r v).ICR = u.ICR ∧
    (u.setCtrl r v).RQR = u.RQR := by
  cases r <;> exact ⟨rfl, rfl, rfl⟩

theorem enable_bit_frame (x t i : Nat) (hx : x < 2 ^ 32) (hi : i ≠ t &&& 0x1F) :
    ((x ||| IT_bit t) % 2 ^ 32).testBit i = x.testBit i := by
  rw [Nat.mod_eq_of_lt (Nat.or_lt_two_pow hx (IT_bit_lt t)), Nat.testBit_or, IT_bit_testBit]
  simp [Ne.symm hi]

theorem disable_bit_frame (x t i : Nat) (hx : x < 2 ^ 32) (hi : i ≠ t &&& 0x1F) :
    (x &&& not32 (IT_bit t)).testBit i = x.testBit i := by
  rw [Nat.testBit_and]
  by_cases hlt : i < 32
  · rw [not32_testBit _ _ hlt, IT_bit_testBit]
    simp [Ne.symm hi]
  · rw [testBit_of_lt_32 hx (Nat.le_of_not_lt hlt)]
    simp

/-! ## Baud-rate lemmas -/

theorem presc_table_ne_zero : ∀ d ∈ presc_table, d ≠ 0 := by
  decide

theorem presc_table_lookup : ∀ p, p < 12 → ∃ d, presc_table[p]? = some d ∧ d ≠ 0 := by
  decide

theorem presc_table_index_lt {p d : Nat} (hd : presc_table[p]? = some d) : p < 12 := by
  obtain ⟨hlt, _⟩ := List.getElem?_eq_some.mp hd
  simpa [presc_table] using hlt

theorem uart_div_sampling16_eq (c b p d : Nat) (hd : presc_table[p]? = some d) (hb : b ≠ 0) :
    uart_div_sampling16 c b p = some ((((c / d) % 2 ^ 32 + b / 2) % 2 ^ 32) / b) := by
  have hd0 : d ≠ 0 := presc_table_ne_zero d (List.getElem?_mem hd)
  unfold uart_div_sampling16
  rw [hd]
  simp [hd0, hb]

theorem uart_div_sampling8_eq (c b p d : Nat) (hd : presc_table[p]? = some d) (hb : b ≠ 0) :
    uart_div_sampling8 c b p =
      some (((((c / d) % 2 ^ 32 * 2) % 2 ^ 32 + b / 2) % 2 ^ 32) / b) := by
  have hd0 : d ≠ 0 := presc_table_ne_zero d (List.getElem?_mem hd)
  unfold uart_div_sampling8
  rw [hd]
  simp [hd0, hb]

theorem round_div_bounds (s b : Nat) (hb : 1 ≤ b) :
    (s + b / 2) / b * b ≤ s + b / 2 ∧ s + b / 2 < (s + b / 2) / b * b + b := by
  have h1 := Nat.div_add_mod (s + b / 2) b
  have h2 : (s + b / 2) % b < b := Nat.mod_lt _ (by omega)
  rw [Nat.mul_comm] at h1
  constructor <;> omega

/-- The quotient `(s + b / 2) / b` is a nearest integer to `s / b`. -/
theorem round_div_nearest (s b : Nat) (hb : 1 ≤ b) :
    2 * |(((s + b / 2) / b : Nat) : Int) * (b : Int) - (s : Int)| ≤ (b : Int) := by
  obtain ⟨h1, h2⟩ := round_div_bounds s b hb
  have hX : (((s + b / 2) / b : Nat) : Int) * (b : Int) = (((s + b / 2) / b * b : Nat) : Int) := by
    push_cast; rfl
  rw [hX]
  generalize (s + b / 2) / b * b = X at h1 h2
  rcases abs_cases ((X : Int) - (s : Int)) with ⟨h, _⟩ | ⟨h, _⟩ <;> rw [h] <;> omega

/-- When `s / b` is a half-integer `k + 1/2`, the quotient `(s + b / 2) / b` is `k + 1`. -/
theorem round_div_half_up (s b k : Nat) (hb : 1 ≤ b) (hhalf : 2 * s = (2 * k + 1) * b) :
    (s + b / 2) / b = k + 1 := by
  have hexp : (2 * k + 1) * b = 2 * (k * b) + b := by ring
  have hsum : s + b / 2 = (k + 1) * b := by
    have : (k + 1) * b = k * b + b := by ring
    omega
  rw [hsum]
  exact Nat.mul_div_cancel _ (by omega)

/-- The 32-bit rounded quotient `((s + b / 2) mod 2^32) / b` does not grow with `b`: without
wrap-around it is the rounded quotient of `s / b`, and once the sum wraps it is 0. -/
theorem wrapped_round_div_antitone (s b1 b2 : Nat) (hs : s < 2 ^ 32) (h1 : 1 ≤ b1)
    (h12 : b1 ≤ b2) :
    ((s + b2 / 2) % 2 ^ 32) / b2 ≤ ((s + b1 / 2) % 2 ^ 32) / b1 := by
  by_cases hw : s + b2 / 2 < 2 ^ 32
  · have hw1 : s + b1 / 2 < 2 ^ 32 := by omega
    rw [Nat.mod_eq_of_lt hw, Nat.mod_eq_of_lt hw1, Nat.le_div_iff_mul_le (by omega)]
    have hmul := Nat.div_mul_le_self (s + b2 / 2) b2
    generalize (s + b2 / 2) / b2 = r at hmul
    cases r with
    | zero => simp
    | succ k =>
      have hk : k * b1 ≤ k * b2 := Nat.mul_le_mul_left k h12
      have e1 : (k + 1) * b1 = k * b1 + b1 := by ring
      have e2 : (k + 1) * b2 = k * b2 + b2 := by ring
      rw [e2] at hmul
      rw [e1]
      omega
  · have hsmall : (s + b2 / 2) % 2 ^ 32 < b2 := by omega
    rw [Nat.div_eq_of_lt hsmall]
    exact Nat.zero_le _

/-! ## Baud rate register repacking -/

theorem testBit_FFF0 (j : Nat) :
    (0xFFF0 : Nat).testBit j = (decide (4 ≤ j) && decide (j < 16)) := by
  have h : (0xFFF0 : Nat) = (2 ^ 12 - 1) <<< 4 := by decide
  rw [h, Nat.testBit_shiftLeft, Nat.testBit_two_pow_sub_one]
  by_cases h4 : 4 ≤ j
  · have : (decide (j - 4 < 12)) = decide (j < 16) := by
      apply decide_eq_decide.mpr; omega
    simp [h4, this]
  · simp [h4]

theorem testBit_000F (j : Nat) : (0x000F : Nat).testBit j = decide (j < 4) := by
  have h : (0x000F : Nat) = 2 ^ 4 - 1 := by decide
  rw [h, Nat.testBit_two_pow_sub_one]

theorem testBit_seven (j : Nat) : (7 : Nat).testBit j = decide (j < 3) := by
  have h : (7 : Nat) = 2 ^ 3 - 1 := by decide
  rw [h, Nat.testBit_two_pow_sub_one]

theorem BRR_sampling8_testBit (d i : Nat) :
    (BRR_sampling8 d).testBit i =
      ((d.testBit i && (decide (4 ≤ i) && decide (i < 16))) ||
       (d.testBit (1 + i) && decide (1 + i < 4))) := by
  unfold BRR_sampling8
  rw [Nat.testBit_or, Nat.testBit_and, Nat.testBit_shiftRight, Nat.testBit_and, testBit_FFF0,
    testBit_000F]

theorem BRR_sampling8_high (d : Nat) (h16 : d < 2 ^ 16) : BRR_sampling8 d >>> 4 = d >>> 4 := by
  apply Nat.eq_of_testBit_eq
  intro i
  rw [Nat.testBit_shiftRight, Nat.testBit_shiftRight, BRR_sampling8_testBit]
  by_cases hi : 4 + i < 16
  · have h1 : ¬ (1 + (4 + i) < 4) := by omega
    simp [hi, h1]
  · have hf : d.testBit (4 + i) = false :=
      Nat.testBit_eq_false_of_lt
        (Nat.lt_of_lt_of_le h16 (Nat.pow_le_pow_right (by decide) (by omega)))
    have h1 : ¬ (1 + (4 + i) < 4) := by omega
    simp [hi, hf, h1]

theorem BRR_sampling8_bit3 (d : Nat) : (BRR_sampling8 d).testBit 3 = false := by
  rw [BRR_sampling8_testBit]
  simp

theorem BRR_sampling8_low (d : Nat) : BRR_sampling8 d &&& 0x7 = (d &&& 0x000F) >>> 1 := by
  apply Nat.eq_of_testBit_eq
  intro i
  rw [Nat.testBit_and, BRR_sampling8_testBit, testBit_seven, Nat.testBit_shiftRight,
    Nat.testBit_and, testBit_000F]
  by_cases hi : i < 3
  · have h1 : 1 + i < 4 := by omega
    have h2 : ¬ 4 ≤ i := by omega
    simp [hi, h1, h2]
  · have h1 : ¬ 1 + i < 4 := by omega
    simp [hi, h1]

/-- A value with the three documented fields is the repacked value. -/
theorem BRR_sampling8_unique (d v : Nat) (h16 : d < 2 ^ 16) (hhi : v >>> 4 = d >>> 4)
    (hb3 : v.testBit 3 = false) (hlo : v &&& 0x7 = (d &&& 0x000F) >>> 1) :
    v = BRR_sampling8 d := by
  apply Nat.eq_of_testBit_eq
  intro i
  by_cases h4 : 4 ≤ i
  · obtain ⟨j, rfl⟩ : ∃ j, i = 4 + j := ⟨i - 4, by omega⟩
    rw [← Nat.testBit_shiftRight, ← Nat.testBit_shiftRight, hhi, BRR_sampling8_high d h16]
  · by_cases h3 : i = 3
    · rw [h3, hb3, BRR_sampling8_bit3]
    · have hi : i < 3 := by omega
      have e : ∀ x : Nat, x.testBit i = (x &&& 0x7).testBit i := by
        intro x
        rw [Nat.testBit_and, testBit_seven]
        simp [hi]
      rw [e v, e (BRR_sampling8 d), hlo, BRR_sampling8_low]

/-! ## Flag lemmas -/

theorem and_eq_right_iff_testBit (x m : Nat) :
    x &&& m = m ↔ ∀ i, m.testBit i = true → x.testBit i = true := by
  constructor
  · intro h i hm
    have hi : (x &&& m).testBit i = true := by rw [h]; exact hm
    rw [Nat.testBit_and, Bool.and_eq_true] at hi
    exact hi.1
  · intro h
    apply Nat.eq_of_testBit_eq
    intro i
    rw [Nat.testBit_and]
    cases hm : m.testBit i with
    | false => simp
    | true => simp [h i hm]

theorem and_two_pow_eq_iff (x n : Nat) : x &&& 2 ^ n = 2 ^ n ↔ x.testBit n = true := by
  rw [and_eq_right_iff_testBit]
  constructor
  · intro h
    exact h n Nat.testBit_two_pow_self
  · intro h i hi
    rw [Nat.testBit_two_pow, decide_eq_true_eq] at hi
    rw [← hi]; exact h

/-! ## Token layout and advanced feature lemmas -/

theorem IT_selector_eq_div (t : Nat) : IT_selector t = t % 256 / 32 := by
  unfold IT_selector
  rw [and_FF_eq_mod, Nat.shiftRight_eq_div_pow]
  norm_num

theorem IT_selector_two_bit_field (t : Nat) (h7 : t.testBit 7 = false) :
    IT_selector t = (t >>> 5) &&& 3 := by
  have h3 : (t >>> 5) &&& 3 = (t >>> 5) % 4 := Nat.and_pow_two_sub_one_eq_mod (t >>> 5) 2
  rw [IT_selector_eq_div, h3, Nat.shiftRight_eq_div_pow]
  rw [Nat.testBit_to_div_mod] at h7
  simp only [decide_eq_false_iff_not] at h7
  norm_num at h7 ⊢
  omega

theorem status_position_le_of_high_zero (t : Nat) (h13 : t >>> 13 = 0) : t >>> 8 ≤ 31 := by
  rw [Nat.shiftRight_eq_div_pow] at h13 ⊢
  norm_num at h13 ⊢
  omega

set_option maxRecDepth 100000 in
theorem orAll_filter_advfeature : ∀ x, x < 256 →
    orAll (UART_Advanced_Features_Initialization_Type.filter (fun f => x &&& f != 0)) = x := by
  decide

theorem orAll_lt (S : List Nat) (n : Nat) (hS : ∀ f ∈ S, f < 2 ^ n) : orAll S < 2 ^ n := by
  induction S with
  | nil => exact Nat.pos_pow_of_pos n (by decide)
  | cons f fs ih =>
    have hf : f < 2 ^ n := hS f (List.mem_cons_self f fs)
    have hfs : orAll fs < 2 ^ n := ih (fun g hg => hS g (List.mem_cons_of_mem f hg))
    exact Nat.or_lt_two_pow hf hfs

theorem advfeature_flags_lt : ∀ f ∈ UART_Advanced_Features_Initialization_Type, f < 2 ^ 8 := by
  decide

/-! ## FIFO threshold lemmas -/

theorem two_pow_injective {a b : Nat} (h : 2 ^ a = 2 ^ b) : a = b :=
  Nat.pow_right_injective (le_refl 2) h

theorem thresholdLevels_two_pow (a b c : Nat) (ha : a < 32) (hb : b < 32) (hc : c < 32) :
    thresholdLevels (2 ^ a) (2 ^ b) (2 ^ c) =
      [0, 2 ^ a, 2 ^ b, 2 ^ a ||| 2 ^ b, 2 ^ c, 2 ^ c ||| 2 ^ a] := by
  have pa := two_pow_lt_of_lt_32 ha
  have pb := two_pow_lt_of_lt_32 hb
  have pc := two_pow_lt_of_lt_32 hc
  unfold thresholdLevels
  rw [Nat.mod_eq_of_lt pa, Nat.mod_eq_of_lt pb, Nat.mod_eq_of_lt pc,
    Nat.mod_eq_of_lt (Nat.or_lt_two_pow pa pb), Nat.mod_eq_of_lt (Nat.or_lt_two_pow pc pa)]

theorem bits3_levels (a b c : Nat) (hab : a ≠ b) (hac : a ≠ c) (hbc : b ≠ c) :
    [0, 2 ^ a, 2 ^ b, 2 ^ a ||| 2 ^ b, 2 ^ c, 2 ^ c ||| 2 ^ a, 2 ^ c ||| 2 ^ b,
      2 ^ c ||| 2 ^ b ||| 2 ^ a].map (bits3 a b c) =
    [(false, false, false), (true, false, false), (false, true, false), (true, true, false),
     (false, false, true), (true, false, true), (false, true, true), (true, true, true)] := by
  have hba := Ne.symm hab
  have hca := Ne.symm hac
  have hcb := Ne.symm hbc
  simp [bits3, Nat.testBit_or, Nat.testBit_two_pow, hab, hac, hbc, hba, hca, hcb]

theorem thresholdLevels_distinct (c0 c1 c2 : Nat) (h0 : singleBit32 c0) (h1 : singleBit32 c1)
    (h2 : singleBit32 c2) (h01 : c0 ≠ c1) (h02 : c0 ≠ c2) (h12 : c1 ≠ c2) :
    (thresholdLevels c0 c1 c2).Nodup ∧
    (c2 ||| c1) % 2 ^ 32 ∉ thresholdLevels c0 c1 c2 ∧
    (c2 ||| c1 ||| c0) % 2 ^ 32 ∉ thresholdLevels c0 c1 c2 := by
  obtain ⟨a, ha, rfl⟩ := h0
  obtain ⟨b, hb, rfl⟩ := h1
  obtain ⟨c, hc, rfl⟩ := h2
  have hab : a ≠ b := fun e => h01 (by rw [e])
  have hac : a ≠ c := fun e => h02 (by rw [e])
  have hbc : b ≠ c := fun e => h12 (by rw [e])
  have pa := two_pow_lt_of_lt_32 ha
  have pb := two_pow_lt_of_lt_32 hb
  have pc := two_pow_lt_of_lt_32 hc
  have hmap := bits3_levels a b c hab hac hbc
  have hall : ([0, 2 ^ a, 2 ^ b, 2 ^ a ||| 2 ^ b, 2 ^ c, 2 ^ c ||| 2 ^ a, 2 ^ c ||| 2 ^ b,
      2 ^ c ||| 2 ^ b ||| 2 ^ a] : List Nat).Nodup := by
    apply List.Nodup.of_map (bits3 a b c)
    rw [hmap]
    decide
  rw [thresholdLevels_two_pow a b c ha hb hc,
    Nat.mod_eq_of_lt (Nat.or_lt_two_pow pc pb),
    Nat.mod_eq_of_lt (Nat.or_lt_two_pow (Nat.or_lt_two_pow pc pb) pa)]
  simp only [List.nodup_cons, List.mem_cons, List.mem_singleton, not_or] at hall ⊢
  tauto

theorem is_txfifo_threshold_iff (k : USART_CR3_Masks) (x : Nat) :
    IS_UART_TXFIFO_THRESHOLD k x = true ↔ x ∈ UART_TXFIFO_threshold_level k := by
  simp only [IS_UART_TXFIFO_THRESHOLD, UART_TXFIFO_threshold_level, Bool.or_eq_true,
    beq_iff_eq, List.mem_cons, List.mem_singleton, List.not_mem_nil, or_false]
  tauto

theorem is_rxfifo_threshold_iff (k : USART_CR3_Masks) (x : Nat) :
    IS_UART_RXFIFO_THRESHOLD k x = true ↔ x ∈ UART_RXFIFO_threshold_level k := by
  simp only [IS_UART_RXFIFO_THRESHOLD, UART_RXFIFO_threshold_level, Bool.or_eq_true,
    beq_iff_eq, List.mem_cons, List.mem_singleton, List.not_mem_nil, or_false]
  tauto

/-! ## Hardware flow control lemmas -/

theorem set_bit_testBit (y p i : Nat) (hy : y < 2 ^ 32) (hp : p < 32) :
    (SET_BIT y (2 ^ p)).testBit i = (y.testBit i || decide (p = i)) := by
  unfold SET_BIT
  rw [Nat.mod_eq_of_lt (Nat.or_lt_two_pow hy (two_pow_lt_of_lt_32 hp)), Nat.testBit_or,
    Nat.testBit_two_pow]

theorem clear_bit_testBit (y p i : Nat) (hy : y < 2 ^ 32) :
    (CLEAR_BIT y (2 ^ p)).testBit i = (y.testBit i && !decide (p = i)) := by
  unfold CLEAR_BIT
  rw [Nat.testBit_and]
  by_cases hi : i < 32
  · rw [not32_testBit _ _ hi, Nat.testBit_two_pow]
  · rw [testBit_of_lt_32 hy (Nat.le_of_not_lt hi)]
    simp

theorem and_pair_testBit (y p q i : Nat) :
    (y &&& (2 ^ p ||| 2 ^ q)).testBit i =
      (y.testBit i && (decide (p = i) || decide (q = i))) := by
  rw [Nat.testBit_and, Nat.testBit_or, Nat.testBit_two_pow, Nat.testBit_two_pow]

theorem bits_subset_cases (x p q : Nat)
    (hb : ∀ i, x.testBit i = true → p = i ∨ q = i) :
    x = 0 ∨ x = 2 ^ p ∨ x = 2 ^ q ∨ x = 2 ^ p ||| 2 ^ q := by
  have key : ∀ i, x.testBit i =
      ((decide (p = i) && x.testBit p) || (decide (q = i) && x.testBit q)) := by
    intro i
    cases hx : x.testBit i with
    | false =>
      by_cases h1 : p = i
      · subst h1
        by_cases h2 : q = p
        · subst h2; simp [hx]
        · simp [hx, h2]
      · by_cases h2 : q = i
        · subst h2; simp [hx, h1]
        · simp [h1, h2]
    | true =>
      rcases hb i hx with h1 | h1
      · subst h1; simp [hx]
      · subst h1; simp [hx]
  cases hp : x.testBit p with
  | false =>
    cases hq : x.testBit q with
    | false =>
      left
      apply Nat.eq_of_testBit_eq
      intro i
      rw [key i, hp, hq]
      simp
    | true =>
      right; right; left
      apply Nat.eq_of_testBit_eq
      intro i
      rw [key i, hp, hq, Nat.testBit_two_pow]
      simp
  | true =>
    cases hq : x.testBit q with
    | false =>
      right; left
      apply Nat.eq_of_testBit_eq
      intro i
      rw [key i, hp, hq, Nat.testBit_two_pow]
      simp
    | true =>
      right; right; right
      apply Nat.eq_of_testBit_eq
      intro i
      rw [key i, hp, hq, Nat.testBit_or, Nat.testBit_two_pow, Nat.testBit_two_pow]
      simp

theorem flow_set (y hw p r c : Nat) (hy : y < 2 ^ 32) (hp : p < 32) (hpm : p = r ∨ p = c)
    (hinv : y &&& (2 ^ r ||| 2 ^ c) = hw) :
    SET_BIT y (2 ^ p) &&& (2 ^ r ||| 2 ^ c) = SET_BIT hw (2 ^ p) ∧
    (SET_BIT y (2 ^ p)).testBit p = true ∧ (SET_BIT hw (2 ^ p)).testBit p = true ∧
    (∀ i, i ≠ p → (SET_BIT y (2 ^ p)).testBit i = y.testBit i) ∧
    (∀ i, i ≠ p → (SET_BIT hw (2 ^ p)).testBit i = hw.testBit i) := by
  have hhw : hw < 2 ^ 32 := by
    rw [← hinv]; exact Nat.lt_of_le_of_lt Nat.and_le_left hy
  refine ⟨?_, ?_, ?_, fun i hi => ?_, fun i hi => ?_⟩
  · apply Nat.eq_of_testBit_eq
    intro i
    rw [and_pair_testBit, set_bit_testBit _ _ _ hy hp, set_bit_testBit _ _ _ hhw hp, ← hinv,
      and_pair_testBit]
    by_cases h1 : p = i
    · rcases hpm with e | e
      · have hri : r = i := by omega
        simp [h1, hri]
      · have hci : c = i := by omega
        simp [h1, hci]
    · simp [h1]
  · rw [set_bit_testBit _ _ _ hy hp]; simp
  · rw [set_bit_testBit _ _ _ hhw hp]; simp
  · rw [set_bit_testBit _ _ _ hy hp]; simp [Ne.symm hi]
  · rw [set_bit_testBit _ _ _ hhw hp]; simp [Ne.symm hi]

theorem flow_clear (y hw p r c : Nat) (hy : y < 2 ^ 32)
    (hinv : y &&& (2 ^ r ||| 2 ^ c) = hw) :
    CLEAR_BIT y (2 ^ p) &&& (2 ^ r ||| 2 ^ c) = CLEAR_BIT hw (2 ^ p) ∧
    (CLEAR_BIT y (2 ^ p)).testBit p = false ∧ (CLEAR_BIT hw (2 ^ p)).testBit p = false ∧
    (∀ i, i ≠ p → (CLEAR_BIT y (2 ^ p)).testBit i = y.testBit i) ∧
    (∀ i, i ≠ p → (CLEAR_BIT hw (2 ^ p)).testBit i = hw.testBit i) := by
  have hhw : hw < 2 ^ 32 := by
    rw [← hinv]; exact Nat.lt_of_le_of_lt Nat.and_le_left hy
  refine ⟨?_, ?_, ?_, fun i hi => ?_, fun i hi => ?_⟩
  · apply Nat.eq_of_testBit_eq
    intro i
    rw [and_pair_testBit, clear_bit_testBit _ _ _ hy, clear_bit_testBit _ _ _ hhw, ← hinv,
      and_pair_testBit]
    cases y.testBit i <;> by_cases h1 : p = i <;> simp [h1]
  · rw [clear_bit_testBit _ _ _ hy]; simp
  · rw [clear_bit_testBit _ _ _ hhw]; simp
  · rw [clear_bit_testBit _ _ _ hy]; simp [Ne.symm hi]
  · rw [clear_bit_testBit _ _ _ hhw]; simp [Ne.symm hi]

theorem is_hwfc_of_inv (k : USART_CR3_Masks) (y hw r c : Nat) (hr : r < 32) (hc : c < 32)
    (hR : k.USART_CR3_RTSE = 2 ^ r) (hC : k.USART_CR3_CTSE = 2 ^ c)
    (hinv : y &&& (2 ^ r ||| 2 ^ c) = hw) :
    IS_UART_HARDWARE_FLOW_CONTROL k hw = true := by
  have pr := two_pow_lt_of_lt_32 hr
  have pc := two_pow_lt_of_lt_32 hc
  have hcases := bits_subset_cases hw r c (by
    intro i hi
    rw [← hinv, and_pair_testBit] at hi
    simp only [Bool.and_eq_true, Bool.or_eq_true, decide_eq_true_eq] at hi
    exact hi.2)
  simp only [IS_UART_HARDWARE_FLOW_CONTROL, UART_HWCONTROL_NONE, UART_HWCONTROL_RTS,
    UART_HWCONTROL_CTS, UART_HWCONTROL_RTS_CTS, hR, hC, Nat.mod_eq_of_lt pr,
    Nat.mod_eq_of_lt pc, Nat.mod_eq_of_lt (Nat.or_lt_two_pow pr pc), Bool.or_eq_true,
    beq_iff_eq]
  tauto

/-! ## Blocking transfer lemmas -/

theorem transferLoop_zero (deadline : Nat) (polls : List Poll) (done reads : Nat) :
    transferLoop deadline polls 0 done reads =
      some { outcome := .Success, units_completed := done, status_reads := reads,
             errors := 0 } := by
  cases polls <;> rfl

theorem transferLoop_cons (deadline : Nat) (p : Poll) (ps : List Poll)
    (remaining done reads : Nat) :
    transferLoop deadline (p :: ps) (remaining + 1) done reads =
      if p.errors ≠ 0 then
        some { outcome := .HardwareError, units_completed := done, status_reads := reads + 1,
               errors := p.errors }
      else if p.flag then transferLoop deadline ps remaining (done + 1) (reads + 1)
      else if deadline ≤ p.now then
        some { outcome := .Timeout, units_completed := done, status_reads := reads + 1,
               errors := 0 }
      else transferLoop deadline ps (remaining + 1) done (reads + 1) := by
  rfl

/-- A trace in which `N < M` units are moved before a poll finds the flag unset with the
deadline elapsed ends in `Timeout` with `N` units completed. -/
theorem transferLoop_timeout (deadline : Nat) (pre : List Poll) (p : Poll) (rest : List Poll) :
    ∀ (M done reads : Nat),
      (∀ q ∈ pre, q.errors = 0 ∧ (q.flag = false → q.now < deadline)) →
      pre.countP (fun q => q.flag) < M →
      p.errors = 0 → p.flag = false → deadline ≤ p.now →
      transferLoop deadline (pre ++ p :: rest) M done reads =
        some { outcome := .Timeout, units_completed := done + pre.countP (fun q => q.flag),
               status_reads := reads + pre.length + 1, errors := 0 } := by
  induction pre with
  | nil =>
    intro M done reads _ hN he hf hd
    obtain ⟨m, rfl⟩ : ∃ m, M = m + 1 := ⟨M - 1, by simp at hN; omega⟩
    simp [transferLoop_cons, he, hf, hd]
  | cons q qs ih =>
    intro M done reads hpre hN he hf hd
    have hq := hpre q (List.mem_cons_self q qs)
    have hqs : ∀ x ∈ qs, x.errors = 0 ∧ (x.flag = false → x.now < deadline) :=
      fun x hx => hpre x (List.mem_cons_of_mem q hx)
    obtain ⟨m, rfl⟩ : ∃ m, M = m + 1 := ⟨M - 1, by omega⟩
    rw [List.cons_append, transferLoop_cons]
    cases hqf : q.flag with
    | true =>
      rw [List.countP_cons_of_pos _ _ (by simpa using hqf)] at hN ⊢
      simp only [hq.1, ne_eq, not_true_eq_false, if_false, if_true]
      rw [ih m (done + 1) (reads + 1) hqs (by omega) he hf hd]
      simp only [List.length_cons, Option.some.injEq, LoopEnd.mk.injEq, true_and, and_true]
      omega
    | false =>
      rw [List.countP_cons_of_neg _ _ (by simp [hqf])] at hN ⊢
      have hnow : ¬ deadline ≤ q.now := by have := hq.2 hqf; omega
      simp only [hq.1, ne_eq, not_true_eq_false, if_false, hnow, Bool.false_eq_true]
      rw [ih (m + 1) done (reads + 1) hqs hN he hf hd]
      simp only [List.length_cons, Option.some.injEq, LoopEnd.mk.injEq, true_and, and_true]
      omega

/-- A loop that ends in `Timeout` has moved fewer units than were requested, and a loop never
ends in `PeripheralBusy`. -/
theorem transferLoop_end (deadline : Nat) (polls : List Poll) :
    ∀ (m done reads : Nat) (e : LoopEnd),
      transferLoop deadline polls m done reads = some e →
      e.outcome ≠ .PeripheralBusy ∧
      (e.outcome = .Timeout → e.units_completed < done + m) ∧
      (e.outcome = .HardwareError → e.units_completed < done + m) ∧
      (e.outcome = .Success → e.units_completed = done + m) ∧
      done ≤ e.units_completed := by
  induction polls with
  | nil =>
    intro m done reads e he
    cases m with
    | zero =>
      rw [transferLoop_zero] at he
      cases he
      simp
    | succ k => cases he
  | cons p ps ih =>
    intro m done reads e he
    cases m with
    | zero =>
      rw [transferLoop_zero] at he
      cases he
      simp
    | succ k =>
      rw [transferLoop_cons] at he
      split_ifs at he with h1 h2 h3
      · cases he
        simp
      · obtain ⟨a, b, c, d, f⟩ := ih k (done + 1) (reads + 1) e he
        exact ⟨a, fun x => by have := b x; omega, fun x => by have := c x; omega,
          fun x => by have := d x; omega, by omega⟩
      · cases he
        simp
      · obtain ⟨a, b, c, d, f⟩ := ih (k + 1) done (reads + 1) e he
        exact ⟨a, b, c, d, f⟩

/-- A trace whose first `M` polls find the flag set with no error moves all `M` units. -/
theorem transferLoop_success (deadline t : Nat) (rest : List Poll) :
    ∀ (M done reads : Nat),
      transferLoop deadline (List.replicate M (pollReady t) ++ rest) M done reads =
        some { outcome := .Success, units_completed := done + M, status_reads := reads + M,
               errors := 0 } := by
  intro M
  induction M with
  | zero =>
    intro done reads
    rw [transferLoop_zero]
    rfl
  | succ k ih =>
    intro done reads
    rw [List.replicate_succ, List.cons_append, transferLoop_cons]
    have e0 : (pollReady t).errors = 0 := rfl
    have f1 : (pollReady t).flag = true := rfl
    simp only [e0, f1, ne_eq, not_true_eq_false, if_false, if_true]
    rw [ih (done + 1) (reads + 1)]
    simp only [Option.some.injEq, LoopEnd.mk.injEq, true_and, and_true]
    omega

theorem HAL_UART_Transmit_busy (h : UART_HandleTypeDef) (Size Timeout now : Nat)
    (polls : List Poll) (hg : globalAxisReady h.gState = false) :
    HAL_UART_Transmit h Size Timeout now polls =
      some { outcome := .PeripheralBusy, units_completed := 0, status_reads := 0,
             handle := h } := by
  simp [HAL_UART_Transmit, transmitStart, hg]

theorem HAL_UART_Receive_busy (h : UART_HandleTypeDef) (Size Timeout now : Nat)
    (polls : List Poll) (hg : h.RxState ≠ HAL_UART_STATE_READY) :
    HAL_UART_Receive h Size Timeout now polls =
      some { outcome := .PeripheralBusy, units_completed := 0, status_reads := 0,
             handle := h } := by
  simp [HAL_UART_Receive, receiveStart, hg]

theorem HAL_UART_Transmit_ready (h : UART_HandleTypeDef) (Size Timeout now : Nat)
    (polls : List Poll) (hg : globalAxisReady h.gState = true) :
    HAL_UART_Transmit h Size Timeout now polls =
      (transferLoop (now + Timeout) polls Size 0 0).map (fun e =>
        { outcome := e.outcome, units_completed := e.units_completed,
          status_reads := e.status_reads,
          handle := transmitEnd { h with gState := HAL_UART_STATE_BUSY_TX } e }) := by
  simp only [HAL_UART_Transmit, transmitStart, hg, if_true]
  cases transferLoop (now + Timeout) polls Size 0 0 <;> rfl

theorem HAL_UART_Receive_ready (h busy : UART_HandleTypeDef) (Size Timeout now : Nat)
    (polls : List Poll) (hs : receiveStart h = some busy) :
    HAL_UART_Receive h Size Timeout now polls =
      (transferLoop (now + Timeout) polls Size 0 0).map (fun e =>
        { outcome := e.outcome, units_completed := e.units_completed,
          status_reads := e.status_reads, handle := receiveEnd busy e }) := by
  simp only [HAL_UART_Receive, hs]
  cases transferLoop (now + Timeout) polls Size 0 0 <;> rfl

theorem receiveStart_ready (h : UART_HandleTypeDef) (hg : h.RxState = HAL_UART_STATE_READY) :
    receiveStart h =
      some { h with RxState := HAL_UART_STATE_BUSY_RX, gState := clearedMarker h.gState } := by
  simp only [receiveStart, hg, beq_self_eq_true, if_true]

theorem clearedMarker_ne_reset (g : Nat) (hg : g ≠ HAL_UART_STATE_RESET) :
    clearedMarker g ≠ HAL_UART_STATE_RESET := by
  unfold clearedMarker
  split_ifs
  · decide
  · exact hg

theorem transmitEnd_gState (busy : UART_HandleTypeDef) (e : LoopEnd) :
    (e.outcome = .Success → (transmitEnd busy e).gState = HAL_UART_STATE_READY) ∧
    (e.outcome = .HardwareError → (transmitEnd busy e).gState = HAL_UART_STATE_ERROR ∧
      (transmitEnd busy e).ErrorCode = busy.ErrorCode ||| e.errors) ∧
    (e.outcome = .Timeout → (transmitEnd busy e).gState = HAL_UART_STATE_TIMEOUT) ∧
    (transmitEnd busy e).RxState = busy.RxState := by
  unfold transmitEnd
  refine ⟨fun ho => ?_, fun ho => ?_, fun ho => ?_, ?_⟩
  · rw [ho]
  · rw [ho]; exact ⟨rfl, rfl⟩
  · rw [ho]
  · cases e.outcome <;> rfl

theorem receiveEnd_state (busy : UART_HandleTypeDef) (e : LoopEnd)
    (hne : e.outcome ≠ .PeripheralBusy) :
    (receiveEnd busy e).RxState = HAL_UART_STATE_READY ∧
    (e.outcome = .Success → (receiveEnd busy e).gState = busy.gState) ∧
    (e.outcome = .HardwareError → (receiveEnd busy e).gState = HAL_UART_STATE_ERROR ∧
      (receiveEnd busy e).ErrorCode = busy.ErrorCode ||| e.errors) ∧
    (e.outcome = .Timeout → (receiveEnd busy e).gState = HAL_UART_STATE_TIMEOUT) := by
  unfold receiveEnd
  refine ⟨?_, fun ho => ?_, fun ho => ?_, fun ho => ?_⟩
  · cases ho : e.outcome
    · rfl
    · exact absurd ho hne
    · rfl
    · rfl
  · rw [ho]
  · rw [ho]; exact ⟨rfl, rfl⟩
  · rw [ho]

/-- A transfer started on a Ready global axis is never rejected, ends with `gState` Ready when
it succeeds, and succeeds when its polls find the flag set. -/
theorem fresh_transmit (g : UART_HandleTypeDef) (hg : globalAxisReady g.gState = true) :
    transmitStart g = some { g with gState := HAL_UART_STATE_BUSY_TX } ∧
    (∀ (Size Timeout now : Nat) (polls : List Poll) (r : TransferResult),
      HAL_UART_Transmit g Size Timeout now polls = some r →
      r.outcome ≠ .PeripheralBusy ∧
      (r.outcome = .Success → r.handle.gState = HAL_UART_STATE_READY) ∧
      r.handle.gState ≠ HAL_UART_STATE_RESET) ∧
    (∀ (Size Timeout now t : Nat) (rest : List Poll),
      ∃ r, HAL_UART_Transmit g Size Timeout now (List.replicate Size (pollReady t) ++ rest) =
          some r ∧
        r.outcome = .Success ∧ r.units_completed = Size ∧
        r.handle.gState = HAL_UART_STATE_READY) := by
  refine ⟨by simp only [transmitStart, hg, if_true], ?_, ?_⟩
  · intro Size Timeout now polls r hr
    rw [HAL_UART_Transmit_ready g Size Timeout now polls hg] at hr
    obtain ⟨e, he, rfl⟩ := Option.map_eq_some'.mp hr
    obtain ⟨hnb, _⟩ := transferLoop_end _ _ _ _ _ e he
    obtain ⟨t1, t2, t3, _⟩ := transmitEnd_gState { g with gState := HAL_UART_STATE_BUSY_TX } e
    refine ⟨hnb, t1, ?_⟩
    show (transmitEnd { g with gState := HAL_UART_STATE_BUSY_TX } e).gState ≠ _
    cases ho : e.outcome with
    | Success => rw [t1 ho]; decide
    | PeripheralBusy => exact absurd ho hnb
    | HardwareError => rw [(t2 ho).1]; decide
    | Timeout => rw [t3 ho]; decide
  · intro Size Timeout now t rest
    rw [HAL_UART_Transmit_ready g Size Timeout now _ hg, transferLoop_success]
    exact ⟨_, rfl, rfl, by simp, rfl⟩

/-- A receive started with `RxState` Ready is never rejected, ends with `RxState` Ready, and
succeeds when its polls find the flag set. -/
theorem fresh_receive (g : UART_HandleTypeDef) (hg : g.RxState = HAL_UART_STATE_READY) :
    receiveStart g =
      some { g with RxState := HAL_UART_STATE_BUSY_RX, gState := clearedMarker g.gState } ∧
    (∀ (Size Timeout now : Nat) (polls : List Poll) (r : TransferResult),
      HAL_UART_Receive g Size Timeout now polls = some r →
      r.outcome ≠ .PeripheralBusy ∧ r.handle.RxState = HAL_UART_STATE_READY) ∧
    (∀ (Size Timeout now t : Nat) (rest : List Poll),
      ∃ r, HAL_UART_Receive g Size Timeout now (List.replicate Size (pollReady t) ++ rest) =
          some r ∧
        r.outcome = .Success ∧ r.units_completed = Size ∧
        r.handle.RxState = HAL_UART_STATE_READY) := by
  have hs := receiveStart_ready g hg
  refine ⟨hs, ?_, ?_⟩
  · intro Size Timeout now polls r hr
    rw [HAL_UART_Receive_ready g _ Size Timeout now polls hs] at hr
    obtain ⟨e, he, rfl⟩ := Option.map_eq_some'.mp hr
    obtain ⟨hnb, _⟩ := transferLoop_end _ _ _ _ _ e he
    exact ⟨hnb, (receiveEnd_state _ e hnb).1⟩
  · intro Size Timeout now t rest
    rw [HAL_UART_Receive_ready g _ Size Timeout now _ hs, transferLoop_success]
    exact ⟨_, rfl, rfl, by simp, rfl⟩

/-! ## Enable/disable algebra lemmas -/

theorem setCtrl_setCtrl (u : USART_TypeDef) (r : CtrlReg) (v w : Nat) :
    (u.setCtrl r v).setCtrl r w = u.setCtrl r w := by
  cases r <;> rfl

theorem not32_testBit_ge (x i : Nat) (hi : 32 ≤ i) : (not32 x).testBit i = false :=
  testBit_of_lt_32 (not32_lt x) hi

theorem or_bit_idem (x b : Nat) : ((x ||| b) % 2 ^ 32 ||| b) % 2 ^ 32 = (x ||| b) % 2 ^ 32 := by
  apply Nat.eq_of_testBit_eq
  intro i
  simp only [Nat.testBit_mod_two_pow, Nat.testBit_or]
  cases decide (i < 32) <;> cases x.testBit i <;> cases b.testBit i <;> rfl

theorem and_not_idem (x b : Nat) : (x &&& not32 b) &&& not32 b = x &&& not32 b := by
  rw [Nat.and_assoc, Nat.and_self]

theorem or_then_and_not (x b : Nat) :
    ((x ||| b) % 2 ^ 32) &&& not32 b = x &&& not32 b := by
  apply Nat.eq_of_testBit_eq
  intro i
  simp only [Nat.testBit_and, Nat.testBit_mod_two_pow, Nat.testBit_or]
  by_cases hi : i < 32
  · rw [not32_testBit b i hi]
    simp only [hi, decide_True, Bool.true_and]
    cases x.testBit i <;> cases b.testBit i <;> rfl
  · rw [not32_testBit_ge b i (Nat.le_of_not_lt hi)]
    simp

theorem and_not_then_or (x b : Nat) :
    ((x &&& not32 b) ||| b) % 2 ^ 32 = (x ||| b) % 2 ^ 32 := by
  apply Nat.eq_of_testBit_eq
  intro i
  simp only [Nat.testBit_and, Nat.testBit_mod_two_pow, Nat.testBit_or]
  by_cases hi : i < 32
  · rw [not32_testBit b i hi]
    simp only [hi, decide_True, Bool.true_and]
    cases x.testBit i <;> cases b.testBit i <;> rfl
  · simp [hi]

/-- Enabling or disabling `a` does not change what `__HAL_UART_GET_IT_SOURCE` reads for `b` when
the two tokens decode to different (control register, bit position) pairs. -/
theorem get_it_source_frame (h : UART_HandleTypeDef) (a b : Nat)
    (hne : (IT_register a, a &&& 0x1F) ≠ (IT_register b, b &&& 0x1F)) :
    __HAL_UART_GET_IT_SOURCE (__HAL_UART_ENABLE_IT h a) b = __HAL_UART_GET_IT_SOURCE h b ∧
    __HAL_UART_GET_IT_SOURCE (__HAL_UART_DISABLE_IT h a) b = __HAL_UART_GET_IT_SOURCE h b := by
  rw [get_it_source_eq, get_it_source_eq, get_it_source_eq, enable_it_eq, disable_it_eq]
  by_cases hr : IT_register b = IT_register a
  · have hpos : a &&& 0x1F ≠ b &&& 0x1F := fun e => hne (by rw [hr, e])
    have hlt : b &&& 0x1F < 32 := and_mask_lt b
    rw [hr]
    simp only [ctrl_setCtrl_same]
    constructor
    · apply Nat.eq_of_testBit_eq
      intro i
      simp only [Nat.testBit_and, Nat.testBit_mod_two_pow, Nat.testBit_or, IT_bit_testBit]
      by_cases hi : b &&& 0x1F = i
      · have hai : ¬ a &&& 0x1F = i := fun e => hpos (e.trans hi.symm)
        have hi32 : i < 32 := hi ▸ hlt
        simp [hi, hai, hi32]
      · simp [hi]
    · apply Nat.eq_of_testBit_eq
      intro i
      simp only [Nat.testBit_and, IT_bit_testBit]
      by_cases hi : b &&& 0x1F = i
      · have hai : ¬ a &&& 0x1F = i := fun e => hpos (e.trans hi.symm)
        have hi32 : i < 32 := hi ▸ hlt
        rw [not32_testBit _ _ hi32, IT_bit_testBit]
        simp [hi, hai]
      · simp [hi]
  · simp only [ctrl_setCtrl_other _ _ _ _ hr, and_self]

theorem enable_tokens_nodup_pairs :
    (UART_IT_enable_tokens.map (fun t => (IT_register t, t &&& 0x1F))).Nodup := by
  decide

theorem get_it_eq (h : UART_HandleTypeDef) (t : Nat) (ht : t < 0x2000) :
    __HAL_UART_GET_IT h t = h.Instance.ISReg &&& 2 ^ (t >>> 8) := by
  have hpos : t >>> 8 < 32 := by
    rw [Nat.shiftRight_eq_div_pow]
    omega
  unfold __HAL_UART_GET_IT
  rw [Nat.one_shiftLeft, Nat.mod_eq_of_lt (two_pow_lt_of_lt_32 hpos)]

theorem flag_tokens_nodup_positions : (UART_IT_flag_tokens.map (fun t => t >>> 8)).Nodup := by
  decide

theorem flag_tokens_lt : ∀ t ∈ UART_IT_flag_tokens, t < 0x2000 := by
  decide

theorem and_one_eq_of_testBit_zero (x y : Nat) (hxy : x.testBit 0 = y.testBit 0) :
    x &&& 1 = y &&& 1 := by
  have ex : x &&& 1 = x % 2 := Nat.and_pow_two_sub_one_eq_mod x 1
  have ey : y &&& 1 = y % 2 := Nat.and_pow_two_sub_one_eq_mod y 1
  rw [ex, ey]
  rw [Nat.testBit_zero, Nat.testBit_zero] at hxy
  have hiff : x % 2 = 1 ↔ y % 2 = 1 := by
    constructor
    · intro hx
      have : decide (y % 2 = 1) = true := by rw [← hxy]; exact decide_eq_true hx
      exact of_decide_eq_true this
    · intro hy
      have : decide (x % 2 = 1) = true := by rw [hxy]; exact decide_eq_true hy
      exact of_decide_eq_true this
  omega

/-- Without 32-bit overflow the two divisor functions are the rounded quotients over the natural
numbers. -/
theorem uart_div_sampling_exact (c b p d : Nat) (hd : presc_table[p]? = some d) (hb : 1 ≤ b) :
    (c / d + b / 2 < 2 ^ 32 → uart_div_sampling16 c b p = some ((c / d + b / 2) / b)) ∧
    (2 * (c / d) + b / 2 < 2 ^ 32 →
      uart_div_sampling8 c b p = some ((2 * (c / d) + b / 2) / b)) := by
  have hb0 : b ≠ 0 := by omega
  constructor
  · intro hs
    have hlt : c / d < 2 ^ 32 := by omega
    rw [uart_div_sampling16_eq c b p d hd hb0, Nat.mod_eq_of_lt hlt, Nat.mod_eq_of_lt hs]
  · intro hs
    have hlt : c / d < 2 ^ 32 := by omega
    have hlt2 : c / d * 2 < 2 ^ 32 := by omega
    rw [uart_div_sampling8_eq c b p d hd hb0, Nat.mod_eq_of_lt hlt, Nat.mod_eq_of_lt hlt2,
      Nat.mul_comm (c / d) 2, Nat.mod_eq_of_lt hs]

theorem round_div_eq_zero_iff (s b : Nat) (hb : 1 ≤ b) :
    (s + b / 2) / b = 0 ↔ s < (b + 1) / 2 := by
  rw [Nat.div_eq_zero_iff (by omega)]
  omega

/-! ## Interrupt token codec -/

set_option maxRecDepth 100000 in
theorem token_round_trip_fin : ∀ s : Fin 4, ∀ y : Fin 32, ∀ z : Fin 32,
    IT_selector (encodeToken s y z) = s ∧
    encodeToken s y z &&& UART_IT_MASK = y ∧
    encodeToken s y z >>> 0x08 = z := by
  decide

/-- C1: for a register selector `s` in {1,2,3}, an enable-bit position `y` in [0,31] and a status
flag position `z` in [0,31], the token `(z << 8) | (s << 5) | y` decodes with the arithmetic of
the macros (`(uint8_t)(t & 0xFF) >> 5`, `t & UART_IT_MASK`, `t >> 8`) back to `(s, y, z)`. -/
theorem interrupt_token_round_trip (s y z : Nat)
    (hs : s = 1 ∨ s = 2 ∨ s = 3) (hy : y ≤ 31) (hz : z ≤ 31) :
    IT_selector (encodeToken s y z) = s ∧
    encodeToken s y z &&& UART_IT_MASK = y ∧
    encodeToken s y z >>> 0x08 = z := by
  have hs4 : s < 4 := by omega
  have hy32 : y < 32 := by omega
  have hz32 : z < 32 := by omega
  exact token_round_trip_fin ⟨s, hs4⟩ ⟨y, hy32⟩ ⟨z, hz32⟩

/-- Witness of C1 at the fields of `UART_IT_TXE` (selector 1, enable bit 7, flag 7). -/
theorem interrupt_token_round_trip_witness :
    ((1 : Nat) = 1 ∨ (1 : Nat) = 2 ∨ (1 : Nat) = 3) ∧ (7 : Nat) ≤ 31 ∧ (7 : Nat) ≤ 31 ∧
    encodeToken 1 7 7 = UART_IT_TXE ∧
    IT_selector (encodeToken 1 7 7) = 1 ∧
    encodeToken 1 7 7 &&& UART_IT_MASK = 7 ∧
    encodeToken 1 7 7 >>> 0x08 = 7 :=
  ⟨by decide, by decide, by decide, by decide,
   interrupt_token_round_trip 1 7 7 (by decide) (by decide) (by decide)⟩

/-- C2: for every token value `t`, `__HAL_UART_GET_IT_SOURCE` reads the control register that
`__HAL_UART_ENABLE_IT` and `__HAL_UART_DISABLE_IT` write, and tests the mask
`1 << (t & 0x1F)` that they set and clear; the differently cast field extractions agree. -/
theorem get_it_source_same_register_and_mask (t : Nat) :
    IT_SOURCE_selector t = IT_selector t ∧
    IT_SOURCE_bit t = 1 <<< (t &&& 0x1F) ∧
    IT_bit t = 1 <<< (t &&& 0x1F) ∧
    ∀ h : UART_HandleTypeDef,
      __HAL_UART_GET_IT_SOURCE h t =
        h.Instance.ctrl (IT_register t) &&& (1 <<< (t &&& 0x1F)) ∧
      __HAL_UART_ENABLE_IT h t =
        { h with Instance := (h.Instance.setCtrl (IT_register t)
            ((h.Instance.ctrl (IT_register t) ||| (1 <<< (t &&& 0x1F))) % 2 ^ 32)) } ∧
      __HAL_UART_DISABLE_IT h t =
        { h with Instance := (h.Instance.setCtrl (IT_register t)
            (h.Instance.ctrl (IT_register t) &&& not32 (1 <<< (t &&& 0x1F)))) } := by
  refine ⟨IT_SOURCE_selector_eq t, ?_, IT_bit_eq t, fun h => ⟨?_, ?_, ?_⟩⟩
  · rw [IT_SOURCE_bit_eq, IT_bit_eq]
  · rw [get_it_source_eq, IT_bit_eq]
  · rw [enable_it_eq, IT_bit_eq]
  · rw [disable_it_eq, IT_bit_eq]

/-- C3: on a 32-bit register state, after `__HAL_UART_ENABLE_IT(t)` the control register
selected by `t` (`CR1` for selector 1, `CR2` for selector 2, `CR3` for selector 3) is its old
value OR `1 << (t & 0x1F)`, and `__HAL_UART_GET_IT_SOURCE(t)` on the new state is non-zero. -/
theorem enable_it_sets_enable_bit (h : UART_HandleTypeDef) (t : Nat)
    (hwf : h.Instance.wf) :
    (IT_selector t = 1 →
      (__HAL_UART_ENABLE_IT h t).Instance.CR1 = h.Instance.CR1 ||| (1 <<< (t &&& 0x1F))) ∧
    (IT_selector t = 2 →
      (__HAL_UART_ENABLE_IT h t).Instance.CR2 = h.Instance.CR2 ||| (1 <<< (t &&& 0x1F))) ∧
    (IT_selector t = 3 →
      (__HAL_UART_ENABLE_IT h t).Instance.CR3 = h.Instance.CR3 ||| (1 <<< (t &&& 0x1F))) ∧
    __HAL_UART_GET_IT_SOURCE (__HAL_UART_ENABLE_IT h t) t ≠ 0 := by
  obtain ⟨h1, h2, h3, _⟩ := hwf
  refine ⟨fun hs => ?_, fun hs => ?_, fun hs => ?_, get_it_source_after_enable h t⟩
  · simp only [__HAL_UART_ENABLE_IT, hs, if_true]
    exact or_bit_mod _ t h1
  · have hne : ¬ IT_selector t = 1 := by omega
    simp only [__HAL_UART_ENABLE_IT, hs, if_true]
    exact or_bit_mod _ t h2
  · simp only [__HAL_UART_ENABLE_IT, hs]
    exact or_bit_mod _ t h3

/-- Witness of C3 at `UART_IT_TXE` (selector 1, enable bit 7) on the sample handle. -/
theorem enable_it_sets_enable_bit_witness :
    sampleHandle.Instance.wf ∧ IT_selector UART_IT_TXE = 1 ∧
    (__HAL_UART_ENABLE_IT sampleHandle UART_IT_TXE).Instance.CR1 = 0x8D ∧
    __HAL_UART_GET_IT_SOURCE (__HAL_UART_ENABLE_IT sampleHandle UART_IT_TXE) UART_IT_TXE ≠ 0 :=
  ⟨by decide, by decide,
   ((enable_it_sets_enable_bit sampleHandle UART_IT_TXE (by decide)).1 (by decide)).trans
     (by decide),
   (enable_it_sets_enable_bit sampleHandle UART_IT_TXE (by decide)).2.2.2⟩

/-- C4: after `__HAL_UART_DISABLE_IT(t)` the control register selected by `t` is its old value
AND NOT `1 << (t & 0x1F)`, and `__HAL_UART_GET_IT_SOURCE(t)` on the new state is zero. -/
theorem disable_it_clears_enable_bit (h : UART_HandleTypeDef) (t : Nat) :
    (IT_selector t = 1 →
      (__HAL_UART_DISABLE_IT h t).Instance.CR1 =
        h.Instance.CR1 &&& not32 (1 <<< (t &&& 0x1F))) ∧
    (IT_selector t = 2 →
      (__HAL_UART_DISABLE_IT h t).Instance.CR2 =
        h.Instance.CR2 &&& not32 (1 <<< (t &&& 0x1F))) ∧
    (IT_selector t = 3 →
      (__HAL_UART_DISABLE_IT h t).Instance.CR3 =
        h.Instance.CR3 &&& not32 (1 <<< (t &&& 0x1F))) ∧
    __HAL_UART_GET_IT_SOURCE (__HAL_UART_DISABLE_IT h t) t = 0 := by
  refine ⟨fun hs => ?_, fun hs => ?_, fun hs => ?_, get_it_source_after_disable h t⟩
  · simp only [__HAL_UART_DISABLE_IT, hs, if_true]
    rw [IT_bit_eq]
  · simp only [__HAL_UART_DISABLE_IT, hs, if_true]
    rw [IT_bit_eq]
    rfl
  · simp only [__HAL_UART_DISABLE_IT, hs]
    rw [IT_bit_eq]
    rfl

/-- Witness of C4 at `UART_IT_CTS` (selector 3, enable bit 10) on the sample handle. -/
theorem disable_it_clears_enable_bit_witness :
    IT_selector UART_IT_CTS = 3 ∧ sampleHandle.Instance.CR3 = 0x500 ∧
    (__HAL_UART_DISABLE_IT sampleHandle UART_IT_CTS).Instance.CR3 = 0x100 ∧
    __HAL_UART_GET_IT_SOURCE (__HAL_UART_DISABLE_IT sampleHandle UART_IT_CTS) UART_IT_CTS = 0 :=
  ⟨by decide, by decide,
   ((disable_it_clears_enable_bit sampleHandle UART_IT_CTS).2.2.1 (by decide)).trans
     (by decide),
   (disable_it_clears_enable_bit sampleHandle UART_IT_CTS).2.2.2⟩

/-- C5: on a 32-bit register state, `__HAL_UART_ENABLE_IT(t)` and `__HAL_UART_DISABLE_IT(t)`
change at most bit `t & 0x1F` of the one control register their conditional chain selects
(`CR1` for selector 1, `CR2` for selector 2, `CR3` for selector 3); the two other control
registers, every other bit of the selected register, `ISReg`, `ICR`, `RQR` and the handle's
state fields are unchanged. -/
theorem enable_disable_frame (h h' : UART_HandleTypeDef) (t : Nat) (hwf : h.Instance.wf)
    (hop : h' = __HAL_UART_ENABLE_IT h t ∨ h' = __HAL_UART_DISABLE_IT h t) :
    (∀ r, r ≠ IT_register t → h'.Instance.ctrl r = h.Instance.ctrl r) ∧
    (∀ i, i ≠ t &&& 0x1F →
      (h'.Instance.ctrl (IT_register t)).testBit i =
        (h.Instance.ctrl (IT_register t)).testBit i) ∧
    h'.Instance.ISReg = h.Instance.ISReg ∧ h'.Instance.ICR = h.Instance.ICR ∧
    h'.Instance.RQR = h.Instance.RQR ∧
    h'.gState = h.gState ∧ h'.RxState = h.RxState ∧ h'.ErrorCode = h.ErrorCode ∧
    (IT_selector t = 1 → IT_register t = CtrlReg.CR1) ∧
    (IT_selector t = 2 → IT_register t = CtrlReg.CR2) ∧
    (IT_selector t = 3 → IT_register t = CtrlReg.CR3) := by
  have hx := ctrl_lt_of_wf h.Instance hwf (IT_register t)
  have hsel : (IT_selector t = 1 → IT_register t = CtrlReg.CR1) ∧
      (IT_selector t = 2 → IT_register t = CtrlReg.CR2) ∧
      (IT_selector t = 3 → IT_register t = CtrlReg.CR3) := by
    refine ⟨fun hs => ?_, fun hs => ?_, fun hs => ?_⟩ <;> simp [IT_register, hs]
  rcases hop with hop | hop
  · rw [hop, enable_it_eq]
    obtain ⟨f1, f2, f3⟩ := setCtrl_frame h.Instance (IT_register t)
      ((h.Instance.ctrl (IT_register t) ||| IT_bit t) % 2 ^ 32)
    refine ⟨fun r hr => ctrl_setCtrl_other _ _ _ _ hr, fun i hi => ?_, f1, f2, f3,
      rfl, rfl, rfl, hsel⟩
    simp only [ctrl_setCtrl_same]
    exact enable_bit_frame _ t i hx hi
  · rw [hop, disable_it_eq]
    obtain ⟨f1, f2, f3⟩ := setCtrl_frame h.Instance (IT_register t)
      (h.Instance.ctrl (IT_register t) &&& not32 (IT_bit t))
    refine ⟨fun r hr => ctrl_setCtrl_other _ _ _ _ hr, fun i hi => ?_, f1, f2, f3,
      rfl, rfl, rfl, hsel⟩
    simp only [ctrl_setCtrl_same]
    exact disable_bit_frame _ t i hx hi

/-- Witness of C5: enabling `UART_IT_LBD` (selector 2, enable bit 6) on the sample handle leaves
`CR1`, `CR3`, bit 14 of `CR2` and `ISReg` as they were. -/
theorem enable_disable_frame_witness :
    sampleHandle.Instance.wf ∧ IT_register UART_IT_LBD = CtrlReg.CR2 ∧
    (__HAL_UART_ENABLE_IT sampleHandle UART_IT_LBD).Instance.CR1 = sampleHandle.Instance.CR1 ∧
    (__HAL_UART_ENABLE_IT sampleHandle UART_IT_LBD).Instance.CR3 = sampleHandle.Instance.CR3 ∧
    ((__HAL_UART_ENABLE_IT sampleHandle UART_IT_LBD).Instance.ctrl
        (IT_register UART_IT_LBD)).testBit 14 =
      (sampleHandle.Instance.ctrl (IT_register UART_IT_LBD)).testBit 14 ∧
    (__HAL_UART_ENABLE_IT sampleHandle UART_IT_LBD).Instance.ISReg =
      sampleHandle.Instance.ISReg :=
  have w := enable_disable_frame sampleHandle (__HAL_UART_ENABLE_IT sampleHandle UART_IT_LBD)
    UART_IT_LBD (by decide) (Or.inl rfl)
  ⟨by decide, by decide, w.1 CtrlReg.CR1 (by decide), w.1 CtrlReg.CR3 (by decide),
   w.2.1 14 (by decide), w.2.2.1⟩

/-- C6: for a token `t < 0x2000`, `__HAL_UART_GET_IT(t)` is non-zero exactly when bit `t >> 8`
of `ISReg` is set, and its value is the same on every handle with the same `ISReg` and every
token below `0x2000` with the same bits 8..12. -/
theorem get_it_tests_status_flag (h : UART_HandleTypeDef) (t : Nat) (ht : t < 0x2000) :
    (__HAL_UART_GET_IT h t ≠ 0 ↔ h.Instance.ISReg.testBit (t >>> 8) = true) ∧
    (∀ (h' : UART_HandleTypeDef) (t' : Nat), t' < 0x2000 →
      h'.Instance.ISReg = h.Instance.ISReg →
      (t' >>> 8) &&& 0x1F = (t >>> 8) &&& 0x1F →
      __HAL_UART_GET_IT h' t' = __HAL_UART_GET_IT h t) := by
  have hpos : ∀ u : Nat, u < 0x2000 → u >>> 8 < 32 := by
    intro u hu
    rw [Nat.shiftRight_eq_div_pow]
    omega
  have hbit : ∀ u : Nat, u < 0x2000 → (1 <<< (u >>> 8)) % 2 ^ 32 = 2 ^ (u >>> 8) := by
    intro u hu
    rw [Nat.one_shiftLeft]
    exact Nat.mod_eq_of_lt (two_pow_lt_of_lt_32 (hpos u hu))
  constructor
  · unfold __HAL_UART_GET_IT
    rw [hbit t ht]
    exact and_two_pow_ne_zero_iff _ _
  · intro h' t' ht' hisr hbits
    unfold __HAL_UART_GET_IT
    rw [and_mask_eq_mod, and_mask_eq_mod, Nat.mod_eq_of_lt (hpos t' ht'),
      Nat.mod_eq_of_lt (hpos t ht)] at hbits
    rw [hisr, hbits]

/-- Witness of C6 at `UART_IT_TC` (flag position 6) on the sample handle, whose `ISReg` has
bit 6 set. -/
theorem get_it_tests_status_flag_witness :
    UART_IT_TC < 0x2000 ∧ sampleHandle.Instance.ISReg.testBit (UART_IT_TC >>> 8) = true ∧
    __HAL_UART_GET_IT sampleHandle UART_IT_TC ≠ 0 :=
  ⟨by decide, by decide,
   (get_it_tests_status_flag sampleHandle UART_IT_TC (by decide)).1.mpr (by decide)⟩

/-- C7, as stated, fails: `UART_IT_ORE` is defined in the header and its register selector
field is 0, none of 1, 2, 3. -/
theorem it_ore_selector_not_a_control_register :
    UART_IT_ORE ∈ UART_Interrupt_definition ∧
    ¬ (IT_selector UART_IT_ORE = 1 ∨ IT_selector UART_IT_ORE = 2 ∨
       IT_selector UART_IT_ORE = 3) := by
  decide

/-- C7, amended: the thirteen tokens that carry an enable bit (`UART_IT_PE` to `UART_IT_ERR`)
have a register selector in {1,2,3}; the three flag-only tokens `UART_IT_ORE`, `UART_IT_NE`
and `UART_IT_FE` (convention `0000ZZZZ00000000b`) have selector 0 and enable-bit field 0. -/
theorem defined_tokens_selector :
    UART_Interrupt_definition =
      [UART_IT_PE, UART_IT_TXE, UART_IT_TC, UART_IT_RXNE, UART_IT_LBD, UART_IT_CTS,
       UART_IT_CM, UART_IT_WUF, UART_IT_RXFF, UART_IT_TXFE, UART_IT_RXFT, UART_IT_TXFT,
       UART_IT_ERR] ++ [UART_IT_ORE, UART_IT_NE, UART_IT_FE] ∧
    [UART_IT_PE, UART_IT_TXE, UART_IT_TC, UART_IT_RXNE, UART_IT_LBD, UART_IT_CTS,
     UART_IT_CM, UART_IT_WUF, UART_IT_RXFF, UART_IT_TXFE, UART_IT_RXFT, UART_IT_TXFT,
     UART_IT_ERR].map IT_selector = [1, 1, 1, 1, 2, 3, 1, 3, 1, 1, 3, 3, 3] ∧
    [UART_IT_ORE, UART_IT_NE, UART_IT_FE].map IT_selector = [0, 0, 0] ∧
    [UART_IT_ORE, UART_IT_NE, UART_IT_FE].map (fun t => t &&& UART_IT_MASK) = [0, 0, 0] := by
  decide

/-- C8, as stated, fails: `UART_IT_ORE` has selector 0, yet enabling it changes `CR3` of the
sample handle, disabling it afterwards changes `CR3` back, and `__HAL_UART_GET_IT_SOURCE`
follows `CR3`. -/
theorem selector_zero_defaults_to_cr3 :
    IT_selector UART_IT_ORE = 0 ∧
    sampleHandle.Instance.CR3 = 0x500 ∧
    (__HAL_UART_ENABLE_IT sampleHandle UART_IT_ORE).Instance.CR3 = 0x501 ∧
    (__HAL_UART_DISABLE_IT (__HAL_UART_ENABLE_IT sampleHandle UART_IT_ORE)
      UART_IT_ORE).Instance.CR3 = 0x500 ∧
    __HAL_UART_GET_IT_SOURCE sampleHandle UART_IT_ORE = 0 ∧
    __HAL_UART_GET_IT_SOURCE (__HAL_UART_ENABLE_IT sampleHandle UART_IT_ORE) UART_IT_ORE = 1 := by
  decide

/-- C8, amended: for a token whose register selector field is none of 1, 2, 3, the macros take
the final branch of their conditional chain: `__HAL_UART_ENABLE_IT` sets and
`__HAL_UART_DISABLE_IT` clears bit `t & 0x1F` of `CR3` and change nothing else, and
`__HAL_UART_GET_IT_SOURCE` reads that bit of `CR3`. -/
theorem unmatched_selector_acts_on_cr3 (h : UART_HandleTypeDef) (t : Nat)
    (h1 : IT_selector t ≠ 1) (h2 : IT_selector t ≠ 2) (_h3 : IT_selector t ≠ 3) :
    __HAL_UART_ENABLE_IT h t =
      { h with Instance :=
          { h.Instance with CR3 := (h.Instance.CR3 ||| (1 <<< (t &&& 0x1F))) % 2 ^ 32 } } ∧
    __HAL_UART_DISABLE_IT h t =
      { h with Instance :=
          { h.Instance with CR3 := h.Instance.CR3 &&& not32 (1 <<< (t &&& 0x1F)) } } ∧
    __HAL_UART_GET_IT_SOURCE h t = h.Instance.CR3 &&& (1 <<< (t &&& 0x1F)) := by
  have hr : IT_register t = CtrlReg.CR3 := by simp [IT_register, h1, h2]
  refine ⟨?_, ?_, ?_⟩
  · simp only [__HAL_UART_ENABLE_IT, h1, h2, if_false, IT_bit_eq]
  · simp only [__HAL_UART_DISABLE_IT, h1, h2, if_false, IT_bit_eq]
  · rw [get_it_source_eq, hr, IT_bit_eq]
    rfl

/-- Witness of amended C8 at `UART_IT_NE` (selector 0) on the sample handle. -/
theorem unmatched_selector_acts_on_cr3_witness :
    IT_selector UART_IT_NE ≠ 1 ∧ IT_selector UART_IT_NE ≠ 2 ∧ IT_selector UART_IT_NE ≠ 3 ∧
    __HAL_UART_ENABLE_IT sampleHandle UART_IT_NE =
      { sampleHandle with Instance := { sampleRegs with CR3 := 0x501 } } ∧
    __HAL_UART_GET_IT_SOURCE sampleHandle UART_IT_NE = sampleHandle.Instance.CR3 &&& 1 :=
  have w := unmatched_selector_acts_on_cr3 sampleHandle UART_IT_NE
    (by decide) (by decide) (by decide)
  ⟨by decide, by decide, by decide, w.1.trans (by decide), w.2.2.trans (by decide)⟩

/-- C9: `IS_UART_BAUDRATE(b)` holds exactly when `b < 12500001`; it is false exactly for the
baud rates at or above 12500001 and true exactly for those up to 12500000 = 100000000 / 8. -/
theorem is_uart_baudrate_iff (b : Nat) :
    (IS_UART_BAUDRATE b = true ↔ b < 12500001) ∧
    (IS_UART_BAUDRATE b = false ↔ 12500001 ≤ b) ∧
    (IS_UART_BAUDRATE b = true ↔ b ≤ 100000000 / 8) ∧
    100000000 / 8 = 12500000 := by
  unfold IS_UART_BAUDRATE
  refine ⟨by simp, by simp, ?_, by norm_num⟩
  rw [decide_eq_true_iff]
  omega

/-- C10, as stated, fails: `IS_UART_BAUDRATE(0)` is not false. -/
theorem is_uart_baudrate_zero_accepted : ¬ (IS_UART_BAUDRATE 0 = false) := by
  decide

/-- C10, amended: `IS_UART_BAUDRATE(0)` is true, the macro bounding the baud rate from above
only; at baud rate 0 the division of `uart_div_sampling8` and `uart_div_sampling16` has a zero
divisor and yields no result, whereas for every baud rate `b >= 1` and every prescaler index
below 12 both functions return a result. -/
theorem zero_baudrate_passes_validation :
    IS_UART_BAUDRATE 0 = true ∧
    (∀ c p : Nat, uart_div_sampling8 c 0 p = none ∧ uart_div_sampling16 c 0 p = none) ∧
    (∀ c b p : Nat, 1 ≤ b → p < 12 →
      (uart_div_sampling8 c b p).isSome = true ∧
      (uart_div_sampling16 c b p).isSome = true) := by
  refine ⟨by decide, fun c p => ?_, fun c b p hb hp => ?_⟩
  · unfold uart_div_sampling8 uart_div_sampling16
    cases presc_table[p]? <;> simp
  · have hb0 : b ≠ 0 := by omega
    obtain ⟨d, hd, _⟩ := presc_table_lookup p hp
    rw [uart_div_sampling8_eq c b p d hd hb0, uart_div_sampling16_eq c b p d hd hb0]
    exact ⟨rfl, rfl⟩

/-- Witness of amended C10: at clock 16000000, baud rate 115200 and prescaler index 0 both
divisor functions return a result, and at baud rate 0 neither does. -/
theorem zero_baudrate_passes_validation_witness :
    (1 : Nat) ≤ 115200 ∧ (0 : Nat) < 12 ∧
    (uart_div_sampling8 16000000 115200 0).isSome = true ∧
    (uart_div_sampling16 16000000 115200 0).isSome = true ∧
    uart_div_sampling16 16000000 0 0 = none :=
  ⟨by decide, by decide,
   (zero_baudrate_passes_validation.2.2 16000000 115200 0 (by decide) (by decide)).1,
   (zero_baudrate_passes_validation.2.2 16000000 115200 0 (by decide) (by decide)).2,
   (zero_baudrate_passes_validation.2.1 16000000 0).2⟩

/-- C11: for a valid prescaler index `p` with divider `d = presc_table[p]`, a baud rate
`b >= 1` and a clock `c` with `s = c / d` and `s + b/2 < 2^32`, `uart_div_sampling16(c, b, p)`
returns `r = (s + b/2) / b`, which is a nearest integer to `s / b` (`2 * |r*b - s| <= b`) and
is the larger neighbour when `s / b` is exactly halfway between two integers. -/
theorem uart_div_sampling16_round_half_up (c b p d : Nat)
    (hd : presc_table[p]? = some d) (hb : 1 ≤ b) (hs : c / d + b / 2 < 2 ^ 32) :
    ∃ r, uart_div_sampling16 c b p = some r ∧
      r = (c / d + b / 2) / b ∧
      2 * |(r : Int) * (b : Int) - ((c / d : Nat) : Int)| ≤ (b : Int) ∧
      ∀ k : Nat, 2 * (c / d) = (2 * k + 1) * b → r = k + 1 := by
  have hb0 : b ≠ 0 := by omega
  have hlt : c / d < 2 ^ 32 := by omega
  refine ⟨(c / d + b / 2) / b, ?_, rfl, round_div_nearest (c / d) b hb,
    fun k hk => round_div_half_up (c / d) b k hb hk⟩
  rw [uart_div_sampling16_eq c b p d hd hb0, Nat.mod_eq_of_lt hlt, Nat.mod_eq_of_lt hs]

/-- Witness of C11: clock 16000000, baud rate 115200, prescaler index 0 (divider 1) gives 139,
and clock 3, baud rate 2 (the halfway case 3/2) gives 2. -/
theorem uart_div_sampling16_round_half_up_witness :
    presc_table[0]? = some 1 ∧ (1 : Nat) ≤ 115200 ∧ 16000000 / 1 + 115200 / 2 < 2 ^ 32 ∧
    uart_div_sampling16 16000000 115200 0 = some 139 ∧
    uart_div_sampling16 3 2 0 = some 2 :=
  ⟨by decide, by decide, by decide,
   (uart_div_sampling16_round_half_up 16000000 115200 0 1 (by decide) (by decide)
      (by decide)).elim (fun _ hr => hr.1.trans (by rw [hr.2.1])),
   (uart_div_sampling16_round_half_up 3 2 0 1 (by decide) (by decide)
      (by decide)).elim (fun _ hr => hr.1.trans (by rw [hr.2.2.2 1 (by decide)]))⟩

/-- C12: for a valid prescaler index `p` with divider `d = presc_table[p]`, a baud rate
`b >= 1` and a clock `c` with `s = c / d` and `2*s + b/2 < 2^32`, `uart_div_sampling8(c, b, p)`
returns `r = (2*s + b/2) / b`, which is a nearest integer to `2*s / b`
(`2 * |r*b - 2*s| <= b`), halves rounded up. -/
theorem uart_div_sampling8_round_half_up (c b p d : Nat)
    (hd : presc_table[p]? = some d) (hb : 1 ≤ b) (hs : 2 * (c / d) + b / 2 < 2 ^ 32) :
    ∃ r, uart_div_sampling8 c b p = some r ∧
      r = (2 * (c / d) + b / 2) / b ∧
      2 * |(r : Int) * (b : Int) - ((2 * (c / d) : Nat) : Int)| ≤ (b : Int) ∧
      ∀ k : Nat, 2 * (2 * (c / d)) = (2 * k + 1) * b → r = k + 1 := by
  have hb0 : b ≠ 0 := by omega
  have hlt : c / d < 2 ^ 32 := by omega
  have hlt2 : c / d * 2 < 2 ^ 32 := by omega
  refine ⟨(2 * (c / d) + b / 2) / b, ?_, rfl, round_div_nearest (2 * (c / d)) b hb,
    fun k hk => round_div_half_up (2 * (c / d)) b k hb hk⟩
  rw [uart_div_sampling8_eq c b p d hd hb0, Nat.mod_eq_of_lt hlt, Nat.mod_eq_of_lt hlt2,
    Nat.mul_comm (c / d) 2, Nat.mod_eq_of_lt hs]

/-- Witness of C12: clock 16000000, baud rate 115200, prescaler index 0 (divider 1) gives
278. -/
theorem uart_div_sampling8_round_half_up_witness :
    presc_table[0]? = some 1 ∧ (1 : Nat) ≤ 115200 ∧
    2 * (16000000 / 1) + 115200 / 2 < 2 ^ 32 ∧
    uart_div_sampling8 16000000 115200 0 = some 278 :=
  ⟨by decide, by decide, by decide,
   (uart_div_sampling8_round_half_up 16000000 115200 0 1 (by decide) (by decide)
      (by decide)).elim (fun _ hr => hr.1.trans (by rw [hr.2.1]))⟩

/-- C13: for each of the twelve prescaler indices, each clock `c` and all baud rates
`1 <= b1 <= b2`, both divisor functions return a result at `b1` and at `b2`, and the result at
`b2` is at most the result at `b1`, in the 32-bit arithmetic of the code. -/
theorem uart_div_sampling_antitone (c b1 b2 p : Nat) (hp : p < 12) (h1 : 1 ≤ b1)
    (h12 : b1 ≤ b2) :
    (∃ r1 r2, uart_div_sampling16 c b1 p = some r1 ∧ uart_div_sampling16 c b2 p = some r2 ∧
      r2 ≤ r1) ∧
    (∃ q1 q2, uart_div_sampling8 c b1 p = some q1 ∧ uart_div_sampling8 c b2 p = some q2 ∧
      q2 ≤ q1) := by
  obtain ⟨d, hd, _⟩ := presc_table_lookup p hp
  have hb1 : b1 ≠ 0 := by omega
  have hb2 : b2 ≠ 0 := by omega
  constructor
  · exact ⟨_, _, uart_div_sampling16_eq c b1 p d hd hb1, uart_div_sampling16_eq c b2 p d hd hb2,
      wrapped_round_div_antitone _ b1 b2 (Nat.mod_lt _ (by norm_num)) h1 h12⟩
  · exact ⟨_, _, uart_div_sampling8_eq c b1 p d hd hb1, uart_div_sampling8_eq c b2 p d hd hb2,
      wrapped_round_div_antitone _ b1 b2 (Nat.mod_lt _ (by norm_num)) h1 h12⟩

/-- Witness of C13: at clock 16000000 and prescaler index 0, baud rates 9600 and 115200 give
1667 and 139 (16x) and 3333 and 278 (8x). -/
theorem uart_div_sampling_antitone_witness :
    (0 : Nat) < 12 ∧ (1 : Nat) ≤ 9600 ∧ (9600 : Nat) ≤ 115200 ∧
    uart_div_sampling16 16000000 9600 0 = some 1667 ∧
    uart_div_sampling16 16000000 115200 0 = some 139 ∧
    uart_div_sampling8 16000000 9600 0 = some 3333 ∧
    uart_div_sampling8 16000000 115200 0 = some 278 ∧
    ((∃ r1 r2, uart_div_sampling16 16000000 9600 0 = some r1 ∧
        uart_div_sampling16 16000000 115200 0 = some r2 ∧ r2 ≤ r1) ∧
     (∃ q1 q2, uart_div_sampling8 16000000 9600 0 = some q1 ∧
        uart_div_sampling8 16000000 115200 0 = some q2 ∧ q2 ≤ q1)) :=
  ⟨by decide, by decide, by decide, by decide, by decide, by decide, by decide,
   uart_div_sampling_antitone 16000000 9600 115200 0 (by decide) (by decide) (by decide)⟩

/-- C14: with clock 16000000, baud rate 115200 and `UART_PRESCALER_DIV1` (divider 1),
`uart_div_sampling8` returns 278 = 0x116; its low four bits (b3,b2,b1,b0) are (0,1,1,0), and
the value `{b3,b2,b1,0}` with bit 0 forced to zero is 0b0110. -/
theorem uart_div_sampling8_hand_example :
    presc_table[UART_PRESCALER_DIV1]? = some 1 ∧
    uart_div_sampling8 16000000 115200 UART_PRESCALER_DIV1 = some 278 ∧
    (278 : Nat) = 0x116 ∧
    ((278 : Nat).testBit 3, (278 : Nat).testBit 2, (278 : Nat).testBit 1,
      (278 : Nat).testBit 0) = (false, true, true, false) ∧
    (278 : Nat) &&& 0x000F = 0b0110 ∧
    ((278 : Nat) &&& 0x000F) &&& 0b1110 = 0b0110 := by
  decide

/-- C15: for a 16-bit intermediate divisor `d`, the baud rate register value
`(d & 0xFFF0) | ((d & 0x000F) >> 1)` has bits [15:4] equal to `d[15:4]`, bit 3 equal to 0 and
bits [2:0] equal to `d[3:0] >> 1`, and it is the only value with these three fields. -/
theorem brr_sampling8_repacking (d : Nat) (h16 : d < 2 ^ 16) :
    BRR_sampling8 d = (d &&& 0xFFF0) ||| ((d &&& 0x000F) >>> 1) ∧
    BRR_sampling8 d >>> 4 = d >>> 4 ∧
    (BRR_sampling8 d).testBit 3 = false ∧
    BRR_sampling8 d &&& 0x7 = (d &&& 0x000F) >>> 1 ∧
    (∀ v : Nat, v >>> 4 = d >>> 4 → v.testBit 3 = false →
      v &&& 0x7 = (d &&& 0x000F) >>> 1 → v = BRR_sampling8 d) ∧
    BRR_sampling8 d < 2 ^ 16 := by
  refine ⟨rfl, BRR_sampling8_high d h16, BRR_sampling8_bit3 d, BRR_sampling8_low d,
    fun v hhi hb3 hlo => BRR_sampling8_unique d v h16 hhi hb3 hlo, ?_⟩
  unfold BRR_sampling8
  apply Nat.or_lt_two_pow
  · exact Nat.and_lt_two_pow _ (by norm_num)
  · rw [Nat.shiftRight_eq_div_pow]
    have h := Nat.and_lt_two_pow d (show (0x000F : Nat) < 2 ^ 16 by norm_num)
    omega

/-- Witness of C15 at the intermediate divisor 278 = 0x116 that `uart_div_sampling8` returns for
clock 16000000 and baud rate 115200: the register value is 0x113. -/
theorem brr_sampling8_repacking_witness :
    uart_div_sampling8 16000000 115200 0 = some 278 ∧ (278 : Nat) < 2 ^ 16 ∧
    BRR_sampling8 278 = 0x113 ∧
    BRR_sampling8 278 >>> 4 = 278 >>> 4 ∧
    (BRR_sampling8 278).testBit 3 = false ∧
    BRR_sampling8 278 &&& 0x7 = 3 :=
  have w := brr_sampling8_repacking 278 (by decide)
  ⟨by decide, by decide, w.1.trans (by decide), w.2.1, w.2.2.1, w.2.2.2.1.trans (by decide)⟩

/-- C16: `presc_table[UART_PRESCALER_DIVn] = n` for each of the twelve dividers, and for a
table entry `n = presc_table[p]`, a clock whose quotient `c / n` fits the 32-bit `scaled_freq`
and a baud rate `b >= 1`, both divisor functions compute their result from `c / n`. -/
theorem presc_table_matches_selections (c b p n : Nat)
    (hn : presc_table[p]? = some n) (hc : c / n < 2 ^ 32) (hb : 1 ≤ b) :
    (presc_table[UART_PRESCALER_DIV1]? = some 1 ∧
     presc_table[UART_PRESCALER_DIV2]? = some 2 ∧
     presc_table[UART_PRESCALER_DIV4]? = some 4 ∧
     presc_table[UART_PRESCALER_DIV6]? = some 6 ∧
     presc_table[UART_PRESCALER_DIV8]? = some 8 ∧
     presc_table[UART_PRESCALER_DIV10]? = some 10 ∧
     presc_table[UART_PRESCALER_DIV12]? = some 12 ∧
     presc_table[UART_PRESCALER_DIV16]? = some 16 ∧
     presc_table[UART_PRESCALER_DIV32]? = some 32 ∧
     presc_table[UART_PRESCALER_DIV64]? = some 64 ∧
     presc_table[UART_PRESCALER_DIV128]? = some 128 ∧
     presc_table[UART_PRESCALER_DIV256]? = some 256) ∧
    uart_div_sampling16 c b p = some (((c / n + b / 2) % 2 ^ 32) / b) ∧
    uart_div_sampling8 c b p = some ((((c / n * 2) % 2 ^ 32 + b / 2) % 2 ^ 32) / b) := by
  have hb0 : b ≠ 0 := by omega
  refine ⟨by decide, ?_, ?_⟩
  · rw [uart_div_sampling16_eq c b p n hn hb0, Nat.mod_eq_of_lt hc]
  · rw [uart_div_sampling8_eq c b p n hn hb0, Nat.mod_eq_of_lt hc]

/-- Witness of C16 at `UART_PRESCALER_DIV6`: clock 48000000 is scaled to 8000000, and the
results at baud rate 115200 are 69 (16x) and 139 (8x). -/
theorem presc_table_matches_selections_witness :
    presc_table[UART_PRESCALER_DIV6]? = some 6 ∧ 48000000 / 6 < 2 ^ 32 ∧ (1 : Nat) ≤ 115200 ∧
    48000000 / 6 = 8000000 ∧
    uart_div_sampling16 48000000 115200 UART_PRESCALER_DIV6 = some 69 ∧
    uart_div_sampling8 48000000 115200 UART_PRESCALER_DIV6 = some 139 :=
  have w := presc_table_matches_selections 48000000 115200 UART_PRESCALER_DIV6 6
    (by decide) (by decide) (by decide)
  ⟨by decide, by decide, by decide, by decide, w.2.1.trans (by decide),
   w.2.2.trans (by decide)⟩

/-- C17: `IS_UART_PRESCALER(p)` holds exactly when `p <= 11`; for every such `p` the lookup
`presc_table[p]` is inside the 12-entry table and non-zero, so for every accepted prescaler and
every baud rate `b >= 1` both divisor functions return a result (no index out of range, no
division by zero); outside the table they have none. -/
theorem is_uart_prescaler_safe (p : Nat) :
    (IS_UART_PRESCALER p = true ↔ p ≤ 11) ∧
    presc_table.length = 12 ∧
    (p ≤ 11 → ∃ d, presc_table[p]? = some d ∧ d ≠ 0) ∧
    (IS_UART_PRESCALER p = true → ∀ c b : Nat, 1 ≤ b →
      (uart_div_sampling8 c b p).isSome = true ∧
      (uart_div_sampling16 c b p).isSome = true) ∧
    (IS_UART_PRESCALER p = false → ∀ c b : Nat,
      uart_div_sampling8 c b p = none ∧ uart_div_sampling16 c b p = none) := by
  have hiff : IS_UART_PRESCALER p = true ↔ p ≤ 11 := by
    simp only [IS_UART_PRESCALER, UART_PRESCALER_DIV1, UART_PRESCALER_DIV2,
      UART_PRESCALER_DIV4, UART_PRESCALER_DIV6, UART_PRESCALER_DIV8, UART_PRESCALER_DIV10,
      UART_PRESCALER_DIV12, UART_PRESCALER_DIV16, UART_PRESCALER_DIV32, UART_PRESCALER_DIV64,
      UART_PRESCALER_DIV128, UART_PRESCALER_DIV256, Bool.or_eq_true, beq_iff_eq]
    omega
  refine ⟨hiff, by decide, fun hp => presc_table_lookup p (by omega), ?_, ?_⟩
  · intro hok c b hb
    obtain ⟨d, hd, _⟩ := presc_table_lookup p (by have := hiff.mp hok; omega)
    have hb0 : b ≠ 0 := by omega
    rw [uart_div_sampling8_eq c b p d hd hb0, uart_div_sampling16_eq c b p d hd hb0]
    exact ⟨rfl, rfl⟩
  · intro hbad c b
    have hp : ¬ p ≤ 11 := fun hle => by
      rw [hiff.mpr hle] at hbad
      exact Bool.noConfusion hbad
    have hnone : presc_table[p]? = none := by
      apply List.getElem?_eq_none
      simp only [presc_table, List.length_cons, List.length_nil]
      omega
    unfold uart_div_sampling8 uart_div_sampling16
    rw [hnone]
    exact ⟨rfl, rfl⟩

/-- Witness of C17 at `UART_PRESCALER_DIV256` (index 11, divider 256). -/
theorem is_uart_prescaler_safe_witness :
    IS_UART_PRESCALER UART_PRESCALER_DIV256 = true ∧ UART_PRESCALER_DIV256 ≤ 11 ∧
    (1 : Nat) ≤ 9600 ∧
    (∃ d, presc_table[UART_PRESCALER_DIV256]? = some d ∧ d ≠ 0) ∧
    (uart_div_sampling8 100000000 9600 UART_PRESCALER_DIV256).isSome = true ∧
    (uart_div_sampling16 100000000 9600 UART_PRESCALER_DIV256).isSome = true :=
  have w := is_uart_prescaler_safe UART_PRESCALER_DIV256
  ⟨by decide, by decide, by decide, w.2.2.1 (by decide),
   (w.2.2.2.1 (by decide) 100000000 9600 (by decide)).1,
   (w.2.2.2.1 (by decide) 100000000 9600 (by decide)).2⟩

/-- C18: `__HAL_UART_GET_FLAG(mask)` is true exactly when `(ISReg & mask) == mask`, that is when
every bit set in `mask` is set in `ISReg`; for a single-bit mask it is true exactly when that
bit of `ISReg` is set; and it is the same on every handle with the same `ISReg`, whatever the
control registers and `ICR` hold. -/
theorem get_flag_iff (h : UART_HandleTypeDef) (m : Nat) :
    (__HAL_UART_GET_FLAG h m = true ↔ h.Instance.ISReg &&& m = m) ∧
    (__HAL_UART_GET_FLAG h m = true ↔
      ∀ i, m.testBit i = true → h.Instance.ISReg.testBit i = true) ∧
    (∀ n, __HAL_UART_GET_FLAG h (2 ^ n) = true ↔ h.Instance.ISReg.testBit n = true) ∧
    (∀ h' : UART_HandleTypeDef, h'.Instance.ISReg = h.Instance.ISReg →
      __HAL_UART_GET_FLAG h' m = __HAL_UART_GET_FLAG h m) := by
  have hdef : ∀ k, __HAL_UART_GET_FLAG h k = true ↔ h.Instance.ISReg &&& k = k := by
    intro k
    unfold __HAL_UART_GET_FLAG
    exact beq_iff_eq
  refine ⟨hdef m, ?_, fun n => ?_, fun h' hisr => ?_⟩
  · rw [hdef m]; exact and_eq_right_iff_testBit _ _
  · rw [hdef (2 ^ n)]; exact and_two_pow_eq_iff _ _
  · unfold __HAL_UART_GET_FLAG
    rw [hisr]

/-- Witness of C18 on the sample handle (`ISReg = 0x006000D0`): the mask 0xC0 (bits 7 and 6,
both set) is reported, the mask 0x20 (bit 5, clear) is not, and changing `CR1` and `ICR` does
not change the answer. -/
theorem get_flag_iff_witness :
    __HAL_UART_GET_FLAG sampleHandle 0xC0 = true ∧
    __HAL_UART_GET_FLAG sampleHandle 0x20 = false ∧
    sampleHandle.Instance.ISReg.testBit 6 = true ∧
    __HAL_UART_GET_FLAG
      { sampleHandle with Instance := { sampleRegs with CR1 := 0, ICR := 0xFFFF } } 0xC0 =
      __HAL_UART_GET_FLAG sampleHandle 0xC0 :=
  have w := get_flag_iff sampleHandle 0xC0
  ⟨w.1.mpr (by decide), by decide, (w.2.2.1 6).mp (by decide), w.2.2.2 _ rfl⟩

/-- C19: for every 32-bit mask `m`, `__HAL_UART_CLEAR_FLAG(m)` and `__HAL_UART_CLEAR_IT(m)` both
set `ICR` to exactly `m`, whatever `ICR` held before, and leave `ISReg`, `CR1`, `CR2`, `CR3`,
`RQR` and the handle's state fields unchanged; the two macros have the same effect. -/
theorem clear_flag_writes_icr (h : UART_HandleTypeDef) (m : Nat) (hm : m < 2 ^ 32) :
    __HAL_UART_CLEAR_FLAG h m = { h with Instance := { h.Instance with ICR := m } } ∧
    __HAL_UART_CLEAR_IT h m = __HAL_UART_CLEAR_FLAG h m ∧
    (__HAL_UART_CLEAR_FLAG h m).Instance.ICR = m ∧
    (__HAL_UART_CLEAR_FLAG h m).Instance.ISReg = h.Instance.ISReg ∧
    (__HAL_UART_CLEAR_FLAG h m).Instance.CR1 = h.Instance.CR1 ∧
    (__HAL_UART_CLEAR_FLAG h m).Instance.CR2 = h.Instance.CR2 ∧
    (__HAL_UART_CLEAR_FLAG h m).Instance.CR3 = h.Instance.CR3 ∧
    (__HAL_UART_CLEAR_FLAG h m).Instance.RQR = h.Instance.RQR ∧
    (∀ v : Nat,
      __HAL_UART_CLEAR_FLAG { h with Instance := { h.Instance with ICR := v } } m =
        __HAL_UART_CLEAR_FLAG h m) := by
  have e1 : __HAL_UART_CLEAR_FLAG h m = { h with Instance := { h.Instance with ICR := m } } := by
    unfold __HAL_UART_CLEAR_FLAG
    rw [Nat.mod_eq_of_lt hm]
  have e2 : __HAL_UART_CLEAR_IT h m = __HAL_UART_CLEAR_FLAG h m := by
    unfold __HAL_UART_CLEAR_IT __HAL_UART_CLEAR_FLAG
    rw [Nat.mod_mod]
  refine ⟨e1, e2, ?_, ?_, ?_, ?_, ?_, ?_, fun v => rfl⟩ <;> rw [e1]

/-- Witness of C19 on the sample handle (`ICR = 0x08` before) with the mask 0x0000121F. -/
theorem clear_flag_writes_icr_witness :
    (0x0000121F : Nat) < 2 ^ 32 ∧ sampleHandle.Instance.ICR = 0x08 ∧
    __HAL_UART_CLEAR_FLAG sampleHandle 0x0000121F =
      { sampleHandle with Instance := { sampleRegs with ICR := 0x0000121F } } ∧
    __HAL_UART_CLEAR_IT sampleHandle 0x0000121F =
      __HAL_UART_CLEAR_FLAG sampleHandle 0x0000121F :=
  have w := clear_flag_writes_icr sampleHandle 0x0000121F (by decide)
  ⟨by decide, by decide, w.1, w.2.1⟩

/-- C20: the values allowed for `gState` (RESET, READY, BUSY, BUSY_TX, TIMEOUT, ERROR) have bits
4, 3 and 1 clear, bits 7..6 equal to 00 except TIMEOUT (10) and ERROR (11), and bit 5 clear
exactly for RESET; the values allowed for `RxState` (RESET, READY, BUSY_RX) have bits 7, 6, 4,
3, 2 and 0 clear, bit 5 clear exactly for RESET and bit 1 set exactly for BUSY_RX. -/
theorem state_values_follow_bitmap :
    gStateValues =
      [HAL_UART_STATE_RESET, HAL_UART_STATE_READY, HAL_UART_STATE_BUSY,
       HAL_UART_STATE_BUSY_TX, HAL_UART_STATE_TIMEOUT, HAL_UART_STATE_ERROR] ∧
    gStateValues.map (fun v => v &&& 0b00011010) = [0, 0, 0, 0, 0, 0] ∧
    gStateValues.map (fun v => v >>> 6) = [0b00, 0b00, 0b00, 0b00, 0b10, 0b11] ∧
    gStateValues.map (fun v => v.testBit 5) = [false, true, true, true, true, true] ∧
    gStateValues.map (fun v => decide (v < 2 ^ 8)) = [true, true, true, true, true, true] ∧
    RxStateValues =
      [HAL_UART_STATE_RESET, HAL_UART_STATE_READY, HAL_UART_STATE_BUSY_RX] ∧
    RxStateValues.map (fun v => v &&& 0b11011101) = [0, 0, 0] ∧
    RxStateValues.map (fun v => v.testBit 5) = [false, true, true] ∧
    RxStateValues.map (fun v => v.testBit 1) = [false, false, true] ∧
    RxStateValues.map (fun v => decide (v < 2 ^ 8)) = [true, true, true] := by
  decide

/-- C21: `HAL_UART_STATE_BUSY_TX_RX` is the bitwise OR of the `gState` value
`HAL_UART_STATE_BUSY_TX` and the `RxState` value `HAL_UART_STATE_BUSY_RX`, and it is none of the
values allowed for `gState` and none of the values allowed for `RxState`. -/
theorem busy_tx_rx_is_combination :
    HAL_UART_STATE_BUSY_TX_RX = HAL_UART_STATE_BUSY_TX ||| HAL_UART_STATE_BUSY_RX ∧
    HAL_UART_STATE_BUSY_TX ∈ gStateValues ∧ HAL_UART_STATE_BUSY_RX ∈ RxStateValues ∧
    HAL_UART_STATE_BUSY_TX_RX ∉ gStateValues ∧
    HAL_UART_STATE_BUSY_TX_RX ∉ RxStateValues := by
  decide

/-- C22: `HAL_UART_ERROR_NONE` is 0, the five error codes are the single bits 0 to 4 and
pairwise distinct, and the OR of any subset of them has the bit of an error set exactly when
that error is in the subset. -/
theorem error_codes_form_bitmask :
    HAL_UART_ERROR_NONE = 0 ∧
    [HAL_UART_ERROR_PE, HAL_UART_ERROR_NE, HAL_UART_ERROR_FE, HAL_UART_ERROR_ORE,
      HAL_UART_ERROR_DMA] = [2 ^ 0, 2 ^ 1, 2 ^ 2, 2 ^ 3, 2 ^ 4] ∧
    [HAL_UART_ERROR_PE, HAL_UART_ERROR_NE, HAL_UART_ERROR_FE, HAL_UART_ERROR_ORE,
      HAL_UART_ERROR_DMA].Nodup ∧
    ∀ pe ne fe ore dma : Bool,
      (accumulatedErrorCode pe ne fe ore dma &&& HAL_UART_ERROR_PE = HAL_UART_ERROR_PE
        ↔ pe = true) ∧
      (accumulatedErrorCode pe ne fe ore dma &&& HAL_UART_ERROR_NE = HAL_UART_ERROR_NE
        ↔ ne = true) ∧
      (accumulatedErrorCode pe ne fe ore dma &&& HAL_UART_ERROR_FE = HAL_UART_ERROR_FE
        ↔ fe = true) ∧
      (accumulatedErrorCode pe ne fe ore dma &&& HAL_UART_ERROR_ORE = HAL_UART_ERROR_ORE
        ↔ ore = true) ∧
      (accumulatedErrorCode pe ne fe ore dma &&& HAL_UART_ERROR_DMA = HAL_UART_ERROR_DMA
        ↔ dma = true) := by
  decide

/-- C23: `__HAL_UART_RESET_HANDLE_STATE` sets `gState` and `RxState` to `HAL_UART_STATE_RESET`
and leaves every other field of the handle as it was, so the resulting handle does not have
`RxState = HAL_UART_STATE_BUSY_RX` together with `gState = HAL_UART_STATE_RESET`. -/
theorem reset_handle_state_effect (h : UART_HandleTypeDef) :
    __HAL_UART_RESET_HANDLE_STATE h =
      { h with gState := HAL_UART_STATE_RESET, RxState := HAL_UART_STATE_RESET } ∧
    (__HAL_UART_RESET_HANDLE_STATE h).gState = HAL_UART_STATE_RESET ∧
    (__HAL_UART_RESET_HANDLE_STATE h).RxState = HAL_UART_STATE_RESET ∧
    (__HAL_UART_RESET_HANDLE_STATE h).Instance = h.Instance ∧
    (__HAL_UART_RESET_HANDLE_STATE h).Init = h.Init ∧
    (__HAL_UART_RESET_HANDLE_STATE h).AdvancedInit = h.AdvancedInit ∧
    (__HAL_UART_RESET_HANDLE_STATE h).pTxBuffPtr = h.pTxBuffPtr ∧
    (__HAL_UART_RESET_HANDLE_STATE h).TxXferSize = h.TxXferSize ∧
    (__HAL_UART_RESET_HANDLE_STATE h).TxXferCount = h.TxXferCount ∧
    (__HAL_UART_RESET_HANDLE_STATE h).pRxBuffPtr = h.pRxBuffPtr ∧
    (__HAL_UART_RESET_HANDLE_STATE h).RxXferSize = h.RxXferSize ∧
    (__HAL_UART_RESET_HANDLE_STATE h).RxXferCount = h.RxXferCount ∧
    (__HAL_UART_RESET_HANDLE_STATE h).Mask = h.Mask ∧
    (__HAL_UART_RESET_HANDLE_STATE h).Lock = h.Lock ∧
    (__HAL_UART_RESET_HANDLE_STATE h).ErrorCode = h.ErrorCode ∧
    ¬ ((__HAL_UART_RESET_HANDLE_STATE h).RxState = HAL_UART_STATE_BUSY_RX ∧
       (__HAL_UART_RESET_HANDLE_STATE h).gState = HAL_UART_STATE_RESET) := by
  refine ⟨rfl, rfl, rfl, rfl, rfl, rfl, rfl, rfl, rfl, rfl, rfl, rfl, rfl, rfl, rfl, ?_⟩
  intro hbad
  have hrx : (__HAL_UART_RESET_HANDLE_STATE h).RxState = HAL_UART_STATE_RESET := rfl
  rw [hrx] at hbad
  exact absurd hbad.1 (by decide)

/-- C27: every interrupt token defined in the header has bit 7 and the bits from 13 up equal to
zero; the selector expression `(uint8_t)(t & 0xFF) >> 5` of the macros equals the two-bit field
`(t >> 5) & 3` on each of them (and on every value with bit 7 zero), and `t >> 8` is at most 31
on each of them (and on every value with no bit from 13 up). -/
theorem defined_tokens_follow_layout :
    UART_Interrupt_definition.map (fun t => t.testBit 7) = List.replicate 16 false ∧
    UART_Interrupt_definition.map (fun t => t >>> 13) = List.replicate 16 0 ∧
    UART_Interrupt_definition.map IT_selector =
      UART_Interrupt_definition.map (fun t => (t >>> 5) &&& 3) ∧
    UART_Interrupt_definition.map (fun t => decide (t >>> 8 ≤ 31)) = List.replicate 16 true ∧
    (∀ t : Nat, t.testBit 7 = false → IT_selector t = (t >>> 5) &&& 3) ∧
    (∀ t : Nat, t >>> 13 = 0 → t >>> 8 ≤ 31) :=
  ⟨by decide, by decide, by decide, by decide, IT_selector_two_bit_field,
   status_position_le_of_high_zero⟩

/-- Witness of C27 at `UART_IT_TXFT` = 0x1B77, the largest defined token: selector 3, flag
position 27. -/
theorem defined_tokens_follow_layout_witness :
    UART_IT_TXFT.testBit 7 = false ∧ UART_IT_TXFT >>> 13 = 0 ∧
    IT_selector UART_IT_TXFT = (UART_IT_TXFT >>> 5) &&& 3 ∧ UART_IT_TXFT >>> 8 ≤ 31 :=
  ⟨by decide, by decide, defined_tokens_follow_layout.2.2.2.2.1 UART_IT_TXFT (by decide),
   defined_tokens_follow_layout.2.2.2.2.2 UART_IT_TXFT (by decide)⟩

/-- C28: `IS_UART_ADVFEATURE_INIT(x)` holds exactly when `x <= 0xFF`, that is when `x` has no bit
outside `0x000000FF`, that is when `x` is the OR of a (possibly empty) sublist of the eight
`UART_ADVFEATURE_*_INIT` flags. -/
theorem is_uart_advfeature_init_iff (x : Nat) :
    (IS_UART_ADVFEATURE_INIT x = true ↔ x ≤ 0x000000FF) ∧
    (IS_UART_ADVFEATURE_INIT x = true ↔ ∀ i, 8 ≤ i → x.testBit i = false) ∧
    (IS_UART_ADVFEATURE_INIT x = true ↔
      ∃ S : List Nat, S.Sublist UART_Advanced_Features_Initialization_Type ∧ x = orAll S) := by
  have h1 : IS_UART_ADVFEATURE_INIT x = true ↔ x ≤ 0x000000FF := by
    unfold IS_UART_ADVFEATURE_INIT
    rw [decide_eq_true_iff]
    exact Iff.rfl
  refine ⟨h1, ?_, ?_⟩
  · rw [h1]
    constructor
    · intro hx i hi
      exact Nat.testBit_eq_false_of_lt
        (Nat.lt_of_lt_of_le (by omega : x < 2 ^ 8) (Nat.pow_le_pow_right (by decide) hi))
    · intro hbits
      have hlt : x < 2 ^ 8 := Nat.lt_pow_two_of_testBit x (fun i hi => hbits i hi)
      omega
  · rw [h1]
    constructor
    · intro hx
      exact ⟨_, List.filter_sublist _, (orAll_filter_advfeature x (by omega)).symm⟩
    · rintro ⟨S, hS, rfl⟩
      have hlt : orAll S < 2 ^ 8 :=
        orAll_lt S 8 (fun f hf => advfeature_flags_lt f (hS.subset hf))
      omega

/-- C29: when `USART_CR3_TXFTCFG_0/1/2` are three distinct single-bit masks, the six
`UART_TXFIFO_THRESHOLD_*` constants are pairwise distinct, `IS_UART_TXFIFO_THRESHOLD` accepts
exactly those six values, and the two other encodings of the field (`CFG_2|CFG_1` and
`CFG_2|CFG_1|CFG_0`) are rejected; the same holds for the `RXFTCFG` masks, the
`UART_RXFIFO_THRESHOLD_*` constants and `IS_UART_RXFIFO_THRESHOLD`. -/
theorem fifo_threshold_six_levels (k : USART_CR3_Masks)
    (ht0 : singleBit32 k.USART_CR3_TXFTCFG_0) (ht1 : singleBit32 k.USART_CR3_TXFTCFG_1)
    (ht2 : singleBit32 k.USART_CR3_TXFTCFG_2)
    (ht01 : k.USART_CR3_TXFTCFG_0 ≠ k.USART_CR3_TXFTCFG_1)
    (ht02 : k.USART_CR3_TXFTCFG_0 ≠ k.USART_CR3_TXFTCFG_2)
    (ht12 : k.USART_CR3_TXFTCFG_1 ≠ k.USART_CR3_TXFTCFG_2)
    (hr0 : singleBit32 k.USART_CR3_RXFTCFG_0) (hr1 : singleBit32 k.USART_CR3_RXFTCFG_1)
    (hr2 : singleBit32 k.USART_CR3_RXFTCFG_2)
    (hr01 : k.USART_CR3_RXFTCFG_0 ≠ k.USART_CR3_RXFTCFG_1)
    (hr02 : k.USART_CR3_RXFTCFG_0 ≠ k.USART_CR3_RXFTCFG_2)
    (hr12 : k.USART_CR3_RXFTCFG_1 ≠ k.USART_CR3_RXFTCFG_2) :
    ((UART_TXFIFO_threshold_level k).length = 6 ∧ (UART_TXFIFO_threshold_level k).Nodup ∧
      (∀ x, IS_UART_TXFIFO_THRESHOLD k x = true ↔ x ∈ UART_TXFIFO_threshold_level k) ∧
      IS_UART_TXFIFO_THRESHOLD k
        ((k.USART_CR3_TXFTCFG_2 ||| k.USART_CR3_TXFTCFG_1) % 2 ^ 32) = false ∧
      IS_UART_TXFIFO_THRESHOLD k
        ((k.USART_CR3_TXFTCFG_2 ||| k.USART_CR3_TXFTCFG_1 ||| k.USART_CR3_TXFTCFG_0)
          % 2 ^ 32) = false) ∧
    ((UART_RXFIFO_threshold_level k).length = 6 ∧ (UART_RXFIFO_threshold_level k).Nodup ∧
      (∀ x, IS_UART_RXFIFO_THRESHOLD k x = true ↔ x ∈ UART_RXFIFO_threshold_level k) ∧
      IS_UART_RXFIFO_THRESHOLD k
        ((k.USART_CR3_RXFTCFG_2 ||| k.USART_CR3_RXFTCFG_1) % 2 ^ 32) = false ∧
      IS_UART_RXFIFO_THRESHOLD k
        ((k.USART_CR3_RXFTCFG_2 ||| k.USART_CR3_RXFTCFG_1 ||| k.USART_CR3_RXFTCFG_0)
          % 2 ^ 32) = false) := by
  have etx : UART_TXFIFO_threshold_level k =
      thresholdLevels k.USART_CR3_TXFTCFG_0 k.USART_CR3_TXFTCFG_1 k.USART_CR3_TXFTCFG_2 := rfl
  have erx : UART_RXFIFO_threshold_level k =
      thresholdLevels k.USART_CR3_RXFTCFG_0 k.USART_CR3_RXFTCFG_1 k.USART_CR3_RXFTCFG_2 := rfl
  obtain ⟨t1, t2, t3⟩ := thresholdLevels_distinct _ _ _ ht0 ht1 ht2 ht01 ht02 ht12
  obtain ⟨r1, r2, r3⟩ := thresholdLevels_distinct _ _ _ hr0 hr1 hr2 hr01 hr02 hr12
  rw [← etx] at t1 t2 t3
  rw [← erx] at r1 r2 r3
  refine ⟨⟨rfl, t1, is_txfifo_threshold_iff k, ?_, ?_⟩,
    ⟨rfl, r1, is_rxfifo_threshold_iff k, ?_, ?_⟩⟩
  · exact Bool.eq_false_iff.mpr (fun hx => t2 ((is_txfifo_threshold_iff k _).mp hx))
  · exact Bool.eq_false_iff.mpr (fun hx => t3 ((is_txfifo_threshold_iff k _).mp hx))
  · exact Bool.eq_false_iff.mpr (fun hx => r2 ((is_rxfifo_threshold_iff k _).mp hx))
  · exact Bool.eq_false_iff.mpr (fun hx => r3 ((is_rxfifo_threshold_iff k _).mp hx))

/-- Witness of C29 at the sample masks (`TXFTCFG` bits 29 to 31, `RXFTCFG` bits 25 to 27): the
transmit levels are pairwise distinct and the encoding `CFG_2|CFG_1` = 0xC0000000 is
rejected. -/
theorem fifo_threshold_six_levels_witness :
    UART_TXFIFO_threshold_level sampleMasks =
      [0, 0x20000000, 0x40000000, 0x60000000, 0x80000000, 0xA0000000] ∧
    (UART_TXFIFO_threshold_level sampleMasks).Nodup ∧
    IS_UART_TXFIFO_THRESHOLD sampleMasks 0xC0000000 = false ∧
    IS_UART_RXFIFO_THRESHOLD sampleMasks 0x0E000000 = false :=
  have w := fifo_threshold_six_levels sampleMasks
    ⟨29, by decide, by decide⟩ ⟨30, by decide, by decide⟩ ⟨31, by decide, by decide⟩
    (by decide) (by decide) (by decide)
    ⟨25, by decide, by decide⟩ ⟨26, by decide, by decide⟩ ⟨27, by decide, by decide⟩
    (by decide) (by decide) (by decide)
  ⟨by decide, w.1.2.1, w.1.2.2.2.1, w.2.2.2.2.2⟩

/-- C30: with `USART_CR3_RTSE = 2^r` and `USART_CR3_CTSE = 2^c` single-bit masks of a 32-bit
register, on a handle whose `Init.HwFlowCtl` equals `CR3 & (RTSE|CTSE)` (and therefore
satisfies `IS_UART_HARDWARE_FLOW_CONTROL`), after each of the four `__HAL_UART_HWCONTROL_*`
macros `Init.HwFlowCtl` satisfies `IS_UART_HARDWARE_FLOW_CONTROL` and equals
`CR3 & (RTSE|CTSE)`, the targeted bit has the requested value in `CR3` and in
`Init.HwFlowCtl`, and every other bit of `CR3` and of `Init.HwFlowCtl` is unchanged. -/
theorem hwcontrol_macros_keep_consistency (k : USART_CR3_Masks) (h : UART_HandleTypeDef)
    (r c : Nat) (hr : r < 32) (hc : c < 32)
    (hR : k.USART_CR3_RTSE = 2 ^ r) (hC : k.USART_CR3_CTSE = 2 ^ c)
    (hwf : h.Instance.wf)
    (hinv : h.Instance.CR3 &&& (k.USART_CR3_RTSE ||| k.USART_CR3_CTSE) = h.Init.HwFlowCtl) :
    (IS_UART_HARDWARE_FLOW_CONTROL k (__HAL_UART_HWCONTROL_CTS_ENABLE k h).Init.HwFlowCtl = true ∧
      (__HAL_UART_HWCONTROL_CTS_ENABLE k h).Instance.CR3 &&&
          (k.USART_CR3_RTSE ||| k.USART_CR3_CTSE) =
        (__HAL_UART_HWCONTROL_CTS_ENABLE k h).Init.HwFlowCtl ∧
      (__HAL_UART_HWCONTROL_CTS_ENABLE k h).Instance.CR3.testBit c = true ∧
      (__HAL_UART_HWCONTROL_CTS_ENABLE k h).Init.HwFlowCtl.testBit c = true ∧
      (∀ i, i ≠ c → (__HAL_UART_HWCONTROL_CTS_ENABLE k h).Instance.CR3.testBit i =
        h.Instance.CR3.testBit i) ∧
      (∀ i, i ≠ c → (__HAL_UART_HWCONTROL_CTS_ENABLE k h).Init.HwFlowCtl.testBit i =
        h.Init.HwFlowCtl.testBit i)) ∧
    (IS_UART_HARDWARE_FLOW_CONTROL k (__HAL_UART_HWCONTROL_CTS_DISABLE k h).Init.HwFlowCtl = true ∧
      (__HAL_UART_HWCONTROL_CTS_DISABLE k h).Instance.CR3 &&&
          (k.USART_CR3_RTSE ||| k.USART_CR3_CTSE) =
        (__HAL_UART_HWCONTROL_CTS_DISABLE k h).Init.HwFlowCtl ∧
      (__HAL_UART_HWCONTROL_CTS_DISABLE k h).Instance.CR3.testBit c = false ∧
      (__HAL_UART_HWCONTROL_CTS_DISABLE k h).Init.HwFlowCtl.testBit c = false ∧
      (∀ i, i ≠ c → (__HAL_UART_HWCONTROL_CTS_DISABLE k h).Instance.CR3.testBit i =
        h.Instance.CR3.testBit i) ∧
      (∀ i, i ≠ c → (__HAL_UART_HWCONTROL_CTS_DISABLE k h).Init.HwFlowCtl.testBit i =
        h.Init.HwFlowCtl.testBit i)) ∧
    (IS_UART_HARDWARE_FLOW_CONTROL k (__HAL_UART_HWCONTROL_RTS_ENABLE k h).Init.HwFlowCtl = true ∧
      (__HAL_UART_HWCONTROL_RTS_ENABLE k h).Instance.CR3 &&&
          (k.USART_CR3_RTSE ||| k.USART_CR3_CTSE) =
        (__HAL_UART_HWCONTROL_RTS_ENABLE k h).Init.HwFlowCtl ∧
      (__HAL_UART_HWCONTROL_RTS_ENABLE k h).Instance.CR3.testBit r = true ∧
      (__HAL_UART_HWCONTROL_RTS_ENABLE k h).Init.HwFlowCtl.testBit r = true ∧
      (∀ i, i ≠ r → (__HAL_UART_HWCONTROL_RTS_ENABLE k h).Instance.CR3.testBit i =
        h.Instance.CR3.testBit i) ∧
      (∀ i, i ≠ r → (__HAL_UART_HWCONTROL_RTS_ENABLE k h).Init.HwFlowCtl.testBit i =
        h.Init.HwFlowCtl.testBit i)) ∧
    (IS_UART_HARDWARE_FLOW_CONTROL k (__HAL_UART_HWCONTROL_RTS_DISABLE k h).Init.HwFlowCtl = true ∧
      (__HAL_UART_HWCONTROL_RTS_DISABLE k h).Instance.CR3 &&&
          (k.USART_CR3_RTSE ||| k.USART_CR3_CTSE) =
        (__HAL_UART_HWCONTROL_RTS_DISABLE k h).Init.HwFlowCtl ∧
      (__HAL_UART_HWCONTROL_RTS_DISABLE k h).Instance.CR3.testBit r = false ∧
      (__HAL_UART_HWCONTROL_RTS_DISABLE k h).Init.HwFlowCtl.testBit r = false ∧
      (∀ i, i ≠ r → (__HAL_UART_HWCONTROL_RTS_DISABLE k h).Instance.CR3.testBit i =
        h.Instance.CR3.testBit i) ∧
      (∀ i, i ≠ r → (__HAL_UART_HWCONTROL_RTS_DISABLE k h).Init.HwFlowCtl.testBit i =
        h.Init.HwFlowCtl.testBit i)) := by
  have hy : h.Instance.CR3 < 2 ^ 32 := hwf.2.2.1
  have a1 : (__HAL_UART_HWCONTROL_CTS_ENABLE k h).Instance.CR3 =
      SET_BIT h.Instance.CR3 (2 ^ c) := by rw [← hC]; rfl
  have a2 : (__HAL_UART_HWCONTROL_CTS_ENABLE k h).Init.HwFlowCtl =
      SET_BIT h.Init.HwFlowCtl (2 ^ c) := by rw [← hC]; rfl
  have a3 : (__HAL_UART_HWCONTROL_CTS_DISABLE k h).Instance.CR3 =
      CLEAR_BIT h.Instance.CR3 (2 ^ c) := by rw [← hC]; rfl
  have a4 : (__HAL_UART_HWCONTROL_CTS_DISABLE k h).Init.HwFlowCtl =
      CLEAR_BIT h.Init.HwFlowCtl (2 ^ c) := by rw [← hC]; rfl
  have a5 : (__HAL_UART_HWCONTROL_RTS_ENABLE k h).Instance.CR3 =
      SET_BIT h.Instance.CR3 (2 ^ r) := by rw [← hR]; rfl
  have a6 : (__HAL_UART_HWCONTROL_RTS_ENABLE k h).Init.HwFlowCtl =
      SET_BIT h.Init.HwFlowCtl (2 ^ r) := by rw [← hR]; rfl
  have a7 : (__HAL_UART_HWCONTROL_RTS_DISABLE k h).Instance.CR3 =
      CLEAR_BIT h.Instance.CR3 (2 ^ r) := by rw [← hR]; rfl
  have a8 : (__HAL_UART_HWCONTROL_RTS_DISABLE k h).Init.HwFlowCtl =
      CLEAR_BIT h.Init.HwFlowCtl (2 ^ r) := by rw [← hR]; rfl
  rw [hR, hC] at hinv
  have ce := flow_set _ _ c r c hy hc (Or.inr rfl) hinv
  have cd := flow_clear _ _ c r c hy hinv
  have re := flow_set _ _ r r c hy hr (Or.inl rfl) hinv
  have rd := flow_clear _ _ r r c hy hinv
  rw [a1, a2, a3, a4, a5, a6, a7, a8, hR, hC]
  exact ⟨⟨is_hwfc_of_inv k _ _ r c hr hc hR hC ce.1, ce⟩,
    ⟨is_hwfc_of_inv k _ _ r c hr hc hR hC cd.1, cd⟩,
    ⟨is_hwfc_of_inv k _ _ r c hr hc hR hC re.1, re⟩,
    ⟨is_hwfc_of_inv k _ _ r c hr hc hR hC rd.1, rd⟩⟩

/-- Witness of C30 at the sample masks (`RTSE` bit 8, `CTSE` bit 9) on the sample handle with
RTS flow control on (`CR3 = 0x500`, `Init.HwFlowCtl = 0x100`): enabling CTS gives
`CR3 = 0x700` and `Init.HwFlowCtl = 0x300`, disabling RTS gives `CR3 = 0x400` and
`Init.HwFlowCtl = 0`. -/
theorem hwcontrol_macros_keep_consistency_witness :
    sampleFlowHandle.Instance.wf ∧
    IS_UART_HARDWARE_FLOW_CONTROL sampleMasks sampleFlowHandle.Init.HwFlowCtl = true ∧
    sampleFlowHandle.Instance.CR3 &&&
      (sampleMasks.USART_CR3_RTSE ||| sampleMasks.USART_CR3_CTSE) =
        sampleFlowHandle.Init.HwFlowCtl ∧
    (__HAL_UART_HWCONTROL_CTS_ENABLE sampleMasks sampleFlowHandle).Instance.CR3 = 0x700 ∧
    (__HAL_UART_HWCONTROL_CTS_ENABLE sampleMasks sampleFlowHandle).Init.HwFlowCtl = 0x300 ∧
    IS_UART_HARDWARE_FLOW_CONTROL sampleMasks
      (__HAL_UART_HWCONTROL_CTS_ENABLE sampleMasks sampleFlowHandle).Init.HwFlowCtl = true ∧
    (__HAL_UART_HWCONTROL_RTS_DISABLE sampleMasks sampleFlowHandle).Instance.CR3 = 0x400 ∧
    (__HAL_UART_HWCONTROL_RTS_DISABLE sampleMasks sampleFlowHandle).Init.HwFlowCtl = 0 ∧
    (__HAL_UART_HWCONTROL_RTS_DISABLE sampleMasks sampleFlowHandle).Init.HwFlowCtl.testBit 8 =
      false :=
  have w := hwcontrol_macros_keep_consistency sampleMasks sampleFlowHandle 8 9
    (by decide) (by decide) (by decide) (by decide) (by decide) (by decide)
  ⟨by decide, by decide, by decide, by decide, by decide, w.1.1, by decide, by decide,
   w.2.2.2.2.2.2.1⟩

/-- C25: a blocking transfer of `Size` units that starts on a Ready axis, moves `N < Size` units
(the polls of `pre` that find the flag set, none with an error, none of the others past the
deadline) and then polls the flag unset with the deadline `now + Timeout` elapsed returns
`Timeout` with `units_completed = N`, in particular 0 when no unit was moved; and whatever the
polls are, a transfer that returns `Timeout` has `units_completed < Size`. -/
theorem timeout_reports_units_completed (h : UART_HandleTypeDef) (Size Timeout now : Nat)
    (pre : List Poll) (p : Poll) (rest : List Poll)
    (hpre : ∀ q ∈ pre, q.errors = 0 ∧ (q.flag = false → q.now < now + Timeout))
    (hN : pre.countP (fun q => q.flag) < Size)
    (he : p.errors = 0) (hf : p.flag = false) (hd : now + Timeout ≤ p.now) :
    (globalAxisReady h.gState = true →
      ∃ r, HAL_UART_Transmit h Size Timeout now (pre ++ p :: rest) = some r ∧
        r.outcome = .Timeout ∧ r.units_completed = pre.countP (fun q => q.flag) ∧
        r.units_completed < Size ∧ r.handle.gState = HAL_UART_STATE_TIMEOUT) ∧
    (h.RxState = HAL_UART_STATE_READY →
      ∃ r, HAL_UART_Receive h Size Timeout now (pre ++ p :: rest) = some r ∧
        r.outcome = .Timeout ∧ r.units_completed = pre.countP (fun q => q.flag) ∧
        r.units_completed < Size ∧ r.handle.gState = HAL_UART_STATE_TIMEOUT) ∧
    (∀ (polls : List Poll) (r : TransferResult),
      HAL_UART_Transmit h Size Timeout now polls = some r ∨
        HAL_UART_Receive h Size Timeout now polls = some r →
      r.outcome = .Timeout → r.units_completed < Size) := by
  have hloop := transferLoop_timeout (now + Timeout) pre p rest Size 0 0 hpre hN he hf hd
  refine ⟨fun hg => ?_, fun hg => ?_, ?_⟩
  · rw [HAL_UART_Transmit_ready h Size Timeout now _ hg, hloop]
    exact ⟨_, rfl, rfl, by simp, by simpa using hN, rfl⟩
  · rw [HAL_UART_Receive_ready h _ Size Timeout now _ (receiveStart_ready h hg), hloop]
    exact ⟨_, rfl, rfl, by simp, by simpa using hN, rfl⟩
  · intro polls r hr ho
    rcases hr with hr | hr
    · by_cases hg : globalAxisReady h.gState = true
      · rw [HAL_UART_Transmit_ready h Size Timeout now polls hg] at hr
        obtain ⟨e, hle, rfl⟩ := Option.map_eq_some'.mp hr
        have := (transferLoop_end _ _ _ _ _ e hle).2.1 ho
        simpa using this
      · rw [HAL_UART_Transmit_busy h Size Timeout now polls (by simpa using hg)] at hr
        cases hr
        cases ho
    · by_cases hg : h.RxState = HAL_UART_STATE_READY
      · rw [HAL_UART_Receive_ready h _ Size Timeout now polls (receiveStart_ready h hg)] at hr
        obtain ⟨e, hle, rfl⟩ := Option.map_eq_some'.mp hr
        have := (transferLoop_end _ _ _ _ _ e hle).2.1 ho
        simpa using this
      · rw [HAL_UART_Receive_busy h Size Timeout now polls hg] at hr
        cases hr
        cases ho

/-- Witness of C25 on the sample handle with `Size = 3`, `Timeout = 100` and entry tick 0: one
unit is moved at tick 2 and the poll at tick 100 finds the deadline elapsed, so the transmit
returns `Timeout` with one unit completed. -/
theorem timeout_reports_units_completed_witness :
    globalAxisReady sampleHandle.gState = true ∧
    ∃ r, HAL_UART_Transmit sampleHandle 3 100 0
        ([pollIdle 1, pollReady 2, pollIdle 50] ++ pollIdle 100 :: []) = some r ∧
      r.outcome = .Timeout ∧
      r.units_completed = [pollIdle 1, pollReady 2, pollIdle 50].countP (fun q => q.flag) ∧
      r.units_completed < 3 ∧ r.handle.gState = HAL_UART_STATE_TIMEOUT :=
  ⟨by decide,
   (timeout_reports_units_completed sampleHandle 3 100 0 [pollIdle 1, pollReady 2, pollIdle 50]
      (pollIdle 100) [] (by decide) (by decide) (by decide) (by decide) (by decide)).1
      (by decide)⟩

/-- C26: after a transfer that ended in `HardwareError` or `Timeout`, `gState` holds the `ERROR`
or `TIMEOUT` marker and is not `RESET`, and `RxState` is `RESET` only if it was before. A fresh
transmit then moves `gState` to `BUSY_TX`, is never rejected, ends with `gState = READY` when it
succeeds, and does succeed when its polls find the flag set; after an aborted receive a fresh
receive moves `RxState` to `BUSY_RX`, is never rejected and ends with `RxState = READY`. -/
theorem error_marker_never_latches (h : UART_HandleTypeDef) (Size Timeout now : Nat)
    (polls : List Poll) (r : TransferResult)
    (hout : r.outcome = .HardwareError ∨ r.outcome = .Timeout) :
    (HAL_UART_Transmit h Size Timeout now polls = some r ∨
        HAL_UART_Receive h Size Timeout now polls = some r →
      (r.handle.gState = HAL_UART_STATE_ERROR ∨ r.handle.gState = HAL_UART_STATE_TIMEOUT) ∧
      r.handle.gState ≠ HAL_UART_STATE_RESET ∧
      (h.RxState ≠ HAL_UART_STATE_RESET → r.handle.RxState ≠ HAL_UART_STATE_RESET) ∧
      transmitStart r.handle = some { r.handle with gState := HAL_UART_STATE_BUSY_TX } ∧
      (∀ (Size2 Timeout2 now2 : Nat) (polls2 : List Poll) (r2 : TransferResult),
        HAL_UART_Transmit r.handle Size2 Timeout2 now2 polls2 = some r2 →
        r2.outcome ≠ .PeripheralBusy ∧
        (r2.outcome = .Success → r2.handle.gState = HAL_UART_STATE_READY) ∧
        r2.handle.gState ≠ HAL_UART_STATE_RESET) ∧
      (∀ (Size2 Timeout2 now2 t : Nat) (rest : List Poll),
        ∃ r2, HAL_UART_Transmit r.handle Size2 Timeout2 now2
            (List.replicate Size2 (pollReady t) ++ rest) = some r2 ∧
          r2.outcome = .Success ∧ r2.units_completed = Size2 ∧
          r2.handle.gState = HAL_UART_STATE_READY)) ∧
    (HAL_UART_Receive h Size Timeout now polls = some r →
      r.handle.RxState = HAL_UART_STATE_READY ∧
      receiveStart r.handle =
        some { r.handle with RxState := HAL_UART_STATE_BUSY_RX,
                             gState := HAL_UART_STATE_READY } ∧
      (∀ (Size2 Timeout2 now2 : Nat) (polls2 : List Poll) (r2 : TransferResult),
        HAL_UART_Receive r.handle Size2 Timeout2 now2 polls2 = some r2 →
        r2.outcome ≠ .PeripheralBusy ∧ r2.handle.RxState = HAL_UART_STATE_READY) ∧
      (∀ (Size2 Timeout2 now2 t : Nat) (rest : List Poll),
        ∃ r2, HAL_UART_Receive r.handle Size2 Timeout2 now2
            (List.replicate Size2 (pollReady t) ++ rest) = some r2 ∧
          r2.outcome = .Success ∧ r2.units_completed = Size2 ∧
          r2.handle.RxState = HAL_UART_STATE_READY)) := by
  have hnb : r.outcome ≠ .PeripheralBusy := by
    rcases hout with ho | ho <;> rw [ho] <;> decide
  -- the state after an aborted transmit
  have htx : HAL_UART_Transmit h Size Timeout now polls = some r →
      (r.handle.gState = HAL_UART_STATE_ERROR ∨ r.handle.gState = HAL_UART_STATE_TIMEOUT) ∧
      r.handle.RxState = h.RxState := by
    intro hr
    by_cases hg : globalAxisReady h.gState = true
    · rw [HAL_UART_Transmit_ready h Size Timeout now polls hg] at hr
      obtain ⟨e, _, rfl⟩ := Option.map_eq_some'.mp hr
      obtain ⟨_, t2, t3, t4⟩ :=
        transmitEnd_gState { h with gState := HAL_UART_STATE_BUSY_TX } e
      refine ⟨?_, t4⟩
      rcases hout with ho | ho
      · exact Or.inl (t2 ho).1
      · exact Or.inr (t3 ho)
    · rw [HAL_UART_Transmit_busy h Size Timeout now polls (by simpa using hg)] at hr
      cases hr
      exact absurd rfl hnb
  -- the state after an aborted receive
  have hrx : HAL_UART_Receive h Size Timeout now polls = some r →
      (r.handle.gState = HAL_UART_STATE_ERROR ∨ r.handle.gState = HAL_UART_STATE_TIMEOUT) ∧
      r.handle.RxState = HAL_UART_STATE_READY := by
    intro hr
    by_cases hg : h.RxState = HAL_UART_STATE_READY
    · rw [HAL_UART_Receive_ready h _ Size Timeout now polls (receiveStart_ready h hg)] at hr
      obtain ⟨e, _, rfl⟩ := Option.map_eq_some'.mp hr
      obtain ⟨r1, _, r3, r4⟩ := receiveEnd_state
        { h with RxState := HAL_UART_STATE_BUSY_RX, gState := clearedMarker h.gState } e hnb
      refine ⟨?_, r1⟩
      rcases hout with ho | ho
      · exact Or.inl (r3 ho).1
      · exact Or.inr (r4 ho)
    · rw [HAL_UART_Receive_busy h Size Timeout now polls hg] at hr
      cases hr
      exact absurd rfl hnb
  have hmark : ∀ g : Nat, g = HAL_UART_STATE_ERROR ∨ g = HAL_UART_STATE_TIMEOUT →
      globalAxisReady g = true ∧ g ≠ HAL_UART_STATE_RESET ∧
      clearedMarker g = HAL_UART_STATE_READY := by
    intro g hg
    rcases hg with e | e <;> rw [e] <;> decide
  constructor
  · intro hr
    have hst : (r.handle.gState = HAL_UART_STATE_ERROR ∨
        r.handle.gState = HAL_UART_STATE_TIMEOUT) ∧
        (h.RxState ≠ HAL_UART_STATE_RESET → r.handle.RxState ≠ HAL_UART_STATE_RESET) := by
      rcases hr with hr | hr
      · obtain ⟨a, b⟩ := htx hr
        exact ⟨a, fun hne => by rw [b]; exact hne⟩
      · obtain ⟨a, b⟩ := hrx hr
        exact ⟨a, fun _ => by rw [b]; decide⟩
    obtain ⟨m1, m2, _⟩ := hmark _ hst.1
    obtain ⟨f1, f2, f3⟩ := fresh_transmit r.handle m1
    exact ⟨hst.1, m2, hst.2, f1, f2, f3⟩
  · intro hr
    obtain ⟨a, b⟩ := hrx hr
    obtain ⟨_, _, m3⟩ := hmark _ a
    obtain ⟨f1, f2, f3⟩ := fresh_receive r.handle b
    rw [m3] at f1
    exact ⟨b, f1, f2, f3⟩

/-- Witness of C26: a transmit of two units on the sample handle that polls a latched overrun
error after one unit ends in `HardwareError` with `gState = ERROR`; a fresh transmit on the
resulting handle starts (`gState = BUSY_TX`) and, with the flag set at both polls, succeeds with
`gState = READY`. -/
theorem error_marker_never_latches_witness :
    HAL_UART_Transmit sampleHandle 2 100 0
      [pollReady 1, { now := 2, flag := false, errors := HAL_UART_ERROR_ORE }] =
        some sampleErrorResult ∧
    sampleErrorResult.outcome = .HardwareError ∧
    sampleErrorResult.handle.gState = HAL_UART_STATE_ERROR ∧
    sampleErrorResult.handle.gState ≠ HAL_UART_STATE_RESET ∧
    transmitStart sampleErrorResult.handle =
      some { sampleErrorResult.handle with gState := HAL_UART_STATE_BUSY_TX } ∧
    ∃ r2, HAL_UART_Transmit sampleErrorResult.handle 2 100 10
        (List.replicate 2 (pollReady 11) ++ []) = some r2 ∧
      r2.outcome = .Success ∧ r2.units_completed = 2 ∧
      r2.handle.gState = HAL_UART_STATE_READY :=
  have w := (error_marker_never_latches sampleHandle 2 100 0
    [pollReady 1, { now := 2, flag := false, errors := HAL_UART_ERROR_ORE }]
    sampleErrorResult (Or.inl rfl)).1 (Or.inl rfl)
  ⟨rfl, rfl, rfl, w.2.1, w.2.2.2.1, w.2.2.2.2.2 2 100 10 11 []⟩

/-- C31: for every token `t` and every register state, `__HAL_UART_ENABLE_IT(t)` applied twice
equals applying it once, `__HAL_UART_DISABLE_IT(t)` applied twice equals applying it once,
enable followed by disable equals disable alone, and disable followed by enable equals enable
alone. -/
theorem enable_disable_algebra (h : UART_HandleTypeDef) (t : Nat) :
    __HAL_UART_ENABLE_IT (__HAL_UART_ENABLE_IT h t) t = __HAL_UART_ENABLE_IT h t ∧
    __HAL_UART_DISABLE_IT (__HAL_UART_DISABLE_IT h t) t = __HAL_UART_DISABLE_IT h t ∧
    __HAL_UART_DISABLE_IT (__HAL_UART_ENABLE_IT h t) t = __HAL_UART_DISABLE_IT h t ∧
    __HAL_UART_ENABLE_IT (__HAL_UART_DISABLE_IT h t) t = __HAL_UART_ENABLE_IT h t := by
  refine ⟨?_, ?_, ?_, ?_⟩
  · rw [enable_it_eq (__HAL_UART_ENABLE_IT h t) t, enable_it_eq h t]
    simp only [ctrl_setCtrl_same, setCtrl_setCtrl, or_bit_idem]
  · rw [disable_it_eq (__HAL_UART_DISABLE_IT h t) t, disable_it_eq h t]
    simp only [ctrl_setCtrl_same, setCtrl_setCtrl, and_not_idem]
  · rw [disable_it_eq (__HAL_UART_ENABLE_IT h t) t, enable_it_eq h t, disable_it_eq h t]
    simp only [ctrl_setCtrl_same, setCtrl_setCtrl, or_then_and_not]
  · rw [enable_it_eq (__HAL_UART_DISABLE_IT h t) t, disable_it_eq h t, enable_it_eq h t]
    simp only [ctrl_setCtrl_same, setCtrl_setCtrl, and_not_then_or]

/-- C32: the thirteen tokens that carry an enable bit decode to pairwise distinct
(control register, bit position) pairs, and for any two different tokens `a` and `b` among
them, enabling or disabling `a` leaves `__HAL_UART_GET_IT_SOURCE(b)` unchanged on every register
state. -/
theorem enable_tokens_independent (a b : Nat) (ha : a ∈ UART_IT_enable_tokens)
    (hb : b ∈ UART_IT_enable_tokens) (hab : a ≠ b) :
    UART_IT_enable_tokens.map (fun t => (IT_register t, t &&& 0x1F)) =
      [(CtrlReg.CR1, 8), (CtrlReg.CR1, 7), (CtrlReg.CR1, 6), (CtrlReg.CR1, 5),
       (CtrlReg.CR2, 6), (CtrlReg.CR3, 10), (CtrlReg.CR1, 14), (CtrlReg.CR3, 22),
       (CtrlReg.CR1, 31), (CtrlReg.CR1, 30), (CtrlReg.CR3, 28), (CtrlReg.CR3, 23),
       (CtrlReg.CR3, 0)] ∧
    (UART_IT_enable_tokens.map (fun t => (IT_register t, t &&& 0x1F))).Nodup ∧
    (IT_register a, a &&& 0x1F) ≠ (IT_register b, b &&& 0x1F) ∧
    ∀ h : UART_HandleTypeDef,
      __HAL_UART_GET_IT_SOURCE (__HAL_UART_ENABLE_IT h a) b = __HAL_UART_GET_IT_SOURCE h b ∧
      __HAL_UART_GET_IT_SOURCE (__HAL_UART_DISABLE_IT h a) b = __HAL_UART_GET_IT_SOURCE h b := by
  have hne : (IT_register a, a &&& 0x1F) ≠ (IT_register b, b &&& 0x1F) :=
    fun e => hab (List.inj_on_of_nodup_map enable_tokens_nodup_pairs ha hb e)
  exact ⟨by decide, enable_tokens_nodup_pairs, hne, fun h => get_it_source_frame h a b hne⟩

/-- Witness of C32 at `UART_IT_TXE` and `UART_IT_TC` (both in `CR1`, bits 7 and 6) on the sample
handle: enabling `UART_IT_TXE` leaves the source bit of `UART_IT_TC` as it was. -/
theorem enable_tokens_independent_witness :
    UART_IT_TXE ∈ UART_IT_enable_tokens ∧ UART_IT_TC ∈ UART_IT_enable_tokens ∧
    UART_IT_TXE ≠ UART_IT_TC ∧
    __HAL_UART_GET_IT_SOURCE (__HAL_UART_ENABLE_IT sampleHandle UART_IT_TXE) UART_IT_TC =
      __HAL_UART_GET_IT_SOURCE sampleHandle UART_IT_TC ∧
    __HAL_UART_GET_IT_SOURCE (__HAL_UART_DISABLE_IT sampleHandle UART_IT_TXE) UART_IT_TC =
      __HAL_UART_GET_IT_SOURCE sampleHandle UART_IT_TC :=
  have w := enable_tokens_independent UART_IT_TXE UART_IT_TC (by decide) (by decide)
    (by decide)
  ⟨by decide, by decide, by decide, (w.2.2.2 sampleHandle).1, (w.2.2.2 sampleHandle).2⟩

/-- C33: the fifteen tokens that carry a status flag have pairwise distinct status bit positions
`t >> 8`, so for any two different tokens `a` and `b` among them `__HAL_UART_GET_IT` tests two
different bits of `ISReg`: bit `a >> 8` for `a` and bit `b >> 8` for `b`. -/
theorem flag_tokens_distinct_positions (a b : Nat) (ha : a ∈ UART_IT_flag_tokens)
    (hb : b ∈ UART_IT_flag_tokens) (hab : a ≠ b) :
    UART_IT_flag_tokens.map (fun t => t >>> 8) =
      [0, 7, 6, 5, 8, 9, 17, 20, 24, 23, 26, 27, 3, 2, 1] ∧
    (UART_IT_flag_tokens.map (fun t => t >>> 8)).Nodup ∧
    a >>> 8 ≠ b >>> 8 ∧
    ∀ h : UART_HandleTypeDef,
      __HAL_UART_GET_IT h a = h.Instance.ISReg &&& 2 ^ (a >>> 8) ∧
      __HAL_UART_GET_IT h b = h.Instance.ISReg &&& 2 ^ (b >>> 8) ∧
      (__HAL_UART_GET_IT h a ≠ 0 ↔ h.Instance.ISReg.testBit (a >>> 8) = true) ∧
      (__HAL_UART_GET_IT h b ≠ 0 ↔ h.Instance.ISReg.testBit (b >>> 8) = true) := by
  have hne : a >>> 8 ≠ b >>> 8 :=
    fun e => hab (List.inj_on_of_nodup_map flag_tokens_nodup_positions ha hb e)
  refine ⟨by decide, flag_tokens_nodup_positions, hne, fun h => ?_⟩
  have ea := get_it_eq h a (flag_tokens_lt a ha)
  have eb := get_it_eq h b (flag_tokens_lt b hb)
  refine ⟨ea, eb, ?_, ?_⟩
  · rw [ea]; exact and_two_pow_ne_zero_iff _ _
  · rw [eb]; exact and_two_pow_ne_zero_iff _ _

/-- Witness of C33 at `UART_IT_TXE` (flag position 7) and `UART_IT_TC` (flag position 6) on the
sample handle, whose `ISReg = 0x006000D0` has both bits set. -/
theorem flag_tokens_distinct_positions_witness :
    UART_IT_TXE ∈ UART_IT_flag_tokens ∧ UART_IT_TC ∈ UART_IT_flag_tokens ∧
    UART_IT_TXE ≠ UART_IT_TC ∧ UART_IT_TXE >>> 8 ≠ UART_IT_TC >>> 8 ∧
    __HAL_UART_GET_IT sampleHandle UART_IT_TXE = 0x80 ∧
    __HAL_UART_GET_IT sampleHandle UART_IT_TC = 0x40 :=
  have w := flag_tokens_distinct_positions UART_IT_TXE UART_IT_TC (by decide) (by decide)
    (by decide)
  ⟨by decide, by decide, by decide, w.2.2.1, (w.2.2.2 sampleHandle).1.trans (by decide),
   (w.2.2.2 sampleHandle).2.1.trans (by decide)⟩

/-- C34: `UART_IT_ORE`, `UART_IT_NE` and `UART_IT_FE` have selector field 0 and bit position 0,
so `__HAL_UART_GET_IT_SOURCE` on each of them reads bit 0 of `CR3`, the bit that `UART_IT_ERR`
(selector 3, bit position 0) enables; on every register state the four results are equal. -/
theorem flag_only_tokens_source_is_err (h : UART_HandleTypeDef) :
    [UART_IT_ORE, UART_IT_NE, UART_IT_FE].map IT_selector = [0, 0, 0] ∧
    [UART_IT_ORE, UART_IT_NE, UART_IT_FE].map (fun t => t &&& UART_IT_MASK) = [0, 0, 0] ∧
    IT_selector UART_IT_ERR = 3 ∧ UART_IT_ERR &&& UART_IT_MASK = 0 ∧
    __HAL_UART_GET_IT_SOURCE h UART_IT_ERR = h.Instance.CR3 &&& 1 ∧
    __HAL_UART_GET_IT_SOURCE h UART_IT_ORE = __HAL_UART_GET_IT_SOURCE h UART_IT_ERR ∧
    __HAL_UART_GET_IT_SOURCE h UART_IT_NE = __HAL_UART_GET_IT_SOURCE h UART_IT_ERR ∧
    __HAL_UART_GET_IT_SOURCE h UART_IT_FE = __HAL_UART_GET_IT_SOURCE h UART_IT_ERR ∧
    (__HAL_UART_ENABLE_IT h UART_IT_ERR).Instance.CR3 = (h.Instance.CR3 ||| 1) % 2 ^ 32 := by
  have key : ∀ t : Nat, IT_register t = CtrlReg.CR3 → IT_bit t = 1 →
      __HAL_UART_GET_IT_SOURCE h t = h.Instance.CR3 &&& 1 := by
    intro t hr hbit
    rw [get_it_source_eq, hr, hbit]
    rfl
  have eerr := key UART_IT_ERR (by decide) (by decide)
  refine ⟨by decide, by decide, by decide, by decide, eerr, ?_, ?_, ?_, rfl⟩
  · rw [eerr]; exact key UART_IT_ORE (by decide) (by decide)
  · rw [eerr]; exact key UART_IT_NE (by decide) (by decide)
  · rw [eerr]; exact key UART_IT_FE (by decide) (by decide)

/-- C35: `UART_IT_ERR` has bits 8..12 equal to zero, so `__HAL_UART_GET_IT(UART_IT_ERR)` tests
bit 0 of `ISReg` and equals `__HAL_UART_GET_IT(UART_IT_PE)` for every `ISReg`; its value is the
same on any two states that agree on bit 0 of `ISReg`, whatever bits 3, 2 and 1 (the positions
that `UART_IT_ORE`, `UART_IT_NE` and `UART_IT_FE` test) hold. -/
theorem get_it_err_tests_bit_zero (h : UART_HandleTypeDef) :
    UART_IT_ERR >>> 8 = 0 ∧ UART_IT_PE >>> 8 = 0 ∧
    [UART_IT_ORE, UART_IT_NE, UART_IT_FE].map (fun t => t >>> 8) = [3, 2, 1] ∧
    __HAL_UART_GET_IT h UART_IT_ERR = h.Instance.ISReg &&& 1 ∧
    __HAL_UART_GET_IT h UART_IT_ERR = __HAL_UART_GET_IT h UART_IT_PE ∧
    (__HAL_UART_GET_IT h UART_IT_ERR ≠ 0 ↔ h.Instance.ISReg.testBit 0 = true) ∧
    (∀ h2 : UART_HandleTypeDef, h2.Instance.ISReg.testBit 0 = h.Instance.ISReg.testBit 0 →
      __HAL_UART_GET_IT h2 UART_IT_ERR = __HAL_UART_GET_IT h UART_IT_ERR) := by
  have e : ∀ g : UART_HandleTypeDef, __HAL_UART_GET_IT g UART_IT_ERR = g.Instance.ISReg &&& 1 :=
    fun g => get_it_eq g UART_IT_ERR (by decide)
  have epe : __HAL_UART_GET_IT h UART_IT_PE = h.Instance.ISReg &&& 1 :=
    get_it_eq h UART_IT_PE (by decide)
  refine ⟨by decide, by decide, by decide, e h, (e h).trans epe.symm, ?_, fun h2 hbit => ?_⟩
  · rw [e h]
    exact and_two_pow_ne_zero_iff _ 0
  · rw [e h2, e h]
    exact and_one_eq_of_testBit_zero _ _ hbit

/-- Witness of C35 on the sample handle (`ISReg = 0x006000D0`, bit 0 clear) and on the sample
handle with the overrun, noise and frame flags set in addition (`ISReg = 0x006000DE`): both
give 0 for `UART_IT_ERR`, and the second gives 8 for `UART_IT_ORE`. -/
theorem get_it_err_tests_bit_zero_witness :
    ({ sampleHandle with Instance := { sampleRegs with ISReg := 0x006000DE } }
      ).Instance.ISReg.testBit 0 = sampleHandle.Instance.ISReg.testBit 0 ∧
    __HAL_UART_GET_IT { sampleHandle with Instance := { sampleRegs with ISReg := 0x006000DE } }
      UART_IT_ERR = __HAL_UART_GET_IT sampleHandle UART_IT_ERR ∧
    __HAL_UART_GET_IT sampleHandle UART_IT_ERR = 0 ∧
    __HAL_UART_GET_IT { sampleHandle with Instance := { sampleRegs with ISReg := 0x006000DE } }
      UART_IT_ORE = 8 :=
  ⟨by decide,
   (get_it_err_tests_bit_zero sampleHandle).2.2.2.2.2.2
     { sampleHandle with Instance := { sampleRegs with ISReg := 0x006000DE } } (by decide),
   by decide, by decide⟩

/-- C36: on the pairs `(g, r)` of a `gState` value other than `RESET` and an `RxState` value
other than `RESET`, the combination `g | r` takes ten pairwise distinct values, `r` is recovered
from bit 1 (`BUSY_RX` when set, `READY` when clear) and `g` from the remaining bits. -/
theorem composite_state_decodable :
    gStateValues.tail =
      [HAL_UART_STATE_READY, HAL_UART_STATE_BUSY, HAL_UART_STATE_BUSY_TX,
       HAL_UART_STATE_TIMEOUT, HAL_UART_STATE_ERROR] ∧
    RxStateValues.tail = [HAL_UART_STATE_READY, HAL_UART_STATE_BUSY_RX] ∧
    (List.product gStateValues.tail RxStateValues.tail).map (fun p => p.1 ||| p.2) =
      [0x20, 0x22, 0x24, 0x26, 0x21, 0x23, 0xA0, 0xA2, 0xE0, 0xE2] ∧
    ((List.product gStateValues.tail RxStateValues.tail).map (fun p => p.1 ||| p.2)).Nodup ∧
    (List.product gStateValues.tail RxStateValues.tail).map
        (fun p => ((p.1 ||| p.2) &&& 0xFD,
          if (p.1 ||| p.2).testBit 1 then HAL_UART_STATE_BUSY_RX else HAL_UART_STATE_READY)) =
      List.product gStateValues.tail RxStateValues.tail := by
  decide

/-- C37: for every clock `c <= 100000000`, every prescaler index `p <= 11` and every baud rate
`1 <= b <= 12500000`, with `d = presc_table[p]` the sums `c / d + b / 2` and
`2 * (c / d) + b / 2` are below `2^32`, and `uart_div_sampling16` and `uart_div_sampling8`
return the same formulas computed over the natural numbers. -/
theorem no_overflow_on_supported_range (c b p : Nat) (hc : c ≤ 100000000) (hp : p ≤ 11)
    (hb1 : 1 ≤ b) (hb2 : b ≤ 12500000) :
    ∃ d, presc_table[p]? = some d ∧
      c / d + b / 2 < 2 ^ 32 ∧ 2 * (c / d) + b / 2 < 2 ^ 32 ∧
      uart_div_sampling16 c b p = some ((c / d + b / 2) / b) ∧
      uart_div_sampling8 c b p = some ((2 * (c / d) + b / 2) / b) := by
  obtain ⟨d, hd, _⟩ := presc_table_lookup p (by omega)
  have hle : c / d ≤ c := Nat.div_le_self c d
  have h16 : c / d + b / 2 < 2 ^ 32 := by omega
  have h8 : 2 * (c / d) + b / 2 < 2 ^ 32 := by omega
  obtain ⟨e16, e8⟩ := uart_div_sampling_exact c b p d hd hb1
  exact ⟨d, hd, h16, h8, e16 h16, e8 h8⟩

/-- Witness of C37 at the corner of the supported range: clock 100000000, prescaler index 0 and
baud rate 12500000 give 8 (16x) and 16 (8x). -/
theorem no_overflow_on_supported_range_witness :
    (100000000 : Nat) ≤ 100000000 ∧ (0 : Nat) ≤ 11 ∧ (1 : Nat) ≤ 12500000 ∧
    (12500000 : Nat) ≤ 12500000 ∧
    uart_div_sampling16 100000000 12500000 0 = some 8 ∧
    uart_div_sampling8 100000000 12500000 0 = some 16 ∧
    ∃ d, presc_table[0]? = some d ∧
      100000000 / d + 12500000 / 2 < 2 ^ 32 ∧ 2 * (100000000 / d) + 12500000 / 2 < 2 ^ 32 ∧
      uart_div_sampling16 100000000 12500000 0 = some ((100000000 / d + 12500000 / 2) / 12500000) ∧
      uart_div_sampling8 100000000 12500000 0 =
        some ((2 * (100000000 / d) + 12500000 / 2) / 12500000) :=
  ⟨by decide, by decide, by decide, by decide, by decide, by decide,
   no_overflow_on_supported_range 100000000 12500000 0 (by decide) (by decide) (by decide)
     (by decide)⟩

/-- C38: for a baud rate `b >= 1` and `s = c / presc_table[p]`, when `s + b/2` does not overflow
`uart_div_sampling16` returns 0 exactly when `s < (b + 1) / 2`, and when `2*s + b/2` does not
overflow `uart_div_sampling8` returns 0 exactly when `2*s < (b + 1) / 2`; clock 1, baud rate
12500000 and `UART_PRESCALER_DIV1` pass `IS_UART_BAUDRATE` and `IS_UART_PRESCALER` and give
divisor 0 in both modes. -/
theorem zero_divisor_iff (c b p d : Nat) (hd : presc_table[p]? = some d) (hb : 1 ≤ b) :
    (c / d + b / 2 < 2 ^ 32 →
      (uart_div_sampling16 c b p = some 0 ↔ c / d < (b + 1) / 2)) ∧
    (2 * (c / d) + b / 2 < 2 ^ 32 →
      (uart_div_sampling8 c b p = some 0 ↔ 2 * (c / d) < (b + 1) / 2)) ∧
    IS_UART_BAUDRATE 12500000 = true ∧
    IS_UART_PRESCALER UART_PRESCALER_DIV1 = true ∧
    uart_div_sampling16 1 12500000 UART_PRESCALER_DIV1 = some 0 ∧
    uart_div_sampling8 1 12500000 UART_PRESCALER_DIV1 = some 0 := by
  obtain ⟨e16, e8⟩ := uart_div_sampling_exact c b p d hd hb
  refine ⟨fun hs => ?_, fun hs => ?_, by decide, by decide, by decide, by decide⟩
  · rw [e16 hs, Option.some.injEq]
    exact round_div_eq_zero_iff (c / d) b hb
  · rw [e8 hs, Option.some.injEq]
    exact round_div_eq_zero_iff (2 * (c / d)) b hb

/-- Witness of C38 at clock 4800, baud rate 9600 and prescaler index 0: the scaled clock 4800 is
not below (9600 + 1) / 2 = 4800, so the 16x divisor is not 0 (it is 1), while at clock 4799 it
is 0. -/
theorem zero_divisor_iff_witness :
    presc_table[0]? = some 1 ∧ (1 : Nat) ≤ 9600 ∧ 4799 / 1 + 9600 / 2 < 2 ^ 32 ∧
    4799 / 1 < (9600 + 1) / 2 ∧
    uart_div_sampling16 4799 9600 0 = some 0 ∧
    uart_div_sampling16 4800 9600 0 = some 1 ∧
    uart_div_sampling8 2399 9600 0 = some 0 :=
  have w := zero_divisor_iff 4799 9600 0 1 (by decide) (by decide)
  ⟨by decide, by decide, by decide, by decide, (w.1 (by decide)).mpr (by decide), by decide,
   ((zero_divisor_iff 2399 9600 0 1 (by decide) (by decide)).2.1 (by decide)).mpr
     (by decide)⟩

end Stm32Uart
